import Mathlib

/-!
CryAudio translation layer (ATL.cpp): request dispatch and backend lifecycle.

A shallow embedding of `Code/CryEngine/CryAudioSystem/ATL.cpp`.

* Pointers are natural numbers; a pointer that may be null is an `Option`.
* Everything the file calls but does not define (managers, backend, triggers,
  logger) is a collaborator.  A call to a collaborator is appended to
  `State.trace`; what the collaborator returns, and what it does to the objects,
  events, files and control tables, is read from an `Env`, which is a parameter of
  every function of the model.
* Dereferencing a null pointer and `CryFatalError` end the run with a `Fault`.
* A flag word is a record with one `Bool` per flag named in the file and the
  remaining bits in `rest`.
-/

namespace CryAudio

/-! ## Plain data -/

abbrev ControlId := Nat
abbrev SwitchStateId := Nat
abbrev EnvironmentId := Nat
abbrev PreloadRequestId := Nat
abbrev EntityId := Nat
abbrev ObjPtr := Nat
abbrev EvPtr := Nat
abbrev FilePtr := Nat
abbrev ListenerPtr := Nat
abbrev OpaquePtr := Nat
/-- A float-valued payload the file only passes on (transformation, amount, value). -/
abbrev Payload := Nat

/-- The status taxonomy; `other` stands for any value not named in ATL.cpp. -/
inductive ERequestStatus
  | None
  | Success
  | PartialSuccess
  | Failure
  | FailureInvalidControlId
  | FailureInvalidRequest
  | SuccessNeedsRefresh
  | other (raw : Nat)
  deriving DecidableEq, Repr

inductive ERequestResult
  | Success
  | Failure
  deriving DecidableEq, Repr

inductive ELogType
  | Warning
  | Error
  deriving DecidableEq, Repr

inductive ESystemEvents
  | None
  | ImplSet
  | TriggerExecuted
  | TriggerFinished
  | FilePlay
  | FileStarted
  | FileStopped
  deriving DecidableEq, Repr

inductive EEventState
  | None
  | Playing
  | PlayingDelayed
  | Virtual
  deriving DecidableEq, Repr

inductive EAudioStandaloneFileState
  | None
  | Playing
  deriving DecidableEq, Repr

inductive EDataScope
  | All
  | Global
  | LevelSpecific
  | other (raw : Nat)
  deriving DecidableEq, Repr

/-- The occlusion types `SetOcclusionType` has a case for, and everything else. -/
inductive EOcclusionType
  | Ignore
  | Adaptive
  | Low
  | Medium
  | High
  | other (raw : Nat)
  deriving DecidableEq, Repr

/-- The flags of `EObjectFlags` that ATL.cpp names. -/
inductive EObjectFlags
  | InUse
  | Virtual
  | TrackAbsoluteVelocity
  | TrackRelativeVelocity
  deriving DecidableEq, Repr

/-- The flag word `CATLAudioObject::m_flags`. -/
structure ObjectFlags where
  InUse : Bool
  Virtual : Bool
  TrackAbsoluteVelocity : Bool
  TrackRelativeVelocity : Bool
  rest : Nat
  deriving DecidableEq, Repr

/-- The flag word `CAudioTranslationLayer::m_flags` (`EInternalStates`). -/
structure InternalStates where
  AudioMiddlewareShuttingDown : Bool
  rest : Nat
  deriving DecidableEq, Repr

/-- The flag word `CAudioRequest::flags`. -/
structure ERequestFlags where
  ExecuteBlocking : Bool
  rest : Nat
  deriving DecidableEq, Repr

/-- A backend: one handed in by the caller, or a `new Impl::Null::CImpl()` made here
(`serial` counts those allocations). -/
inductive ImplPtr
  | user (id : Nat)
  | null (serial : Nat)
  deriving DecidableEq, Repr

/-- A backend-side object handle (`Impl::IObject*`), tagged with the backend that
constructed it. -/
structure ImplData where
  owner : ImplPtr
  id : Nat
  deriving DecidableEq, Repr

/-- The members of `CATLAudioObject` that ATL.cpp reads or writes. -/
structure CATLAudioObject where
  m_flags : ObjectFlags
  m_pImplData : Option ImplData
  m_activeEvents : List (Option EvPtr)
  m_transformation : Payload
  deriving DecidableEq, Repr

structure CATLEvent where
  m_state : EEventState
  m_pAudioObject : Option ObjPtr
  deriving DecidableEq, Repr

structure CATLStandaloneFile where
  m_state : EAudioStandaloneFileState
  m_pAudioObject : Option ObjPtr
  deriving DecidableEq, Repr

/-- A switch with its state table (`CATLSwitch::GetStates`). -/
structure CATLSwitch where
  ptr : Nat
  states : List (SwitchStateId × Nat)
  deriving DecidableEq, Repr

structure SAudioAreaInfo where
  amount : Payload
  audioEnvironmentId : EnvironmentId
  envProvidingEntityId : EntityId
  deriving DecidableEq, Repr

structure SImplInfo where
  name : String
  folderName : String
  deriving DecidableEq, Repr

/-- The notification handed to the event-listener manager. -/
structure SRequestInfo where
  requestResult : ERequestResult
  pOwner : Option OpaquePtr
  pUserData : Option OpaquePtr
  pUserDataOwner : Option OpaquePtr
  systemEvent : ESystemEvents
  audioControlId : ControlId
  pAudioObject : Option ObjPtr
  pStandaloneFile : Option FilePtr
  pAudioEvent : Option EvPtr
  deriving DecidableEq, Repr

/-! ## Requests -/

inductive SAudioManagerRequestData
  | AddRequestListener (func : OpaquePtr) (pObjectToListenTo : Option OpaquePtr)
  | RemoveRequestListener (func : OpaquePtr) (pObjectToListenTo : Option OpaquePtr)
  | SetAudioImpl (pIImpl : Option ImplPtr)
  | RefreshAudioSystem (levelName : Option String)
  | StopAllSounds
  | ParseControlsData (folderPath : String) (dataScope : EDataScope)
  | ParsePreloadsData (folderPath : String) (dataScope : EDataScope)
  | ClearControlsData (dataScope : EDataScope)
  | ClearPreloadsData (dataScope : EDataScope)
  | PreloadSingleRequest (audioPreloadRequestId : PreloadRequestId) (bAutoLoadOnly : Bool)
  | UnloadSingleRequest (audioPreloadRequestId : PreloadRequestId)
  | UnloadAFCMDataByScope (dataScope : EDataScope)
  | ReleaseAudioImpl
  | ChangeLanguage
  | RetriggerAudioControls
  | ReleasePendingRays
  | ReloadControlsData (folderPath : String) (levelName : String)
  | DrawDebugInfo
  | GetAudioFileData (name : String) (fileData : OpaquePtr)
  | GetImplInfo (implInfo : OpaquePtr)
  | None
  | unknown (type : Nat)
  deriving DecidableEq, Repr

inductive SAudioCallbackManagerRequestData
  | ReportStartedEvent (audioEvent : EvPtr)
  | ReportFinishedEvent (audioEvent : EvPtr) (bSuccess : Bool)
  | ReportVirtualizedEvent (audioEvent : EvPtr)
  | ReportPhysicalizedEvent (audioEvent : EvPtr)
  | ReportStartedFile (audioStandaloneFile : FilePtr) (bSuccess : Bool)
  | ReportStoppedFile (audioStandaloneFile : FilePtr)
  | ReportFinishedTriggerInstance (audioTriggerId : ControlId)
  | None
  | unknown (type : Nat)
  deriving DecidableEq, Repr

inductive SAudioObjectRequestData
  | LoadTrigger (audioTriggerId : ControlId)
  | UnloadTrigger (audioTriggerId : ControlId)
  | PlayFile (file : String) (usedAudioTriggerId : ControlId) (bLocalized : Bool)
  | StopFile (file : String)
  | ExecuteTrigger (audioTriggerId : ControlId)
  | ExecuteTriggerEx (name : String) (entityId : EntityId) (transformation : Payload)
      (setCurrentEnvironments : Bool) (occlusionType : EOcclusionType) (triggerId : ControlId)
  | StopTrigger (audioTriggerId : ControlId)
  | StopAllTriggers
  | SetTransformation (transformation : Payload)
  | SetParameter (parameterId : ControlId) (value : Payload)
  | SetSwitchState (audioSwitchId : ControlId) (audioSwitchStateId : SwitchStateId)
  | SetOcclusionType (occlusionType : EOcclusionType)
  | SetCurrentEnvironments (entityToIgnore : EntityId)
  | SetEnvironment (audioEnvironmentId : EnvironmentId) (amount : Payload)
  | RegisterObject (name : String) (entityId : EntityId) (transformation : Payload)
      (setCurrentEnvironments : Bool) (occlusionType : EOcclusionType)
  | ReleaseObject
  | ProcessPhysicsRay (pAudioRayInfo : OpaquePtr)
  | SetName (name : String)
  | ToggleAbsoluteVelocityTracking (isEnabled : Bool)
  | ToggleRelativeVelocityTracking (isEnabled : Bool)
  | None
  | unknown (type : Nat)
  deriving DecidableEq, Repr

inductive SAudioListenerRequestData
  | SetTransformation (pListener : Option ListenerPtr) (transformation : Payload)
  | RegisterListener (ppListener : Option Nat) (name : String)
  | ReleaseListener (pListener : Option ListenerPtr)
  | SetName (pListener : Option ListenerPtr) (name : String)
  | None
  | unknown (type : Nat)
  deriving DecidableEq, Repr

/-- The request payload, by category; `unknown` is any other `EAudioRequestType`. -/
inductive SAudioRequestData
  | AudioObjectRequest (d : SAudioObjectRequestData)
  | AudioListenerRequest (d : SAudioListenerRequestData)
  | AudioCallbackManagerRequest (d : SAudioCallbackManagerRequestData)
  | AudioManagerRequest (d : SAudioManagerRequestData)
  | unknown (type : Nat)
  deriving DecidableEq, Repr

structure CAudioRequest where
  flags : ERequestFlags
  pObject : Option ObjPtr
  pOwner : Option OpaquePtr
  pUserData : Option OpaquePtr
  pUserDataOwner : Option OpaquePtr
  status : ERequestStatus
  data : Option SAudioRequestData
  deriving DecidableEq, Repr

/-! ## Collaborators -/

/-- The `CRY_ASSERT`s of the modelled functions; one is recorded when its condition
is false. -/
inductive Assertion
  | ConvertToRequestResult_default
  | ProcessRequest_default
  | SetTransformation_notGlobalObject
  | SetOcclusionType_notGlobalObject
  | Listener_SetTransformation_notNull
  | Listener_ReleaseListener_notNull
  | SetImpl_globalObjectImplDataNull
  | RefreshAudioSystem_StopAllSounds
  | RefreshAudioSystem_UnloadLevelSpecific
  | RefreshAudioSystem_UnloadGlobal
  deriving DecidableEq, Repr

/-- Calls on the backend `g_pIImpl`. -/
inductive ImplCall
  | Init (objectPoolSize eventPoolSize : Nat)
  | ShutDown
  | Release
  | GetInfo
  | ConstructGlobalObject
  | ConstructObject (name : Option String)
  | DestructObject (pObject : Option ImplData)
  | SetLanguage (language : String)
  | StopAllSounds
  | OnRefresh
  | GetFileData (name : String) (fileData : OpaquePtr)
  deriving DecidableEq, Repr

/-- Calls on `g_objectManager`. -/
inductive ObjectManagerCall
  | Initialize (size : Nat)
  | ReleasePendingRays
  | ReportStartedEvent (pEvent : EvPtr)
  | ReportFinishedEvent (pEvent : EvPtr) (bSuccess : Bool)
  | GetStartedStandaloneFileRequestData (pFile : FilePtr)
  | ReportFinishedStandaloneFile (pFile : FilePtr)
  | RegisterObject (pObject : Option ObjPtr)
  | ReleaseImplData
  | OnAfterImplChanged
  deriving DecidableEq, Repr

/-- Calls on `g_eventManager`. -/
inductive EventManagerCall
  | Initialize (size : Nat)
  | DestructEvent (pEvent : EvPtr)
  | ReleaseImplData
  | Release
  | OnAfterImplChanged
  deriving DecidableEq, Repr

/-- Calls on `g_fileManager`. -/
inductive FileManagerCall
  | ReleaseStandaloneFile (pFile : FilePtr)
  | ReleaseImplData
  | Release
  deriving DecidableEq, Repr

/-- Calls on `g_fileCacheManager`. -/
inductive FileCacheManagerCall
  | Initialize
  | TryLoadRequest (id : PreloadRequestId) (bLoadSynchronously : Bool) (bAutoLoadOnly : Bool)
  | TryUnloadRequest (id : PreloadRequestId)
  | UnloadDataByScope (dataScope : EDataScope)
  | UpdateLocalizedFileCacheEntries
  deriving DecidableEq, Repr

/-- Calls on `g_listenerManager`. -/
inductive ListenerManagerCall
  | ReleaseImplData
  | OnAfterImplChanged
  | GetActiveListenerTransformation
  | CreateListener (name : String)
  | ReleaseListener (pListener : ListenerPtr)
  deriving DecidableEq, Repr

/-- Calls on `g_eventListenerManager`. -/
inductive EventListenerManagerCall
  | NotifyListener (info : SRequestInfo)
  | AddRequestListener (func : OpaquePtr) (pObjectToListenTo : Option OpaquePtr)
  | RemoveRequestListener (func : OpaquePtr) (pObjectToListenTo : Option OpaquePtr)
  deriving DecidableEq, Repr

/-- Calls on `g_xmlProcessor`. -/
inductive XmlProcessorCall
  | ParseControlsData (folderPath : String) (dataScope : EDataScope)
  | ParsePreloadsData (folderPath : String) (dataScope : EDataScope)
  | ClearControlsData (dataScope : EDataScope)
  | ClearPreloadsData (dataScope : EDataScope)
  deriving DecidableEq, Repr

/-- Calls on a `CTrigger`. -/
inductive TriggerCall
  | LoadAsync (object : Option ObjPtr) (doLoad : Bool)
  | PlayFile (object : Option ObjPtr) (file : String) (bLocalized : Bool)
      (pOwner pUserData pUserDataOwner : Option OpaquePtr)
  | Execute (object : Option ObjPtr) (pOwner pUserData pUserDataOwner : Option OpaquePtr)
      (flags : ERequestFlags)
  deriving DecidableEq, Repr

/-- Methods of `CATLAudioObject` that are defined outside ATL.cpp. -/
inductive ObjectCall
  | Init (name : Option String) (pImplData : Option ImplData) (entityId : EntityId)
  | HandleStopFile (file : String)
  | HandleStopTrigger (pTrigger : Nat)
  | StopAllTriggers
  | HandleSetTransformation (transformation : Payload) (distanceToListener : Payload)
  | HandleSetEnvironment (pEnvironment : Nat) (amount : Payload)
  | HandleSetOcclusionType (occlusionType : EOcclusionType)
  | SetObstructionOcclusion
  | ProcessPhysicsRay (pAudioRayInfo : OpaquePtr)
  | HandleSetName (name : String)
  | ForceImplementationRefresh (setTransformation : Bool)
  | ResetObstructionRays
  | ReportStartedEvent (pEvent : EvPtr)
  | ReportFinishedEvent (pEvent : EvPtr) (bSuccess : Bool)
  | ReportFinishedStandaloneFile (pFile : FilePtr)
  deriving DecidableEq, Repr

/-- Calls on a `CATLListener`. -/
inductive ListenerCall
  | HandleSetTransformation (transformation : Payload)
  | HandleSetName (name : String)
  deriving DecidableEq, Repr

/-- The three pool allocators `Initialize` creates. -/
inductive PoolCall
  | Object_CreateAllocator (size : Int)
  | Event_CreateAllocator (size : Int)
  | StandaloneFile_CreateAllocator (size : Int)
  deriving DecidableEq, Repr

/-- One entry per call that leaves ATL.cpp. -/
inductive Call
  | Log (type : ELogType)
  | CryAssert (which : Assertion)
  | CryFatalError
  | Pool (c : PoolCall)
  | PhysicalWorld_AddEventClient
  | ObjectManager (c : ObjectManagerCall)
  | EventManager (c : EventManagerCall)
  | FileManager (c : FileManagerCall)
  | FileCacheManager (c : FileCacheManagerCall)
  | ListenerManager (c : ListenerManagerCall)
  | EventListenerManager (c : EventListenerManagerCall)
  | XmlProcessor (c : XmlProcessorCall)
  | Impl (impl : ImplPtr) (c : ImplCall)
  | Trigger (pTrigger : Nat) (c : TriggerCall)
  | Parameter_Set (pParameter : Nat) (object : Option ObjPtr) (value : Payload)
  | SwitchState_Set (pState : Nat) (object : Option ObjPtr)
  | Object (pObject : Option ObjPtr) (c : ObjectCall)
  | Object_new (pObject : ObjPtr)
  | Object_delete (pObject : ObjPtr)
  | NullImpl_new (serial : Nat)
  | Listener (pListener : Option ListenerPtr) (c : ListenerCall)
  | Event_Release (pEvent : EvPtr)
  | AreaManager_QueryAudioAreas (position : Payload)
  | Console_GetCVar_languageAudio
  | DrawAudioSystemDebugInfo
  deriving DecidableEq, Repr

/-- What the collaborators can reach: the objects, events and standalone files, the
control tables filled by the XML processor, the object manager's list of objects and
the callers' listener slots. -/
structure World where
  objects : ObjPtr → CATLAudioObject
  events : EvPtr → CATLEvent
  files : FilePtr → CATLStandaloneFile
  g_triggers : List (ControlId × Nat)
  g_parameters : List (ControlId × Nat)
  g_switches : List (ControlId × CATLSwitch)
  g_environments : List (EnvironmentId × Nat)
  objectManagerObjects : List ObjPtr
  listenerSlots : Nat → Option ListenerPtr

/-- The globals and members ATL.cpp owns, the world, and the calls made so far. -/
structure State where
  w : World
  g_pIImpl : Option ImplPtr
  g_pObject : Option ObjPtr
  m_flags : InternalStates
  m_objectPoolSize : Nat
  m_eventPoolSize : Nat
  m_implInfo : SImplInfo
  m_configPath : String
  m_audioObjectPoolSize : Int
  m_audioEventPoolSize : Int
  m_audioStandaloneFilePoolSize : Int
  /-- How many `CATLAudioObject`s ATL.cpp has allocated; the next one gets this address. -/
  objectsAllocated : Nat
  /-- How many `Impl::Null::CImpl`s have been allocated. -/
  nullImplsAllocated : Nat
  trace : List Call

/-- The collaborators' behaviour and the build configuration.  Every answer may
depend on the whole history of calls, the last entry of which is the call answered. -/
structure Env where
  /-- Whether `INCLUDE_AUDIO_PRODUCTION_CODE` is defined. -/
  production : Bool
  /-- The status a status-returning call gives. -/
  status : List Call → ERequestStatus
  /-- What a call does to the world. -/
  effect : List Call → World → World
  /-- The handle `ConstructObject` or `ConstructGlobalObject` of a caller's backend gives. -/
  construct : List Call → Option Nat
  /-- The answer of `GetInfo`. -/
  info : List Call → SImplInfo
  /-- The listener `CreateListener` gives. -/
  createListener : List Call → Option ListenerPtr
  /-- The answer of `QueryAudioAreas`: `none` when it returns false, else the contents of
  the buffer `s_areaInfos` after the call and the count `numAreas` it reports. -/
  queryAudioAreas : List Call → Option ((Nat → SAudioAreaInfo) × Nat)
  /-- What `GetStartedStandaloneFileRequestData` writes into the request. -/
  getStartedStandaloneFileRequestData : List Call → CAudioRequest → CAudioRequest
  /-- Whether `gEnv->pPhysicalWorld` is non-null. -/
  pPhysicalWorld : Bool
  /-- The string of the cvar `g_languageAudio`, `none` when the cvar does not exist. -/
  languageAudio : List Call → Option String
  /-- The answer of `GetActiveListenerTransformation` combined with the object's position. -/
  distanceToListener : List Call → Payload → Payload
  /-- The flag word a newly constructed `CATLAudioObject` starts with. -/
  newObjectFlags : ObjectFlags
  AUDIO_SYSTEM_DATA_ROOT : String
  s_szConfigFolderName : String
  s_szLevelsFolderName : String
  InvalidControlId : ControlId
  INVALID_ENTITYID : EntityId
  GlobalPreloadRequestId : PreloadRequestId
  StringToId : String → PreloadRequestId

inductive Fault
  | nullDereference
  | outOfBounds
  | fatalError
  deriving DecidableEq, Repr

/-! ## Helpers -/

/-- `stl::find_in_map(map, key, nullptr)`: the value stored under `key`, if any. -/
def find_in_map {V : Type} : List (Nat × V) → Nat → Option V
  | [], _ => none
  | (k, v) :: rest, key => if k = key then some v else find_in_map rest key

/-- A call with no effect on the audio world (logger, assertion). -/
def State.record (s : State) (c : Call) : State :=
  { s with trace := s.trace ++ [c] }

/-- A call to a collaborator: it is recorded and the collaborator acts on the world. -/
def State.call (s : State) (env : Env) (c : Call) : State :=
  { s with trace := s.trace ++ [c], w := env.effect (s.trace ++ [c]) s.w }

/-- `CRY_ASSERT(cond)`. -/
def State.cryAssert (s : State) (cond : Bool) (which : Assertion) : State :=
  if cond then s else s.record (.CryAssert which)

def State.setObject (s : State) (p : ObjPtr) (f : CATLAudioObject → CATLAudioObject) : State :=
  { s with w := { s.w with objects := Function.update s.w.objects p (f (s.w.objects p)) } }

def State.setEvent (s : State) (p : EvPtr) (f : CATLEvent → CATLEvent) : State :=
  { s with w := { s.w with events := Function.update s.w.events p (f (s.w.events p)) } }

def State.setFile (s : State) (p : FilePtr) (f : CATLStandaloneFile → CATLStandaloneFile) :
    State :=
  { s with w := { s.w with files := Function.update s.w.files p (f (s.w.files p)) } }

/-- `(m_flags & flag) != 0`. -/
def ObjectFlags.has (fl : ObjectFlags) : EObjectFlags → Bool
  | .InUse => fl.InUse
  | .Virtual => fl.Virtual
  | .TrackAbsoluteVelocity => fl.TrackAbsoluteVelocity
  | .TrackRelativeVelocity => fl.TrackRelativeVelocity

/-- `m_flags |= flag`. -/
def ObjectFlags.SetFlag (fl : ObjectFlags) : EObjectFlags → ObjectFlags
  | .InUse => { fl with InUse := true }
  | .Virtual => { fl with Virtual := true }
  | .TrackAbsoluteVelocity => { fl with TrackAbsoluteVelocity := true }
  | .TrackRelativeVelocity => { fl with TrackRelativeVelocity := true }

/-- `m_flags &= ~flag`. -/
def ObjectFlags.RemoveFlag (fl : ObjectFlags) : EObjectFlags → ObjectFlags
  | .InUse => { fl with InUse := false }
  | .Virtual => { fl with Virtual := false }
  | .TrackAbsoluteVelocity => { fl with TrackAbsoluteVelocity := false }
  | .TrackRelativeVelocity => { fl with TrackRelativeVelocity := false }

/-- `pObject->SetFlag(flag)`. -/
def State.SetFlag (s : State) (p : ObjPtr) (flag : EObjectFlags) : State :=
  s.setObject p (fun o => { o with m_flags := o.m_flags.SetFlag flag })

/-- `pObject->RemoveFlag(flag)`. -/
def State.RemoveFlag (s : State) (p : ObjPtr) (flag : EObjectFlags) : State :=
  s.setObject p (fun o => { o with m_flags := o.m_flags.RemoveFlag flag })

/-- Modelled from the spec: the constructor of `CATLAudioObject` (ATLAudioObject.h and
.cpp are not among the sources).  A new object has no backend-side handle ("require that
the Global Object currently has no backend-side handle", 4.3 step 4) and no active
events; its flag word is the parameter `Env.newObjectFlags`. -/
def CATLAudioObject.construct (env : Env) : CATLAudioObject :=
  { m_flags := env.newObjectFlags, m_pImplData := none, m_activeEvents := [],
    m_transformation := 0 }

/-- `new CATLAudioObject`: the object is constructed at the next address, which is
`s.objectsAllocated`. -/
def State.newObject (s : State) (env : Env) : State :=
  let p := s.objectsAllocated
  let s := s.call env (.Object_new p)
  let s := s.setObject p (fun _ => CATLAudioObject.construct env)
  { s with objectsAllocated := p + 1 }

/-- The lines `auto const pImpl = new Impl::Null::CImpl(); CRY_ASSERT(pImpl != nullptr);
g_pIImpl = pImpl;`.  -/
def State.newNullImpl (s : State) : State :=
  let k := s.nullImplsAllocated
  { s.record (.NullImpl_new k) with g_pIImpl := some (.null k), nullImplsAllocated := k + 1 }

/-- Modelled from the spec: the status-returning methods of `Impl::Null::CImpl` (the null
backend is not among the sources).  It is the "built-in no-op backend" that "guarantees
the system always has some backend" and leaves the system "in a working (null-backed)
state" (4.3), so its `Init` and `StopAllSounds` return `Success`; a caller's backend
answers through `Env.status`. -/
def implStatus (env : Env) (impl : ImplPtr) (trace : List Call) : ERequestStatus :=
  match impl with
  | .null _ => .Success
  | .user _ => env.status trace

/-- Modelled from the spec: `ConstructGlobalObject` and `ConstructObject` of
`Impl::Null::CImpl`, which hand out a valid (non-null) handle ("the Global Object has a
valid (non-null) backend handle", 8); a caller's backend answers through
`Env.construct`.  The handle carries the backend that made it. -/
def implConstruct (env : Env) (impl : ImplPtr) (trace : List Call) : Option ImplData :=
  match impl with
  | .null k => some { owner := .null k, id := trace.length }
  | .user n => (env.construct trace).map (fun id => { owner := .user n, id := id })

def s_maxAreas : Nat := 10

/-! ## The functions of ATL.cpp -/

/-- `ConvertToRequestResult` (lines 31-60). -/
def ConvertToRequestResult (eAudioRequestStatus : ERequestStatus) (s : State) :
    ERequestResult × State :=
  match eAudioRequestStatus with
  | .Success => (.Success, s)
  | .Failure => (.Failure, s)
  | .FailureInvalidControlId => (.Failure, s)
  | .FailureInvalidRequest => (.Failure, s)
  | .PartialSuccess => (.Failure, s)
  | _ => (.Failure, ((s.record (.Log .Error)).cryAssert false .ConvertToRequestResult_default))

/-- `CAudioTranslationLayer::Initialize` (lines 70-105).  The casts to `uint32` are
reductions modulo `2 ^ 32`. -/
def Initialize (env : Env) (s : State) : Except Fault State :=
  let s := if s.m_audioObjectPoolSize < 1 then
      ({ s with m_audioObjectPoolSize := 1 }).record (.Log .Warning) else s
  let s := s.call env (.Pool (.Object_CreateAllocator s.m_audioObjectPoolSize))
  let s := if s.m_audioEventPoolSize < 1 then
      ({ s with m_audioEventPoolSize := 1 }).record (.Log .Warning) else s
  let s := s.call env (.Pool (.Event_CreateAllocator s.m_audioEventPoolSize))
  let s := if s.m_audioStandaloneFilePoolSize < 1 then
      ({ s with m_audioStandaloneFilePoolSize := 1 }).record (.Log .Warning) else s
  let s := s.call env (.Pool (.StandaloneFile_CreateAllocator s.m_audioStandaloneFilePoolSize))
  if env.pPhysicalWorld then
    let s := s.call env .PhysicalWorld_AddEventClient
    let s := { s with m_objectPoolSize := (s.m_audioObjectPoolSize % 2 ^ 32).toNat }
    let s := { s with m_eventPoolSize := (s.m_audioEventPoolSize % 2 ^ 32).toNat }
    let s := s.call env (.ObjectManager (.Initialize s.m_objectPoolSize))
    let s := s.call env (.EventManager (.Initialize s.m_eventPoolSize))
    .ok (s.call env (.FileCacheManager .Initialize))
  else
    .error .nullDereference

/-- `CAudioTranslationLayer::SetImplLanguage` (lines 1247-1253). -/
def SetImplLanguage (env : Env) (s : State) : Except Fault State :=
  let s := s.call env .Console_GetCVar_languageAudio
  match env.languageAudio s.trace with
  | some language =>
    match s.g_pIImpl with
    | some impl => .ok (s.call env (.Impl impl (.SetLanguage language)))
    | none => .error .nullDereference
  | none => .ok s

/-- `CAudioTranslationLayer::ReleaseImpl` (lines 1166-1196). -/
def ReleaseImpl (env : Env) (s : State) : Except Fault State :=
  let s := { s with m_flags := { s.m_flags with AudioMiddlewareShuttingDown := true } }
  let s := s.call env (.FileManager .ReleaseImplData)
  let s := s.call env (.ListenerManager .ReleaseImplData)
  let s := s.call env (.EventManager .ReleaseImplData)
  let s := s.call env (.ObjectManager .ReleaseImplData)
  match s.g_pIImpl, s.g_pObject with
  | some impl, some pObject =>
    let s := s.call env (.Impl impl (.DestructObject (s.w.objects pObject).m_pImplData))
    let s := s.setObject pObject (fun o => { o with m_pImplData := none })
    let s := { s.call env (.Object_delete pObject) with g_pObject := none }
    let s := s.call env (.XmlProcessor (.ClearPreloadsData .All))
    let s := s.call env (.XmlProcessor (.ClearControlsData .All))
    let s := s.call env (.Impl impl .ShutDown)
    let s := s.call env (.Impl impl .Release)
    let s := { s with g_pIImpl := none }
    let s := s.call env (.EventManager .Release)
    let s := s.call env (.FileManager .Release)
    .ok { s with m_flags := { s.m_flags with AudioMiddlewareShuttingDown := false } }
  | _, _ => .error .nullDereference

/-- Lines 1144-1151 of `SetImpl`: the Global Object is created when there is none. -/
def SetImpl.globalObject (env : Env) (s : State) : State :=
  match s.g_pObject with
  | none => { s.newObject env with g_pObject := some s.objectsAllocated }
  | some _ => s

/-- Lines 1153-1158 of `SetImpl`: the assertion that the Global Object has no handle, the
handle from `ConstructGlobalObject`, and the three `OnAfterImplChanged`. -/
def SetImpl.bindGlobalObject (env : Env) (pObject : ObjPtr) (impl : ImplPtr) (s : State) :
    State :=
  let s := s.cryAssert ((s.w.objects pObject).m_pImplData == none)
    .SetImpl_globalObjectImplDataNull
  let s := s.call env (.Impl impl .ConstructGlobalObject)
  let s := s.setObject pObject
    (fun o => { o with m_pImplData := implConstruct env impl s.trace })
  let s := s.call env (.ObjectManager .OnAfterImplChanged)
  let s := s.call env (.EventManager .OnAfterImplChanged)
  s.call env (.ListenerManager .OnAfterImplChanged)

/-- The part of `SetImpl` after the backend has been chosen and initialised
(lines 1144-1162). -/
def SetImpl.finish (env : Env) (result : ERequestStatus) (s : State) :
    Except Fault (ERequestStatus × State) :=
  let s := SetImpl.globalObject env s
  match s.g_pObject, s.g_pIImpl with
  | some pObject, some impl =>
    match SetImplLanguage env (SetImpl.bindGlobalObject env pObject impl s) with
    | .ok s => .ok (result, s)
    | .error e => .error e
  | _, _ => .error .nullDereference

/-- The part of `SetImpl` that adopts and initialises the backend (lines 1112-1142): the
status of `Init`, and the state with the backend, or the null backend after a failed
`Init`, in `g_pIImpl`. -/
def SetImpl.adopt (env : Env) (pIImpl : Option ImplPtr) (s : State) :
    Except Fault (ERequestStatus × State) :=
  let s := { s with g_pIImpl := pIImpl }
  let s := match s.g_pIImpl with
    | none => (s.record (.Log .Warning)).newNullImpl
    | some _ => s
  match s.g_pIImpl with
  | none => .error .nullDereference
  | some impl =>
    let s := s.call env (.Impl impl (.Init s.m_objectPoolSize s.m_eventPoolSize))
    let result := implStatus env impl s.trace
    let s := s.call env (.Impl impl .GetInfo)
    let s := { s with m_implInfo := env.info s.trace }
    let s := { s with m_configPath := env.AUDIO_SYSTEM_DATA_ROOT ++ "/" ++
      (s.m_implInfo.folderName ++ "/" ++ env.s_szConfigFolderName ++ "/") }
    let s := if result ≠ .Success then
        let s := s.record (.Log .Error)
        let s := s.call env (.Impl impl .Release)
        s.newNullImpl
      else s
    .ok (result, s)

/-- `CAudioTranslationLayer::SetImpl` (lines 1103-1163): the teardown of a different
active backend, then `SetImpl.adopt`, then `SetImpl.finish`. -/
def SetImpl (env : Env) (pIImpl : Option ImplPtr) (s : State) :
    Except Fault (ERequestStatus × State) :=
  let released := if s.g_pIImpl ≠ none ∧ pIImpl ≠ s.g_pIImpl then ReleaseImpl env s else .ok s
  match released with
  | .error e => .error e
  | .ok s =>
    match SetImpl.adopt env pIImpl s with
    | .error e => .error e
    | .ok (result, s) => SetImpl.finish env result s

/-- `CAudioTranslationLayer::RefreshAudioSystem` (lines 1199-1244).  `levelPath` is a
`CryFixedStringT<MaxFilePathLength>`; the model does not cut it to that capacity. -/
def RefreshAudioSystem (env : Env) (szLevelName : Option String) (s : State) :
    Except Fault (ERequestStatus × State) :=
  let s := s.record (.Log .Warning)
  match s.g_pIImpl with
  | none => .error .nullDereference
  | some impl =>
    let s := s.call env (.Impl impl .StopAllSounds)
    let result := implStatus env impl s.trace
    let s := s.cryAssert (result == .Success) .RefreshAudioSystem_StopAllSounds
    let s := s.call env (.FileCacheManager (.UnloadDataByScope .LevelSpecific))
    let result := env.status s.trace
    let s := s.cryAssert (result == .Success) .RefreshAudioSystem_UnloadLevelSpecific
    let s := s.call env (.FileCacheManager (.UnloadDataByScope .Global))
    let result := env.status s.trace
    let s := s.cryAssert (result == .Success) .RefreshAudioSystem_UnloadGlobal
    let s := s.call env (.XmlProcessor (.ClearPreloadsData .All))
    let s := s.call env (.XmlProcessor (.ClearControlsData .All))
    let s := s.call env (.Impl impl .OnRefresh)
    let s := s.call env (.XmlProcessor (.ParseControlsData s.m_configPath .Global))
    let s := s.call env (.XmlProcessor (.ParsePreloadsData s.m_configPath .Global))
    let s := s.call env (.FileCacheManager (.TryLoadRequest env.GlobalPreloadRequestId true true))
    let s := match szLevelName with
      | none => s
      | some name =>
        if name ≠ "" then
          let levelPath := s.m_configPath ++ env.s_szLevelsFolderName ++ "/" ++ name
          let s := s.call env (.XmlProcessor (.ParseControlsData levelPath .LevelSpecific))
          let s := s.call env (.XmlProcessor (.ParsePreloadsData levelPath .LevelSpecific))
          let s := s.call env (.FileCacheManager (.TryLoadRequest (env.StringToId name) true true))
          let result := env.status s.trace
          if result ≠ .Success then s.record (.Log .Warning) else s
        else s
    let s := s.record (.Log .Warning)
    .ok (.Success, s)

/-- `CAudioTranslationLayer::SetOcclusionType` (lines 1302-1344). -/
def SetOcclusionType (env : Env) (object : Option ObjPtr) (occlusionType : EOcclusionType)
    (s : State) : State :=
  match occlusionType with
  | .Ignore =>
    let s := s.call env (.Object object (.HandleSetOcclusionType .Ignore))
    s.call env (.Object object .SetObstructionOcclusion)
  | .Adaptive => s.call env (.Object object (.HandleSetOcclusionType .Adaptive))
  | .Low => s.call env (.Object object (.HandleSetOcclusionType .Low))
  | .Medium => s.call env (.Object object (.HandleSetOcclusionType .Medium))
  | .High => s.call env (.Object object (.HandleSetOcclusionType .High))
  | .other _ => s.record (.Log .Warning)

/-- The body of the `for` loop of `SetCurrentEnvironmentsOnObject`, run for the given
indices in turn; reading `s_areaInfos[i]` with `i` past the buffer is a fault. -/
def SetCurrentEnvironmentsOnObject.loop (env : Env) (pObject : ObjPtr)
    (entityToIgnore : EntityId) (s_areaInfos : Nat → SAudioAreaInfo) :
    List Nat → State → Except Fault State
  | [], s => .ok s
  | i :: rest, s =>
    if i < s_maxAreas then
      let areaInfo := s_areaInfos i
      let s :=
        if entityToIgnore = env.INVALID_ENTITYID ∨ entityToIgnore ≠ areaInfo.envProvidingEntityId
        then
          match find_in_map s.w.g_environments areaInfo.audioEnvironmentId with
          | some pEnvironment =>
            s.call env (.Object (some pObject) (.HandleSetEnvironment pEnvironment areaInfo.amount))
          | none => s
        else s
      SetCurrentEnvironmentsOnObject.loop env pObject entityToIgnore s_areaInfos rest s
    else .error .outOfBounds

/-- `CAudioTranslationLayer::SetCurrentEnvironmentsOnObject` (lines 1275-1299). -/
def SetCurrentEnvironmentsOnObject (env : Env) (pObject : Option ObjPtr)
    (entityToIgnore : EntityId) (s : State) : Except Fault State :=
  match pObject with
  | none => .error .nullDereference
  | some p =>
    let s := s.call env (.AreaManager_QueryAudioAreas (s.w.objects p).m_transformation)
    match env.queryAudioAreas s.trace with
    | some (s_areaInfos, numAreas) =>
      SetCurrentEnvironmentsOnObject.loop env p entityToIgnore s_areaInfos (List.range numAreas) s
    | none => .ok s

/-- `CAudioTranslationLayer::RetriggerAudioControls` (lines 1606-1614); the loop runs over
the object list as it is when the loop starts. -/
def RetriggerAudioControls (env : Env) (s : State) : State :=
  let s := s.w.objectManagerObjects.foldl
    (fun s pObject => s.call env (.Object (some pObject) (.ForceImplementationRefresh true))) s
  s.call env (.Object s.g_pObject (.ForceImplementationRefresh false))

/-- The two nested loops of the `ReloadControlsData` case (lines 429-438). -/
def releaseActiveEvents (env : Env) (s : State) : State :=
  s.w.objectManagerObjects.foldl
    (fun s pObject => (s.w.objects pObject).m_activeEvents.foldl
      (fun s pEvent => match pEvent with
        | some e => s.call env (.Event_Release e)
        | none => s) s) s

/-- `CAudioTranslationLayer::ProcessAudioManagerRequest` (lines 294-493). -/
def ProcessAudioManagerRequest (env : Env) (request : CAudioRequest)
    (d : SAudioManagerRequestData) (s : State) : Except Fault (ERequestStatus × State) :=
  match d with
  | .AddRequestListener func pObjectToListenTo =>
    let s := s.call env (.EventListenerManager (.AddRequestListener func pObjectToListenTo))
    .ok (env.status s.trace, s)
  | .RemoveRequestListener func pObjectToListenTo =>
    let s := s.call env (.EventListenerManager (.RemoveRequestListener func pObjectToListenTo))
    .ok (env.status s.trace, s)
  | .SetAudioImpl pIImpl => SetImpl env pIImpl s
  | .RefreshAudioSystem levelName => RefreshAudioSystem env levelName s
  | .StopAllSounds =>
    match s.g_pIImpl with
    | some impl =>
      let s := s.call env (.Impl impl .StopAllSounds)
      .ok (implStatus env impl s.trace, s)
    | none => .error .nullDereference
  | .ParseControlsData folderPath dataScope =>
    .ok (.Success, s.call env (.XmlProcessor (.ParseControlsData folderPath dataScope)))
  | .ParsePreloadsData folderPath dataScope =>
    .ok (.Success, s.call env (.XmlProcessor (.ParsePreloadsData folderPath dataScope)))
  | .ClearControlsData dataScope =>
    .ok (.Success, s.call env (.XmlProcessor (.ClearControlsData dataScope)))
  | .ClearPreloadsData dataScope =>
    .ok (.Success, s.call env (.XmlProcessor (.ClearPreloadsData dataScope)))
  | .PreloadSingleRequest audioPreloadRequestId bAutoLoadOnly =>
    let s := s.call env (.FileCacheManager
      (.TryLoadRequest audioPreloadRequestId request.flags.ExecuteBlocking bAutoLoadOnly))
    .ok (env.status s.trace, s)
  | .UnloadSingleRequest audioPreloadRequestId =>
    let s := s.call env (.FileCacheManager (.TryUnloadRequest audioPreloadRequestId))
    .ok (env.status s.trace, s)
  | .UnloadAFCMDataByScope dataScope =>
    let s := s.call env (.FileCacheManager (.UnloadDataByScope dataScope))
    .ok (env.status s.trace, s)
  | .ReleaseAudioImpl =>
    match ReleaseImpl env s with
    | .ok s => .ok (.Success, s)
    | .error e => .error e
  | .ChangeLanguage =>
    match SetImplLanguage env s with
    | .ok s => .ok (.Success, s.call env (.FileCacheManager .UpdateLocalizedFileCacheEntries))
    | .error e => .error e
  | .RetriggerAudioControls =>
    if env.production then .ok (.Success, RetriggerAudioControls env s) else .ok (.Failure, s)
  | .ReleasePendingRays =>
    .ok (.Success, s.call env (.ObjectManager .ReleasePendingRays))
  | .ReloadControlsData folderPath levelName =>
    if env.production then
      let s := releaseActiveEvents env s
      let s := s.call env (.XmlProcessor (.ClearControlsData .All))
      let s := s.call env (.XmlProcessor (.ParseControlsData folderPath .Global))
      let s := if levelName ≠ "" then
          s.call env (.XmlProcessor (.ParseControlsData (folderPath ++ levelName) .LevelSpecific))
        else s
      .ok (.Success, RetriggerAudioControls env s)
    else .ok (.Failure, s)
  | .DrawDebugInfo =>
    if env.production then .ok (.Success, s.call env .DrawAudioSystemDebugInfo)
    else .ok (.Failure, s)
  | .GetAudioFileData name fileData =>
    match s.g_pIImpl with
    | some impl => .ok (.Failure, s.call env (.Impl impl (.GetFileData name fileData)))
    | none => .error .nullDereference
  | .GetImplInfo _ =>
    match s.g_pIImpl with
    | some impl => .ok (.Failure, s.call env (.Impl impl .GetInfo))
    | none => .error .nullDereference
  | .None => .ok (.Success, s)
  | .unknown _ => .ok (.FailureInvalidRequest, s.record (.Log .Warning))

/-- The `for` loop of the `ReportVirtualizedEvent` case (lines 558-565): whether every
active event is `Virtual`, stopping at the first that is not. -/
def allEventsVirtual (w : World) : List (Option EvPtr) → Except Fault Bool
  | [] => .ok true
  | none :: _ => .error .nullDereference
  | some pEvent :: rest =>
    if (w.events pEvent).m_state ≠ .Virtual then .ok false else allEventsVirtual w rest

/-- `CAudioTranslationLayer::ProcessAudioCallbackManagerRequest` (lines 496-648); the
request comes back because `GetStartedStandaloneFileRequestData` writes into it. -/
def ProcessAudioCallbackManagerRequest (env : Env) (request : CAudioRequest)
    (d : SAudioCallbackManagerRequestData) (s : State) :
    Except Fault (ERequestStatus × CAudioRequest × State) :=
  match d with
  | .ReportStartedEvent audioEvent =>
    let s := s.setEvent audioEvent (fun e => { e with m_state := .PlayingDelayed })
    let s := if (s.w.events audioEvent).m_pAudioObject ≠ s.g_pObject then
        s.call env (.ObjectManager (.ReportStartedEvent audioEvent))
      else s.call env (.Object s.g_pObject (.ReportStartedEvent audioEvent))
    .ok (.Success, request, s)
  | .ReportFinishedEvent event bSuccess =>
    let s := if (s.w.events event).m_pAudioObject ≠ s.g_pObject then
        s.call env (.ObjectManager (.ReportFinishedEvent event bSuccess))
      else s.call env (.Object s.g_pObject (.ReportFinishedEvent event bSuccess))
    let s := s.call env (.EventManager (.DestructEvent event))
    .ok (.Success, request, s)
  | .ReportVirtualizedEvent audioEvent =>
    let s := s.setEvent audioEvent (fun e => { e with m_state := .Virtual })
    match (s.w.events audioEvent).m_pAudioObject with
    | none => .error .nullDereference
    | some pObject =>
      if (s.w.objects pObject).m_flags.has .Virtual = false then
        match allEventsVirtual s.w (s.w.objects pObject).m_activeEvents with
        | .error e => .error e
        | .ok isVirtual =>
          if isVirtual then
            let s := s.SetFlag pObject .Virtual
            let s := if env.production then
                s.call env (.Object (some pObject) .ResetObstructionRays)
              else s
            .ok (.Success, request, s)
          else .ok (.Success, request, s)
      else .ok (.Success, request, s)
  | .ReportPhysicalizedEvent audioEvent =>
    let s := s.setEvent audioEvent (fun e => { e with m_state := .Playing })
    match (s.w.events audioEvent).m_pAudioObject with
    | none => .error .nullDereference
    | some pObject => .ok (.Success, request, s.RemoveFlag pObject .Virtual)
  | .ReportStartedFile audioStandaloneFile bSuccess =>
    let s := s.call env (.ObjectManager (.GetStartedStandaloneFileRequestData audioStandaloneFile))
    let request := env.getStartedStandaloneFileRequestData s.trace request
    let s := s.setFile audioStandaloneFile
      (fun f => { f with m_state := if bSuccess then .Playing else .None })
    .ok (if bSuccess then .Success else .Failure, request, s)
  | .ReportStoppedFile audioStandaloneFile =>
    let s := s.call env (.ObjectManager (.GetStartedStandaloneFileRequestData audioStandaloneFile))
    let request := env.getStartedStandaloneFileRequestData s.trace request
    let s := if (s.w.files audioStandaloneFile).m_pAudioObject ≠ s.g_pObject then
        s.call env (.ObjectManager (.ReportFinishedStandaloneFile audioStandaloneFile))
      else s.call env (.Object s.g_pObject (.ReportFinishedStandaloneFile audioStandaloneFile))
    let s := s.call env (.FileManager (.ReleaseStandaloneFile audioStandaloneFile))
    .ok (.Success, request, s)
  | .ReportFinishedTriggerInstance _ => .ok (.Success, request, s)
  | .None => .ok (.Success, request, s)
  | .unknown _ => .ok (.FailureInvalidRequest, request, s.record (.Log .Warning))

/-- The lines shared by `ExecuteTriggerEx` and `RegisterObject`: `Init` with a handle from
`g_pIImpl->ConstructObject`, `HandleSetTransformation(transformation, 0.0f)`, the
optional `SetCurrentEnvironmentsOnObject`, and `SetOcclusionType`. -/
def initObject (env : Env) (pObject : Option ObjPtr) (name : String) (entityId : EntityId)
    (transformation : Payload) (setCurrentEnvironments : Bool) (occlusionType : EOcclusionType)
    (s : State) : Except Fault State :=
  match s.g_pIImpl with
  | none => .error .nullDereference
  | some impl =>
    let szName := if env.production then some name else none
    let s := s.call env (.Impl impl (.ConstructObject szName))
    let s := s.call env (.Object pObject (.Init szName (implConstruct env impl s.trace) entityId))
    let s := s.call env (.Object pObject (.HandleSetTransformation transformation 0))
    let environments :=
      if setCurrentEnvironments then SetCurrentEnvironmentsOnObject env pObject env.INVALID_ENTITYID s
      else .ok s
    match environments with
    | .error e => .error e
    | .ok s => .ok (SetOcclusionType env pObject occlusionType s)

/-- Line 654: `(request.pObject != nullptr) ? request.pObject : g_pObject`. -/
def targetObject (request : CAudioRequest) (s : State) : Option ObjPtr :=
  if request.pObject ≠ none then request.pObject else s.g_pObject

/-- `CAudioTranslationLayer::ProcessAudioObjectRequest` (lines 651-1033). -/
def ProcessAudioObjectRequest (env : Env) (request : CAudioRequest)
    (d : SAudioObjectRequestData) (s : State) : Except Fault (ERequestStatus × State) :=
  let pObject : Option ObjPtr := targetObject request s
  match d with
  | .LoadTrigger audioTriggerId =>
    match find_in_map s.w.g_triggers audioTriggerId with
    | some pTrigger => .ok (.Success, s.call env (.Trigger pTrigger (.LoadAsync pObject true)))
    | none => .ok (.FailureInvalidControlId, s)
  | .UnloadTrigger audioTriggerId =>
    match find_in_map s.w.g_triggers audioTriggerId with
    | some pTrigger => .ok (.Success, s.call env (.Trigger pTrigger (.LoadAsync pObject false)))
    | none => .ok (.FailureInvalidControlId, s)
  | .PlayFile file usedAudioTriggerId bLocalized =>
    if file ≠ "" then
      let s := if usedAudioTriggerId ≠ env.InvalidControlId then
          match find_in_map s.w.g_triggers usedAudioTriggerId with
          | some pTrigger => s.call env (.Trigger pTrigger (.PlayFile pObject file bLocalized
              request.pOwner request.pUserData request.pUserDataOwner))
          | none => s
        else s
      .ok (.Success, s)
    else .ok (.Failure, s)
  | .StopFile file =>
    if file ≠ "" then .ok (.Success, s.call env (.Object pObject (.HandleStopFile file)))
    else .ok (.Failure, s)
  | .ExecuteTrigger audioTriggerId =>
    match find_in_map s.w.g_triggers audioTriggerId with
    | some pTrigger => .ok (.Success, s.call env (.Trigger pTrigger (.Execute pObject
        request.pOwner request.pUserData request.pUserDataOwner request.flags)))
    | none => .ok (.FailureInvalidControlId, s)
  | .ExecuteTriggerEx name entityId transformation setCurrentEnvironments occlusionType
      triggerId =>
    match find_in_map s.w.g_triggers triggerId with
    | some pTrigger =>
      let pNewObject := s.objectsAllocated
      let s := s.newObject env
      let s := s.call env (.ObjectManager (.RegisterObject (some pNewObject)))
      match initObject env (some pNewObject) name entityId transformation
          setCurrentEnvironments occlusionType s with
      | .error e => .error e
      | .ok s =>
        let s := s.call env (.Trigger pTrigger (.Execute (some pNewObject)
          request.pOwner request.pUserData request.pUserDataOwner request.flags))
        .ok (.Success, s.RemoveFlag pNewObject .InUse)
    | none => .ok (.FailureInvalidControlId, s)
  | .StopTrigger audioTriggerId =>
    match find_in_map s.w.g_triggers audioTriggerId with
    | some pTrigger =>
      let s := s.call env (.Object pObject (.HandleStopTrigger pTrigger))
      .ok (env.status s.trace, s)
    | none => .ok (.FailureInvalidControlId, s)
  | .StopAllTriggers => .ok (.Success, s.call env (.Object pObject .StopAllTriggers))
  | .SetTransformation transformation =>
    let s := s.cryAssert (pObject != s.g_pObject) .SetTransformation_notGlobalObject
    match pObject with
    | none => .error .nullDereference
    | some p =>
      let s := s.call env (.ListenerManager .GetActiveListenerTransformation)
      let distanceToListener := env.distanceToListener s.trace (s.w.objects p).m_transformation
      .ok (.Success,
        s.call env (.Object pObject (.HandleSetTransformation transformation distanceToListener)))
  | .SetParameter parameterId value =>
    match find_in_map s.w.g_parameters parameterId with
    | some pParameter => .ok (.Success, s.call env (.Parameter_Set pParameter pObject value))
    | none => .ok (.FailureInvalidControlId, s)
  | .SetSwitchState audioSwitchId audioSwitchStateId =>
    match find_in_map s.w.g_switches audioSwitchId with
    | some pSwitch =>
      match find_in_map pSwitch.states audioSwitchStateId with
      | some pState => .ok (.Success, s.call env (.SwitchState_Set pState pObject))
      | none => .ok (.FailureInvalidControlId, s)
    | none => .ok (.FailureInvalidControlId, s)
  | .SetOcclusionType occlusionType =>
    let s := s.cryAssert (pObject != s.g_pObject) .SetOcclusionType_notGlobalObject
    .ok (.Success, SetOcclusionType env pObject occlusionType s)
  | .SetCurrentEnvironments entityToIgnore =>
    match SetCurrentEnvironmentsOnObject env pObject entityToIgnore s with
    | .ok s => .ok (.Failure, s)
    | .error e => .error e
  | .SetEnvironment audioEnvironmentId amount =>
    if pObject ≠ s.g_pObject then
      match find_in_map s.w.g_environments audioEnvironmentId with
      | some pEnvironment =>
        .ok (.Success, s.call env (.Object pObject (.HandleSetEnvironment pEnvironment amount)))
      | none => .ok (.FailureInvalidControlId, s)
    else .ok (.Failure, s.record (.Log .Warning))
  | .RegisterObject name entityId transformation setCurrentEnvironments occlusionType =>
    match initObject env pObject name entityId transformation setCurrentEnvironments
        occlusionType s with
    | .error e => .error e
    | .ok s => .ok (.Success, s.call env (.ObjectManager (.RegisterObject pObject)))
  | .ReleaseObject =>
    if pObject ≠ s.g_pObject then
      match pObject with
      | some p => .ok (.Success, s.RemoveFlag p .InUse)
      | none => .error .nullDereference
    else .ok (.Failure, s.record (.Log .Warning))
  | .ProcessPhysicsRay pAudioRayInfo =>
    .ok (.Success, s.call env (.Object pObject (.ProcessPhysicsRay pAudioRayInfo)))
  | .SetName name =>
    if env.production then
      let s := s.call env (.Object pObject (.HandleSetName name))
      let result := env.status s.trace
      if result = .SuccessNeedsRefresh then
        .ok (.Success, s.call env (.Object pObject (.ForceImplementationRefresh true)))
      else .ok (result, s)
    else .ok (.FailureInvalidRequest, s.record (.Log .Warning))
  | .ToggleAbsoluteVelocityTracking isEnabled =>
    match pObject with
    | none => .error .nullDereference
    | some p =>
      if isEnabled then .ok (.Success, s.SetFlag p .TrackAbsoluteVelocity)
      else .ok (.Success, s.RemoveFlag p .TrackAbsoluteVelocity)
  | .ToggleRelativeVelocityTracking isEnabled =>
    match pObject with
    | none => .error .nullDereference
    | some p =>
      if isEnabled then .ok (.Success, s.SetFlag p .TrackRelativeVelocity)
      else .ok (.Success, s.RemoveFlag p .TrackRelativeVelocity)
  | .None => .ok (.Success, s)
  | .unknown _ => .ok (.FailureInvalidRequest, s.record (.Log .Warning))

/-- `CAudioTranslationLayer::ProcessAudioListenerRequest` (lines 1036-1101). -/
def ProcessAudioListenerRequest (env : Env) (d : SAudioListenerRequestData) (s : State) :
    Except Fault (ERequestStatus × State) :=
  match d with
  | .SetTransformation pListener transformation =>
    let s := s.cryAssert (pListener != none) .Listener_SetTransformation_notNull
    match pListener with
    | some l => .ok (.Success, s.call env (.Listener (some l) (.HandleSetTransformation transformation)))
    | none => .ok (.Success, s)
  | .RegisterListener ppListener name =>
    let s := s.call env (.ListenerManager (.CreateListener name))
    match ppListener with
    | none => .error .nullDereference
    | some slot =>
      .ok (.Failure, { s with w := { s.w with
        listenerSlots := Function.update s.w.listenerSlots slot (env.createListener s.trace) } })
  | .ReleaseListener pListener =>
    let s := s.cryAssert (pListener != none) .Listener_ReleaseListener_notNull
    match pListener with
    | some l => .ok (.Success, s.call env (.ListenerManager (.ReleaseListener l)))
    | none => .ok (.Failure, s)
  | .SetName pListener name =>
    if env.production then
      .ok (.Success, s.call env (.Listener pListener (.HandleSetName name)))
    else .ok (.FailureInvalidRequest, s.record (.Log .Warning))
  | .None => .ok (.Success, s)
  | .unknown _ => .ok (.FailureInvalidRequest, s.record (.Log .Warning))

/-- `CAudioTranslationLayer::ProcessRequest` (lines 124-167): the request with its status
written, and the new state. -/
def ProcessRequest (env : Env) (request : CAudioRequest) (s : State) :
    Except Fault (CAudioRequest × State) :=
  match request.data with
  | none => .ok ({ request with status := .None }, s)
  | some (.AudioObjectRequest d) =>
    match ProcessAudioObjectRequest env request d s with
    | .ok (result, s) => .ok ({ request with status := result }, s)
    | .error e => .error e
  | some (.AudioListenerRequest d) =>
    match ProcessAudioListenerRequest env d s with
    | .ok (result, s) => .ok ({ request with status := result }, s)
    | .error e => .error e
  | some (.AudioCallbackManagerRequest d) =>
    match ProcessAudioCallbackManagerRequest env request d s with
    | .ok (result, request, s) => .ok ({ request with status := result }, s)
    | .error e => .error e
  | some (.AudioManagerRequest d) =>
    match ProcessAudioManagerRequest env request d s with
    | .ok (result, s) => .ok ({ request with status := result }, s)
    | .error e => .error e
  | some (.unknown _) =>
    .ok ({ request with status := .None },
      (s.record (.Log .Error)).cryAssert false .ProcessRequest_default)

/-- The `switch` of `NotifyListener` (lines 184-277): system event, standalone file,
control id and event of the notification, or the fatal error of the default case. -/
def NotifyListener.select (env : Env) (data : SAudioRequestData) :
    Except Fault (ESystemEvents × Option FilePtr × ControlId × Option EvPtr) :=
  match data with
  | .AudioManagerRequest d =>
    match d with
    | .SetAudioImpl _ => .ok (.ImplSet, none, env.InvalidControlId, none)
    | _ => .ok (.None, none, env.InvalidControlId, none)
  | .AudioCallbackManagerRequest d =>
    match d with
    | .ReportFinishedTriggerInstance audioTriggerId =>
      .ok (.TriggerFinished, none, audioTriggerId, none)
    | .ReportStartedEvent audioEvent => .ok (.None, none, env.InvalidControlId, some audioEvent)
    | .ReportStartedFile audioStandaloneFile _ =>
      .ok (.FileStarted, some audioStandaloneFile, env.InvalidControlId, none)
    | .ReportStoppedFile audioStandaloneFile =>
      .ok (.FileStopped, some audioStandaloneFile, env.InvalidControlId, none)
    | _ => .ok (.None, none, env.InvalidControlId, none)
  | .AudioObjectRequest d =>
    match d with
    | .ExecuteTrigger audioTriggerId => .ok (.TriggerExecuted, none, audioTriggerId, none)
    | .PlayFile _ _ _ => .ok (.FilePlay, none, env.InvalidControlId, none)
    | _ => .ok (.None, none, env.InvalidControlId, none)
  | .AudioListenerRequest _ => .ok (.None, none, env.InvalidControlId, none)
  | .unknown _ => .error .fatalError

/-- `CAudioTranslationLayer::NotifyListener` (lines 182-291). -/
def NotifyListener (env : Env) (request : CAudioRequest) (s : State) : Except Fault State :=
  match request.data with
  | none => .error .nullDereference
  | some data =>
    match NotifyListener.select env data with
    | .error e => .error e
    | .ok (audioSystemEvent, pStandaloneFile, audioControlID, pAudioEvent) =>
      let converted := ConvertToRequestResult request.status s
      let s := converted.2
      let requestInfo : SRequestInfo :=
        { requestResult := converted.1
          pOwner := request.pOwner
          pUserData := request.pUserData
          pUserDataOwner := request.pUserDataOwner
          systemEvent := audioSystemEvent
          audioControlId := audioControlID
          pAudioObject := request.pObject
          pStandaloneFile := pStandaloneFile
          pAudioEvent := pAudioEvent }
      .ok (s.call env (.EventListenerManager (.NotifyListener requestInfo)))

/-! ## Which subtypes a handler has a `case` for -/

/-- The manager handler has a `case` for every named subtype. -/
def SAudioManagerRequestData.hasCase : SAudioManagerRequestData → Bool
  | .unknown _ => false
  | _ => true

/-- The callback handler has a `case` for every named subtype. -/
def SAudioCallbackManagerRequestData.hasCase : SAudioCallbackManagerRequestData → Bool
  | .unknown _ => false
  | _ => true

/-- The object handler's `case SetName` exists only under
`INCLUDE_AUDIO_PRODUCTION_CODE` (lines 968-984). -/
def SAudioObjectRequestData.hasCase (env : Env) : SAudioObjectRequestData → Bool
  | .unknown _ => false
  | .SetName _ => env.production
  | _ => true

/-- The listener handler's `case SetName` exists only under
`INCLUDE_AUDIO_PRODUCTION_CODE` (lines 1080-1090). -/
def SAudioListenerRequestData.hasCase (env : Env) : SAudioListenerRequestData → Bool
  | .unknown _ => false
  | .SetName _ _ => env.production
  | _ => true

/-- The category tag is one of the four `ProcessRequest` and `NotifyListener` have a
`case` for. -/
def SAudioRequestData.known : SAudioRequestData → Bool
  | .unknown _ => false
  | _ => true

/-- The category is known and the subtype has no `case` in the category's handler. -/
def SAudioRequestData.unrecognizedSubtype (env : Env) : SAudioRequestData → Bool
  | .AudioObjectRequest d => !d.hasCase env
  | .AudioListenerRequest d => !d.hasCase env
  | .AudioCallbackManagerRequest d => !d.hasCase
  | .AudioManagerRequest d => !d.hasCase
  | .unknown _ => false

/-- The calls made on backend `impl`, in order. -/
def implCalls (impl : ImplPtr) (trace : List Call) : List ImplCall :=
  trace.filterMap (fun c => match c with
    | .Impl i c => if i = impl then some c else none
    | _ => none)

/-- The notifications handed to `g_eventListenerManager.NotifyListener`, in order. -/
def notifications (trace : List Call) : List SRequestInfo :=
  trace.filterMap (fun c => match c with
    | .EventListenerManager (.NotifyListener info) => some info
    | _ => none)

/-- The calls `SetImpl` makes after it has stored the Global Object's handle
(lines 1156-1160): the three `OnAfterImplChanged`, the cvar lookup and `SetLanguage`. -/
def afterGlobalObjectBound : Call → Bool
  | .ObjectManager .OnAfterImplChanged => true
  | .EventManager .OnAfterImplChanged => true
  | .ListenerManager .OnAfterImplChanged => true
  | .Console_GetCVar_languageAudio => true
  | .Impl _ (.SetLanguage _) => true
  | _ => false

/-- The collaborators called after the Global Object's handle is stored leave the handle
of object `g` as it is. -/
def Env.keepsImplData (env : Env) (g : ObjPtr) : Prop :=
  ∀ (t : List Call) (c : Call) (w : World), afterGlobalObjectBound c = true →
    ((env.effect (t ++ [c]) w).objects g).m_pImplData = (w.objects g).m_pImplData

/-- The two globals `g_pIImpl` and `g_pObject` are the same in both states. -/
def State.sameGlobals (s s' : State) : Prop :=
  s'.g_pIImpl = s.g_pIImpl ∧ s'.g_pObject = s.g_pObject

/-- An active backend comes with a Global Object: `g_pObject` is non-null whenever
`g_pIImpl` is. -/
def State.backendHasGlobalObject (s : State) : Prop :=
  s.g_pIImpl ≠ none → s.g_pObject ≠ none

/-- The calls `ReleaseImpl` makes, in the order of lines 1172-1193, for backend `impl`
and Global Object `g` whose handle is `h` when `DestructObject` is called. -/
def ReleaseImpl.calls (impl : ImplPtr) (g : ObjPtr) (h : Option ImplData) : List Call :=
  [.FileManager .ReleaseImplData, .ListenerManager .ReleaseImplData,
   .EventManager .ReleaseImplData, .ObjectManager .ReleaseImplData,
   .Impl impl (.DestructObject h), .Object_delete g,
   .XmlProcessor (.ClearPreloadsData .All), .XmlProcessor (.ClearControlsData .All),
   .Impl impl .ShutDown, .Impl impl .Release,
   .EventManager .Release, .FileManager .Release]

/-- The kinds of call `ReleaseImpl` makes. -/
def Call.isTeardown : Call → Bool
  | .FileManager .ReleaseImplData => true
  | .ListenerManager .ReleaseImplData => true
  | .EventManager .ReleaseImplData => true
  | .ObjectManager .ReleaseImplData => true
  | .Impl _ (.DestructObject _) => true
  | .Object_delete _ => true
  | .XmlProcessor (.ClearPreloadsData _) => true
  | .XmlProcessor (.ClearControlsData _) => true
  | .Impl _ .ShutDown => true
  | .Impl _ .Release => true
  | .EventManager .Release => true
  | .FileManager .Release => true
  | _ => false

/-- `ResetObstructionRays` on object `o`, the one collaborator call of the
`ReportVirtualizedEvent` case (production code only), leaves every event and every
object's flag word as they are. -/
def Env.resetRaysKeeps (env : Env) (o : ObjPtr) : Prop :=
  ∀ (t : List Call) (w : World),
    (env.effect (t ++ [.Object (some o) .ResetObstructionRays]) w).events = w.events
    ∧ ∀ q, ((env.effect (t ++ [.Object (some o) .ResetObstructionRays]) w).objects q).m_flags
        = (w.objects q).m_flags

/-- Every collaborator leaves every event and every object's flag word as they are. -/
def Env.keepsFlagsAndEvents (env : Env) : Prop :=
  ∀ (t : List Call) (w : World),
    (env.effect t w).events = w.events
    ∧ ∀ q, ((env.effect t w).objects q).m_flags = (w.objects q).m_flags

/-- In state `s` no object has an active event or the `Virtual` flag. -/
def State.noActiveEvents (s : State) : Prop :=
  ∀ p, (s.w.objects p).m_activeEvents = [] ∧ (s.w.objects p).m_flags.Virtual = false

/-- The request-subtype to event-tag table as the specification states it: six subtypes
have a tag of their own and every other subtype has `None`. -/
def tableSystemEvent : SAudioRequestData → ESystemEvents
  | .AudioManagerRequest (.SetAudioImpl _) => .ImplSet
  | .AudioCallbackManagerRequest (.ReportFinishedTriggerInstance _) => .TriggerFinished
  | .AudioCallbackManagerRequest (.ReportStartedFile _ _) => .FileStarted
  | .AudioCallbackManagerRequest (.ReportStoppedFile _) => .FileStopped
  | .AudioObjectRequest (.ExecuteTrigger _) => .TriggerExecuted
  | .AudioObjectRequest (.PlayFile _ _ _) => .FilePlay
  | _ => .None

/-- The control id of a notification as the specification states it: the trigger id of the
two trigger subtypes, `InvalidControlId` otherwise. -/
def tableControlId (env : Env) : SAudioRequestData → ControlId
  | .AudioCallbackManagerRequest (.ReportFinishedTriggerInstance audioTriggerId) => audioTriggerId
  | .AudioObjectRequest (.ExecuteTrigger audioTriggerId) => audioTriggerId
  | _ => env.InvalidControlId

/-- The standalone-file payload of a notification as the specification states it. -/
def tableStandaloneFile : SAudioRequestData → Option FilePtr
  | .AudioCallbackManagerRequest (.ReportStartedFile audioStandaloneFile _) =>
    some audioStandaloneFile
  | .AudioCallbackManagerRequest (.ReportStoppedFile audioStandaloneFile) =>
    some audioStandaloneFile
  | _ => none

/-- The event payload of a notification as the specification states it. -/
def tableAudioEvent : SAudioRequestData → Option EvPtr
  | .AudioCallbackManagerRequest (.ReportStartedEvent audioEvent) => some audioEvent
  | _ => none

/-- The call the specification expects for entry `i` of the area query: the entry is
applied when its providing entity is not the one to ignore (or none is to be ignored) and
its environment id is in the table. -/
def expectedEnvironmentCall (env : Env) (pObject : ObjPtr) (entityToIgnore : EntityId)
    (g_environments : List (EnvironmentId × Nat)) (s_areaInfos : Nat → SAudioAreaInfo)
    (i : Nat) : Option Call :=
  if entityToIgnore = env.INVALID_ENTITYID
      ∨ entityToIgnore ≠ (s_areaInfos i).envProvidingEntityId then
    (find_in_map g_environments (s_areaInfos i).audioEnvironmentId).map
      (fun pEnvironment =>
        .Object (some pObject) (.HandleSetEnvironment pEnvironment (s_areaInfos i).amount))
  else none

/-- The calls the specification expects of `SetCurrentEnvironmentsOnObject` after a
successful area query with `numAreas` entries: the expected call of each entry
`i < numAreas`, in index order. -/
def expectedEnvironmentCalls (env : Env) (pObject : ObjPtr) (entityToIgnore : EntityId)
    (g_environments : List (EnvironmentId × Nat)) (s_areaInfos : Nat → SAudioAreaInfo)
    (numAreas : Nat) : List Call :=
  (List.range numAreas).filterMap
    (expectedEnvironmentCall env pObject entityToIgnore g_environments s_areaInfos)

/-- The collaborator calls `SetCurrentEnvironmentsOnObject` makes. -/
def Call.isEnvironmentCall : Call → Bool
  | .AreaManager_QueryAudioAreas _ => true
  | .Object _ (.HandleSetEnvironment _ _) => true
  | _ => false

/-- The area query and `HandleSetEnvironment` leave the environment table as it is. -/
def Env.keepsEnvironments (env : Env) : Prop :=
  ∀ (t : List Call) (c : Call) (w : World), c.isEnvironmentCall = true →
    (env.effect (t ++ [c]) w).g_environments = w.g_environments

/-- What `CRY_ASSERT(cond)` adds to the calls: nothing when the condition holds. -/
def assertion (cond : Bool) (which : Assertion) : List Call :=
  if cond then [] else [.CryAssert which]

/-- The calls that set an object `p` up between its `HandleSetTransformation` and the
execution of the trigger: the area query, calls on `p` itself, and the warning of
`SetOcclusionType`'s default case. -/
def Call.isSetupOf (p : ObjPtr) : Call → Bool
  | .AreaManager_QueryAudioAreas _ => true
  | .Object o _ => o == some p
  | .Log _ => true
  | _ => false

/-- The area query never reports more entries than the buffer of `s_maxAreas` holds. -/
def Env.areasFitBuffer (env : Env) : Prop :=
  ∀ (t : List Call) (s_areaInfos : Nat → SAudioAreaInfo) (numAreas : Nat),
    env.queryAudioAreas t = some (s_areaInfos, numAreas) → numAreas ≤ s_maxAreas

/-- A Global Object comes with an active backend: `g_pIImpl` is non-null whenever
`g_pObject` is. -/
def State.globalObjectHasBackend (s : State) : Prop :=
  s.g_pObject ≠ none → s.g_pIImpl ≠ none

/-- The backend calls `SetImpl` makes before it looks at the Global Object
(lines 1123-1137). -/
def Call.isAdoptCall : Call → Bool
  | .Impl _ (.Init _ _) => true
  | .Impl _ .GetInfo => true
  | .Impl _ .Release => true
  | _ => false

/-- `Init`, `GetInfo` and `Release` of a backend leave the handle of object `g` as it
is. -/
def Env.adoptKeepsImplData (env : Env) (g : ObjPtr) : Prop :=
  ∀ (t : List Call) (c : Call) (w : World), c.isAdoptCall = true →
    ((env.effect (t ++ [c]) w).objects g).m_pImplData = (w.objects g).m_pImplData

/-- Lines 1172-1175 of `ReleaseImpl`: the four `ReleaseImplData` calls. -/
def ReleaseImpl.managers (env : Env) (s : State) : State :=
  let s := s.call env (.FileManager .ReleaseImplData)
  let s := s.call env (.ListenerManager .ReleaseImplData)
  let s := s.call env (.EventManager .ReleaseImplData)
  s.call env (.ObjectManager .ReleaseImplData)

/-- The argument of `DestructObject` at line 1177, `g_pObject->GetImplDataPtr()`: the
handle the Global Object `g` holds once the four `ReleaseImplData` calls have been
made. -/
def ReleaseImpl.destructed (env : Env) (s : State) (g : ObjPtr) : Option ImplData :=
  ((ReleaseImpl.managers env s).w.objects g).m_pImplData

namespace Example

def flags : ObjectFlags :=
  { InUse := true, Virtual := false, TrackAbsoluteVelocity := false,
    TrackRelativeVelocity := false, rest := 0 }

/-- A world with no control data: every table is empty. -/
def world : World :=
  { objects := fun _ => { m_flags := flags, m_pImplData := none, m_activeEvents := [],
                          m_transformation := 0 }
    events := fun _ => { m_state := .None, m_pAudioObject := none }
    files := fun _ => { m_state := .None, m_pAudioObject := none }
    g_triggers := []
    g_parameters := []
    g_switches := []
    g_environments := []
    objectManagerObjects := []
    listenerSlots := fun _ => none }

/-- The translation layer before any backend is set. -/
def state : State :=
  { w := world
    g_pIImpl := none
    g_pObject := none
    m_flags := { AudioMiddlewareShuttingDown := false, rest := 0 }
    m_objectPoolSize := 256
    m_eventPoolSize := 256
    m_implInfo := { name := "", folderName := "" }
    m_configPath := ""
    m_audioObjectPoolSize := 256
    m_audioEventPoolSize := 256
    m_audioStandaloneFilePoolSize := 1
    objectsAllocated := 0
    nullImplsAllocated := 0
    trace := [] }

/-- A state with the Global Object at address 0, backend 7 active, object 3 registered,
and one switch (id 10) with one state (id 20). -/
def running : State :=
  { state with
    g_pIImpl := some (.user 7)
    g_pObject := some 0
    objectsAllocated := 1
    w := { world with g_switches := [(10, { ptr := 100, states := [(20, 200)] })]
                      objectManagerObjects := [3] } }

/-- Collaborators that leave the world alone; every status is `Success` except that
`Init` of backend 1 returns `Failure`. -/
def env : Env :=
  { production := false
    status := fun t => match t.getLast? with
      | some (.Impl (.user 1) (.Init _ _)) => .Failure
      | _ => .Success
    effect := fun _ w => w
    construct := fun t => some t.length
    info := fun _ => { name := "impl", folderName := "impl" }
    createListener := fun t => some t.length
    queryAudioAreas := fun _ => none
    getStartedStandaloneFileRequestData := fun _ r => r
    pPhysicalWorld := true
    languageAudio := fun _ => some "english"
    distanceToListener := fun _ _ => 0
    newObjectFlags := flags
    AUDIO_SYSTEM_DATA_ROOT := "audio"
    s_szConfigFolderName := "config"
    s_szLevelsFolderName := "levels"
    InvalidControlId := 0
    INVALID_ENTITYID := 0
    GlobalPreloadRequestId := 0
    StringToId := fun name => name.length }

/-- A request with no target object and no payload yet. -/
def request : CAudioRequest :=
  { flags := { ExecuteBlocking := false, rest := 0 }
    pObject := none
    pOwner := none
    pUserData := none
    pUserDataOwner := none
    status := .None
    data := none }

end Example

namespace Example

/-- The running state with event 5 in state `PlayingDelayed`, owned by object 3, whose
only active event it is. -/
def playing : State :=
  { running with
    w := { running.w with
      objects := fun p =>
        if p = 3 then { m_flags := flags, m_pImplData := none, m_activeEvents := [some 5],
                        m_transformation := 0 }
        else running.w.objects p
      events := fun p =>
        if p = 5 then { m_state := .PlayingDelayed, m_pAudioObject := some 3 }
        else running.w.events p } }

end Example

namespace Example

/-- The running state with event 5 owned by object 3 and not yet started: no object has
an active event or the `Virtual` flag. -/
def idle : State :=
  { running with
    w := { running.w with
      events := fun p =>
        if p = 5 then { m_state := .None, m_pAudioObject := some 3 }
        else running.w.events p } }

/-- A callback report as a request. -/
def report (d : SAudioCallbackManagerRequestData) : CAudioRequest :=
  { request with data := some (.AudioCallbackManagerRequest d) }

end Example

namespace Example

/-- The initial state with an object pool size of 0, an event pool size of -5 and a
standalone-file pool size of 7. -/
def unconfigured : State :=
  { state with m_audioObjectPoolSize := 0, m_audioEventPoolSize := -5,
               m_audioStandaloneFilePoolSize := 7 }

end Example

namespace Example

/-- The running state with two environments, ids 0 and 1. -/
def withEnvironments : State :=
  { running with w := { running.w with g_environments := [(0, 50), (1, 51)] } }

/-- The collaborators of `env`, with an area query that reports three areas: entry `i` has
amount `i` and environment id `i`; entry 1 is provided by entity 9, the others by
entity 4. -/
def areas : Env :=
  { env with
    queryAudioAreas := fun _ =>
      some (fun i => { amount := i, audioEnvironmentId := i,
                       envProvidingEntityId := if i = 1 then 9 else 4 }, 3) }

end Example

namespace Example

/-- The collaborators of `env`, with every status-returning call returning `Failure`. -/
def failing : Env :=
  { env with status := fun _ => .Failure }

end Example

namespace Example

/-- The running state with one trigger, id 4. -/
def withTrigger : State :=
  { running with w := { running.w with g_triggers := [(4, 40)] } }

end Example

namespace Example

/-- The state after `SetImpl` with backend 7 on the initial state: backend 7 is active and
the Global Object, at address 0, holds the handle `ConstructGlobalObject` gave. -/
def afterSetImpl : State :=
  match SetImpl env (some (.user 7)) state with
  | .ok (_, s) => s
  | .error _ => state

end Example

namespace Example

end Example

/-! ## Dispatch: unknown subtypes and categories -/

/-- C1: a request whose subtype has no `case` in its category handler makes the handler
return `FailureInvalidRequest`; the only call made is one warning to the logger, nothing
else in the state changes, and `ProcessRequest` writes `FailureInvalidRequest` onto the
request. -/
theorem unknown_subtype_is_invalid_request (env : Env) (request : CAudioRequest) (s : State)
    (dm : SAudioManagerRequestData) (dc : SAudioCallbackManagerRequestData)
    (dobj : SAudioObjectRequestData) (dl : SAudioListenerRequestData)
    (hm : dm.hasCase = false) (hc : dc.hasCase = false)
    (hobj : dobj.hasCase env = false) (hl : dl.hasCase env = false) :
    (ProcessAudioManagerRequest env request dm s
        = .ok (.FailureInvalidRequest, s.record (.Log .Warning))
      ∧ ProcessRequest env { request with data := some (.AudioManagerRequest dm) } s
        = .ok ({ request with data := some (.AudioManagerRequest dm),
                              status := .FailureInvalidRequest }, s.record (.Log .Warning)))
    ∧ (ProcessAudioCallbackManagerRequest env request dc s
        = .ok (.FailureInvalidRequest, request, s.record (.Log .Warning))
      ∧ ProcessRequest env { request with data := some (.AudioCallbackManagerRequest dc) } s
        = .ok ({ request with data := some (.AudioCallbackManagerRequest dc),
                              status := .FailureInvalidRequest }, s.record (.Log .Warning)))
    ∧ (ProcessAudioObjectRequest env request dobj s
        = .ok (.FailureInvalidRequest, s.record (.Log .Warning))
      ∧ ProcessRequest env { request with data := some (.AudioObjectRequest dobj) } s
        = .ok ({ request with data := some (.AudioObjectRequest dobj),
                              status := .FailureInvalidRequest }, s.record (.Log .Warning)))
    ∧ (ProcessAudioListenerRequest env dl s
        = .ok (.FailureInvalidRequest, s.record (.Log .Warning))
      ∧ ProcessRequest env { request with data := some (.AudioListenerRequest dl) } s
        = .ok ({ request with data := some (.AudioListenerRequest dl),
                              status := .FailureInvalidRequest }, s.record (.Log .Warning))) := by
  refine ⟨?_, ?_, ?_, ?_⟩
  · cases dm <;> simp [SAudioManagerRequestData.hasCase] at hm
    simp [ProcessRequest, ProcessAudioManagerRequest]
  · cases dc <;> simp [SAudioCallbackManagerRequestData.hasCase] at hc
    simp [ProcessRequest, ProcessAudioCallbackManagerRequest]
  · cases dobj <;> simp [SAudioObjectRequestData.hasCase] at hobj
    · simp [ProcessRequest, ProcessAudioObjectRequest, hobj]
    · simp [ProcessRequest, ProcessAudioObjectRequest]
  · cases dl <;> simp [SAudioListenerRequestData.hasCase] at hl
    · simp [ProcessRequest, ProcessAudioListenerRequest, hl]
    · simp [ProcessRequest, ProcessAudioListenerRequest]

/-- C1 at concrete inputs: subtype tag 99 in the manager and callback categories, and
`SetName` (which has no `case` without production code) in the object and listener
categories. -/
theorem unknown_subtype_is_invalid_request_witness :
    (SAudioManagerRequestData.unknown 99).hasCase = false
    ∧ (SAudioObjectRequestData.SetName "door").hasCase Example.env = false
    ∧ ProcessAudioManagerRequest Example.env Example.request (.unknown 99) Example.running
        = .ok (.FailureInvalidRequest, Example.running.record (.Log .Warning))
    ∧ ProcessAudioObjectRequest Example.env Example.request (.SetName "door") Example.running
        = .ok (.FailureInvalidRequest, Example.running.record (.Log .Warning)) :=
  have h := unknown_subtype_is_invalid_request Example.env Example.request Example.running
    (.unknown 99) (.unknown 99) (.SetName "door") (.SetName (some 4) "ear") rfl rfl rfl rfl
  ⟨rfl, rfl, h.1.1, h.2.2.1.1⟩

/-- C3, as stated, fails: a request of category tag 0 leaves `ProcessRequest` with status
`None`, not `FailureInvalidRequest`. -/
theorem unknown_category_status_counterexample :
    ∃ r s', ProcessRequest Example.env { Example.request with data := some (.unknown 0) }
        Example.running = .ok (r, s')
      ∧ r.status = .None ∧ r.status ≠ .FailureInvalidRequest :=
  ⟨_, _, rfl, rfl, by decide⟩

/-- C3 (amended): for a request whose category tag is none of the four, `ProcessRequest`
returns normally, invokes no category handler (the state gains one error log and the
record of the failed `CRY_ASSERT(false)`, nothing else), and sets `request.status` to
`None`. -/
theorem unknown_category_leaves_status_none (env : Env) (request : CAudioRequest) (s : State)
    (type : Nat) :
    ProcessRequest env { request with data := some (.unknown type) } s
      = .ok ({ request with data := some (.unknown type), status := .None },
             (s.record (.Log .Error)).record (.CryAssert .ProcessRequest_default)) := by
  simp [ProcessRequest, State.cryAssert]

/-! ## Object requests that name a control id -/

/-- C4: `LoadTrigger`, `UnloadTrigger`, `ExecuteTrigger`, `ExecuteTriggerEx` and
`StopTrigger` with a trigger id absent from the trigger table, and `SetParameter` with a
parameter id absent from the parameter table, return `FailureInvalidControlId` and leave
the whole state as it was: no call is made, no object is allocated, no event appears. -/
theorem missing_trigger_or_parameter_is_invalid_control_id (env : Env)
    (request : CAudioRequest) (s : State) (audioTriggerId parameterId : ControlId)
    (hTrigger : find_in_map s.w.g_triggers audioTriggerId = none)
    (hParameter : find_in_map s.w.g_parameters parameterId = none) :
    ProcessAudioObjectRequest env request (.LoadTrigger audioTriggerId) s
        = .ok (.FailureInvalidControlId, s)
    ∧ ProcessAudioObjectRequest env request (.UnloadTrigger audioTriggerId) s
        = .ok (.FailureInvalidControlId, s)
    ∧ ProcessAudioObjectRequest env request (.ExecuteTrigger audioTriggerId) s
        = .ok (.FailureInvalidControlId, s)
    ∧ (∀ name entityId transformation setCurrentEnvironments occlusionType,
        ProcessAudioObjectRequest env request (.ExecuteTriggerEx name entityId transformation
          setCurrentEnvironments occlusionType audioTriggerId) s
        = .ok (.FailureInvalidControlId, s))
    ∧ ProcessAudioObjectRequest env request (.StopTrigger audioTriggerId) s
        = .ok (.FailureInvalidControlId, s)
    ∧ (∀ value, ProcessAudioObjectRequest env request (.SetParameter parameterId value) s
        = .ok (.FailureInvalidControlId, s)) := by
  simp [ProcessAudioObjectRequest, hTrigger, hParameter]

/-- C4 at the spec's scenario: `ExecuteTrigger` with trigger id `0xFFFF` on an empty
trigger table. -/
theorem missing_trigger_or_parameter_is_invalid_control_id_witness :
    find_in_map Example.running.w.g_triggers 0xFFFF = none
    ∧ ProcessAudioObjectRequest Example.env Example.request (.ExecuteTrigger 0xFFFF)
        Example.running = .ok (.FailureInvalidControlId, Example.running) :=
  ⟨rfl, (missing_trigger_or_parameter_is_invalid_control_id Example.env Example.request
    Example.running 0xFFFF 1 rfl rfl).2.2.1⟩

/-- C5: a `SetSwitchState` request returns `Success` exactly when the switch id is in the
switch table and the state id is in that switch's state table; then the one thing that
happens is `Set` of that state on the target object.  Otherwise the status is
`FailureInvalidControlId` and the state is untouched. -/
theorem SetSwitchState_success_iff_both_found (env : Env) (request : CAudioRequest)
    (s : State) (audioSwitchId : ControlId) (audioSwitchStateId : SwitchStateId) :
    ∃ result s',
      ProcessAudioObjectRequest env request (.SetSwitchState audioSwitchId audioSwitchStateId) s
        = .ok (result, s')
      ∧ (result = .Success ↔ ∃ pSwitch pState,
          find_in_map s.w.g_switches audioSwitchId = some pSwitch
          ∧ find_in_map pSwitch.states audioSwitchStateId = some pState)
      ∧ (∀ pSwitch pState, find_in_map s.w.g_switches audioSwitchId = some pSwitch →
          find_in_map pSwitch.states audioSwitchStateId = some pState →
          s' = s.call env (.SwitchState_Set pState (targetObject request s)))
      ∧ (result ≠ .Success → result = .FailureInvalidControlId ∧ s' = s) := by
  cases hSwitch : find_in_map s.w.g_switches audioSwitchId with
  | none =>
    refine ⟨.FailureInvalidControlId, s, ?_, ?_, ?_, ?_⟩ <;>
      simp [ProcessAudioObjectRequest, hSwitch]
  | some pSwitch =>
    cases hState : find_in_map pSwitch.states audioSwitchStateId with
    | none =>
      refine ⟨.FailureInvalidControlId, s, ?_, ?_, ?_, ?_⟩
      · simp [ProcessAudioObjectRequest, hSwitch, hState]
      · simp [hState]
      · intro q r hq hr
        cases hq
        simp [hState] at hr
      · simp
    | some pState =>
      refine ⟨.Success, s.call env (.SwitchState_Set pState (targetObject request s)),
        ?_, ?_, ?_, ?_⟩
      · simp [ProcessAudioObjectRequest, hSwitch, hState]
      · simp [hState]
      · intro q r hq hr
        cases hq
        simp [hState] at hr
        rw [hr]
      · simp

/-- C6, as stated, fails: `SetEnvironment` with an environment id absent from the table
and no target object (so the Global Object is the target) returns `Failure`, not
`FailureInvalidControlId`. -/
theorem SetEnvironment_on_global_object_counterexample :
    find_in_map Example.running.w.g_environments 5 = none
    ∧ targetObject Example.request Example.running = Example.running.g_pObject
    ∧ ∃ result s', ProcessAudioObjectRequest Example.env Example.request
          (.SetEnvironment 5 0) Example.running = .ok (result, s')
        ∧ result = .Failure ∧ result ≠ .FailureInvalidControlId :=
  ⟨rfl, rfl, _, _, rfl, rfl, by decide⟩

/-- C6 (amended): a `SetEnvironment` request whose environment id is absent from the
environment table returns `FailureInvalidControlId`, leaving the state as it was, when
its target is not the Global Object; when the target is the Global Object (named in the
request, or by a null `request.pObject`) the handler logs a warning, does nothing else
and returns `Failure`. -/
theorem SetEnvironment_missing_id (env : Env) (request : CAudioRequest) (s : State)
    (audioEnvironmentId : EnvironmentId) (amount : Payload)
    (hEnvironment : find_in_map s.w.g_environments audioEnvironmentId = none) :
    (targetObject request s ≠ s.g_pObject →
      ProcessAudioObjectRequest env request (.SetEnvironment audioEnvironmentId amount) s
        = .ok (.FailureInvalidControlId, s))
    ∧ (targetObject request s = s.g_pObject →
      ProcessAudioObjectRequest env request (.SetEnvironment audioEnvironmentId amount) s
        = .ok (.Failure, s.record (.Log .Warning))) := by
  constructor
  · intro h
    simp [ProcessAudioObjectRequest, h, hEnvironment]
  · intro h
    simp [ProcessAudioObjectRequest, h]

/-- C6 (amended) at concrete inputs: environment id 5, absent from the empty table,
requested on object 3 while the Global Object is object 0. -/
theorem SetEnvironment_missing_id_witness :
    find_in_map Example.running.w.g_environments 5 = none
    ∧ ProcessAudioObjectRequest Example.env { Example.request with pObject := some 3 }
        (.SetEnvironment 5 0) Example.running
      = .ok (.FailureInvalidControlId, Example.running) :=
  ⟨rfl, (SetEnvironment_missing_id Example.env { Example.request with pObject := some 3 }
    Example.running 5 0 rfl).1 (by decide)⟩

/-- C7, what the code does: a `PlayFile` request with a non-empty file name and a trigger
id that is not `InvalidControlId` and is absent from the trigger table returns `Success`
and leaves the state as it was; nothing is played. -/
theorem PlayFile_missing_trigger_returns_success (env : Env) (request : CAudioRequest)
    (s : State) (file : String) (usedAudioTriggerId : ControlId) (bLocalized : Bool)
    (hFile : file ≠ "") (hId : usedAudioTriggerId ≠ env.InvalidControlId)
    (hTrigger : find_in_map s.w.g_triggers usedAudioTriggerId = none) :
    ProcessAudioObjectRequest env request (.PlayFile file usedAudioTriggerId bLocalized) s
      = .ok (.Success, s) := by
  simp [ProcessAudioObjectRequest, hFile, hId, hTrigger]

/-- C7 at the failing input: file "a.wav", trigger id 5, empty trigger table. -/
theorem PlayFile_missing_trigger_returns_success_witness :
    find_in_map Example.running.w.g_triggers 5 = none
    ∧ ProcessAudioObjectRequest Example.env Example.request (.PlayFile "a.wav" 5 false)
        Example.running = .ok (.Success, Example.running) :=
  ⟨rfl, PlayFile_missing_trigger_returns_success Example.env Example.request Example.running
    "a.wav" 5 false (by decide) (by decide) rfl⟩

/-! ## Backend lifecycle -/

@[simp]
theorem State.call_fields (s : State) (env : Env) (c : Call) :
    (s.call env c).trace = s.trace ++ [c]
    ∧ (s.call env c).w = env.effect (s.trace ++ [c]) s.w
    ∧ (s.call env c).g_pIImpl = s.g_pIImpl
    ∧ (s.call env c).g_pObject = s.g_pObject
    ∧ (s.call env c).m_flags = s.m_flags
    ∧ (s.call env c).m_objectPoolSize = s.m_objectPoolSize
    ∧ (s.call env c).m_eventPoolSize = s.m_eventPoolSize
    ∧ (s.call env c).nullImplsAllocated = s.nullImplsAllocated
    ∧ (s.call env c).objectsAllocated = s.objectsAllocated :=
  ⟨rfl, rfl, rfl, rfl, rfl, rfl, rfl, rfl, rfl⟩

@[simp]
theorem State.record_fields (s : State) (c : Call) :
    (s.record c).trace = s.trace ++ [c]
    ∧ (s.record c).w = s.w
    ∧ (s.record c).g_pIImpl = s.g_pIImpl
    ∧ (s.record c).g_pObject = s.g_pObject
    ∧ (s.record c).m_flags = s.m_flags
    ∧ (s.record c).m_objectPoolSize = s.m_objectPoolSize
    ∧ (s.record c).m_eventPoolSize = s.m_eventPoolSize
    ∧ (s.record c).nullImplsAllocated = s.nullImplsAllocated
    ∧ (s.record c).objectsAllocated = s.objectsAllocated :=
  ⟨rfl, rfl, rfl, rfl, rfl, rfl, rfl, rfl, rfl⟩

@[simp]
theorem State.cryAssert_fields (s : State) (cond : Bool) (which : Assertion) :
    (s.cryAssert cond which).trace = s.trace ++ (if cond then [] else [.CryAssert which])
    ∧ (s.cryAssert cond which).w = s.w
    ∧ (s.cryAssert cond which).g_pIImpl = s.g_pIImpl
    ∧ (s.cryAssert cond which).g_pObject = s.g_pObject
    ∧ (s.cryAssert cond which).m_flags = s.m_flags
    ∧ (s.cryAssert cond which).m_objectPoolSize = s.m_objectPoolSize
    ∧ (s.cryAssert cond which).m_eventPoolSize = s.m_eventPoolSize
    ∧ (s.cryAssert cond which).nullImplsAllocated = s.nullImplsAllocated
    ∧ (s.cryAssert cond which).objectsAllocated = s.objectsAllocated := by
  cases cond <;> simp [State.cryAssert, State.record]

@[simp]
theorem State.setObject_fields (s : State) (p : ObjPtr) (f : CATLAudioObject → CATLAudioObject) :
    (s.setObject p f).trace = s.trace
    ∧ (s.setObject p f).w.objects = Function.update s.w.objects p (f (s.w.objects p))
    ∧ (s.setObject p f).g_pIImpl = s.g_pIImpl
    ∧ (s.setObject p f).g_pObject = s.g_pObject
    ∧ (s.setObject p f).m_flags = s.m_flags
    ∧ (s.setObject p f).m_objectPoolSize = s.m_objectPoolSize
    ∧ (s.setObject p f).m_eventPoolSize = s.m_eventPoolSize
    ∧ (s.setObject p f).nullImplsAllocated = s.nullImplsAllocated
    ∧ (s.setObject p f).objectsAllocated = s.objectsAllocated :=
  ⟨rfl, rfl, rfl, rfl, rfl, rfl, rfl, rfl, rfl⟩

@[simp]
theorem State.newObject_fields (s : State) (env : Env) :
    (s.newObject env).trace = s.trace ++ [.Object_new s.objectsAllocated]
    ∧ (s.newObject env).w.objects s.objectsAllocated = CATLAudioObject.construct env
    ∧ (s.newObject env).g_pIImpl = s.g_pIImpl
    ∧ (s.newObject env).g_pObject = s.g_pObject
    ∧ (s.newObject env).m_flags = s.m_flags
    ∧ (s.newObject env).m_objectPoolSize = s.m_objectPoolSize
    ∧ (s.newObject env).m_eventPoolSize = s.m_eventPoolSize
    ∧ (s.newObject env).nullImplsAllocated = s.nullImplsAllocated
    ∧ (s.newObject env).objectsAllocated = s.objectsAllocated + 1 := by
  simp [State.newObject, State.setObject, State.call]

theorem implCalls_append (impl : ImplPtr) (a b : List Call) :
    implCalls impl (a ++ b) = implCalls impl a ++ implCalls impl b := by
  simp [implCalls]

/-- The calls of a teardown of backend `impl` with Global Object `g`, whose handle at
the time of `DestructObject` is `h`. -/
theorem ReleaseImpl_ok (env : Env) (s : State) (impl : ImplPtr) (g : ObjPtr)
    (hImpl : s.g_pIImpl = some impl) (hObject : s.g_pObject = some g) :
    ∃ s' h, ReleaseImpl env s = .ok s'
      ∧ s'.trace = s.trace ++
          [.FileManager .ReleaseImplData, .ListenerManager .ReleaseImplData,
           .EventManager .ReleaseImplData, .ObjectManager .ReleaseImplData,
           .Impl impl (.DestructObject h), .Object_delete g,
           .XmlProcessor (.ClearPreloadsData .All), .XmlProcessor (.ClearControlsData .All),
           .Impl impl .ShutDown, .Impl impl .Release,
           .EventManager .Release, .FileManager .Release]
      ∧ s'.g_pIImpl = none ∧ s'.g_pObject = none
      ∧ s'.m_flags = { s.m_flags with AudioMiddlewareShuttingDown := false }
      ∧ s'.m_objectPoolSize = s.m_objectPoolSize ∧ s'.m_eventPoolSize = s.m_eventPoolSize
      ∧ s'.nullImplsAllocated = s.nullImplsAllocated
      ∧ s'.objectsAllocated = s.objectsAllocated := by
  simp [ReleaseImpl, State.call, State.setObject, hImpl, hObject]

/-- Adopting a backend whose `Init` succeeds: `Init` and `GetInfo` are called on it and
it becomes the active backend. -/
theorem SetImpl.adopt_success (env : Env) (s : State) (impl : ImplPtr)
    (hInit : implStatus env impl
      (s.trace ++ [.Impl impl (.Init s.m_objectPoolSize s.m_eventPoolSize)]) = .Success) :
    ∃ s', SetImpl.adopt env (some impl) s = .ok (.Success, s')
      ∧ s'.trace = s.trace ++
          [.Impl impl (.Init s.m_objectPoolSize s.m_eventPoolSize), .Impl impl .GetInfo]
      ∧ s'.g_pIImpl = some impl ∧ s'.g_pObject = s.g_pObject
      ∧ s'.nullImplsAllocated = s.nullImplsAllocated
      ∧ s'.objectsAllocated = s.objectsAllocated := by
  simp [SetImpl.adopt, State.call, hInit]

/-- Adopting a backend whose `Init` fails: `Init`, `GetInfo` and `Release` are called on
it, and a new null backend becomes the active one. -/
theorem SetImpl.adopt_failure (env : Env) (s : State) (impl : ImplPtr) (st : ERequestStatus)
    (hInit : implStatus env impl
      (s.trace ++ [.Impl impl (.Init s.m_objectPoolSize s.m_eventPoolSize)]) = st)
    (hst : st ≠ .Success) :
    ∃ s', SetImpl.adopt env (some impl) s = .ok (st, s')
      ∧ s'.trace = s.trace ++
          [.Impl impl (.Init s.m_objectPoolSize s.m_eventPoolSize), .Impl impl .GetInfo,
           .Log .Error, .Impl impl .Release, .NullImpl_new s.nullImplsAllocated]
      ∧ s'.g_pIImpl = some (.null s.nullImplsAllocated) ∧ s'.g_pObject = s.g_pObject
      ∧ s'.nullImplsAllocated = s.nullImplsAllocated + 1
      ∧ s'.objectsAllocated = s.objectsAllocated := by
  simp [SetImpl.adopt, State.call, State.record, State.newNullImpl, hInit, hst]

/-- Adopting a null pointer: a warning, a new null backend, and `Init` and `GetInfo` on
it; it becomes the active backend. -/
theorem SetImpl.adopt_null (env : Env) (s : State) :
    ∃ s', SetImpl.adopt env none s = .ok (.Success, s')
      ∧ s'.trace = s.trace ++
          [.Log .Warning, .NullImpl_new s.nullImplsAllocated,
           .Impl (.null s.nullImplsAllocated) (.Init s.m_objectPoolSize s.m_eventPoolSize),
           .Impl (.null s.nullImplsAllocated) .GetInfo]
      ∧ s'.g_pIImpl = some (.null s.nullImplsAllocated) ∧ s'.g_pObject = s.g_pObject
      ∧ s'.nullImplsAllocated = s.nullImplsAllocated + 1
      ∧ s'.objectsAllocated = s.objectsAllocated := by
  simp [SetImpl.adopt, State.call, State.record, State.newNullImpl, implStatus]

theorem SetImplLanguage_ok (env : Env) (s : State) (impl : ImplPtr)
    (hImpl : s.g_pIImpl = some impl) :
    ∃ s' rest, SetImplLanguage env s = .ok s'
      ∧ s'.trace = s.trace ++ Call.Console_GetCVar_languageAudio :: rest
      ∧ (rest = [] ∨ ∃ language, rest = [Call.Impl impl (.SetLanguage language)])
      ∧ s'.g_pIImpl = s.g_pIImpl ∧ s'.g_pObject = s.g_pObject
      ∧ s'.m_flags = s.m_flags
      ∧ s'.m_objectPoolSize = s.m_objectPoolSize ∧ s'.m_eventPoolSize = s.m_eventPoolSize
      ∧ s'.nullImplsAllocated = s.nullImplsAllocated
      ∧ s'.objectsAllocated = s.objectsAllocated
      ∧ ∀ g, env.keepsImplData g →
          (s'.w.objects g).m_pImplData = (s.w.objects g).m_pImplData := by
  simp only [SetImplLanguage, State.call_fields, hImpl]
  cases hLanguage : env.languageAudio (s.trace ++ [.Console_GetCVar_languageAudio]) with
  | none =>
    refine ⟨_, [], rfl, by simp, by simp, by simp [hImpl], by simp, by simp, by simp,
      by simp, by simp, by simp, ?_⟩
    intro g hg
    simp only [State.call_fields]
    exact hg s.trace _ s.w rfl
  | some language =>
    refine ⟨_, [.Impl impl (.SetLanguage language)], rfl, by simp, by simp,
      by simp [hImpl], by simp, by simp, by simp, by simp, by simp, by simp, ?_⟩
    intro g hg
    simp only [State.call_fields]
    rw [hg _ (.Impl impl (.SetLanguage language)) _ rfl,
      hg _ .Console_GetCVar_languageAudio _ rfl]

theorem SetImpl.globalObject_fields (env : Env) (s : State) :
    (SetImpl.globalObject env s).trace
        = s.trace ++ (if s.g_pObject = none then [.Object_new s.objectsAllocated] else [])
    ∧ (SetImpl.globalObject env s).g_pObject = some (s.g_pObject.getD s.objectsAllocated)
    ∧ (SetImpl.globalObject env s).g_pIImpl = s.g_pIImpl
    ∧ (SetImpl.globalObject env s).m_flags = s.m_flags
    ∧ (SetImpl.globalObject env s).m_objectPoolSize = s.m_objectPoolSize
    ∧ (SetImpl.globalObject env s).m_eventPoolSize = s.m_eventPoolSize
    ∧ (SetImpl.globalObject env s).nullImplsAllocated = s.nullImplsAllocated := by
  unfold SetImpl.globalObject
  cases hObject : s.g_pObject <;> simp [hObject]

theorem SetImpl.bindGlobalObject_fields (env : Env) (pObject : ObjPtr) (impl : ImplPtr)
    (s : State) :
    ∃ asserted : List Call,
      (asserted = [] ∨ asserted = [.CryAssert .SetImpl_globalObjectImplDataNull])
      ∧ (SetImpl.bindGlobalObject env pObject impl s).trace
        = s.trace ++ asserted ++
          [.Impl impl .ConstructGlobalObject, .ObjectManager .OnAfterImplChanged,
           .EventManager .OnAfterImplChanged, .ListenerManager .OnAfterImplChanged]
      ∧ (SetImpl.bindGlobalObject env pObject impl s).g_pObject = s.g_pObject
      ∧ (SetImpl.bindGlobalObject env pObject impl s).g_pIImpl = s.g_pIImpl
      ∧ (SetImpl.bindGlobalObject env pObject impl s).m_flags = s.m_flags
      ∧ (SetImpl.bindGlobalObject env pObject impl s).m_objectPoolSize = s.m_objectPoolSize
      ∧ (SetImpl.bindGlobalObject env pObject impl s).m_eventPoolSize = s.m_eventPoolSize
      ∧ (SetImpl.bindGlobalObject env pObject impl s).nullImplsAllocated = s.nullImplsAllocated
      ∧ (env.keepsImplData pObject →
          ((SetImpl.bindGlobalObject env pObject impl s).w.objects pObject).m_pImplData
            = implConstruct env impl
                (s.trace ++ asserted ++ [.Impl impl .ConstructGlobalObject])) := by
  refine ⟨if ((s.w.objects pObject).m_pImplData == none) = true then []
    else [.CryAssert .SetImpl_globalObjectImplDataNull], ?_, ?_, ?_, ?_, ?_, ?_, ?_, ?_, ?_⟩
  · split <;> simp
  · simp [SetImpl.bindGlobalObject]
  · simp [SetImpl.bindGlobalObject]
  · simp [SetImpl.bindGlobalObject]
  · simp [SetImpl.bindGlobalObject]
  · simp [SetImpl.bindGlobalObject]
  · simp [SetImpl.bindGlobalObject]
  · simp [SetImpl.bindGlobalObject]
  · intro hg
    simp only [SetImpl.bindGlobalObject, State.call_fields]
    rw [hg _ (.ListenerManager .OnAfterImplChanged) _ rfl,
      hg _ (.EventManager .OnAfterImplChanged) _ rfl,
      hg _ (.ObjectManager .OnAfterImplChanged) _ rfl]
    simp

/-- The last part of `SetImpl` with backend `impl` active: it returns the status it was
given, keeps `impl` active, leaves a Global Object in place, calls
`ConstructGlobalObject` (and possibly `SetLanguage`) on `impl` and nothing on any other
backend, and, when the later collaborators keep the handle, the Global Object holds
what `ConstructGlobalObject` returned. -/
theorem SetImpl.finish_ok (env : Env) (result : ERequestStatus) (s : State) (impl : ImplPtr)
    (hImpl : s.g_pIImpl = some impl) :
    ∃ s' ext, SetImpl.finish env result s = .ok (result, s')
      ∧ s'.trace = s.trace ++ ext
      ∧ s'.g_pIImpl = some impl
      ∧ s'.g_pObject = some (s.g_pObject.getD s.objectsAllocated)
      ∧ (∀ other, other ≠ impl → implCalls other ext = [])
      ∧ (implCalls impl ext = [.ConstructGlobalObject]
          ∨ ∃ language, implCalls impl ext = [.ConstructGlobalObject, .SetLanguage language])
      ∧ (∀ k, Call.NullImpl_new k ∉ ext)
      ∧ s'.nullImplsAllocated = s.nullImplsAllocated
      ∧ s'.m_objectPoolSize = s.m_objectPoolSize ∧ s'.m_eventPoolSize = s.m_eventPoolSize
      ∧ (env.keepsImplData (s.g_pObject.getD s.objectsAllocated) →
          ∃ t, t.getLast? = some (.Impl impl .ConstructGlobalObject)
            ∧ (s'.w.objects (s.g_pObject.getD s.objectsAllocated)).m_pImplData
              = implConstruct env impl t) := by
  obtain ⟨hg1, hg2, hg3, -, hg5, hg6, hg7⟩ := SetImpl.globalObject_fields env s
  obtain ⟨asserted, hA, hb1, hb2, hb3, -, hb5, hb6, hb7, hb8⟩ :=
    SetImpl.bindGlobalObject_fields env (s.g_pObject.getD s.objectsAllocated) impl
      (SetImpl.globalObject env s)
  obtain ⟨s3, rest, hL, hl1, hR, hl3, hl4, -, hl6, hl7, hl8, -, hl10⟩ :=
    SetImplLanguage_ok env (SetImpl.bindGlobalObject env (s.g_pObject.getD s.objectsAllocated)
      impl (SetImpl.globalObject env s)) impl (by rw [hb3, hg3, hImpl])
  refine ⟨s3, (if s.g_pObject = none then [.Object_new s.objectsAllocated] else []) ++ asserted
    ++ [.Impl impl .ConstructGlobalObject, .ObjectManager .OnAfterImplChanged,
        .EventManager .OnAfterImplChanged, .ListenerManager .OnAfterImplChanged]
    ++ Call.Console_GetCVar_languageAudio :: rest, ?_, ?_, ?_, ?_, ?_, ?_, ?_, ?_, ?_, ?_, ?_⟩
  · simp only [SetImpl.finish, hg2, hg3, hImpl, hL]
  · rw [hl1, hb1, hg1]
    simp
  · rw [hl3, hb3, hg3, hImpl]
  · rw [hl4, hb2, hg2]
  · intro other hother
    have hother' : ¬ impl = other := fun h => hother h.symm
    rcases hA with hA | hA <;> rcases hR with hR | ⟨language, hR⟩ <;>
      by_cases hO : s.g_pObject = none <;> simp [implCalls, hA, hR, hO, hother']
  · rcases hR with hR | ⟨language, hR⟩
    · left
      rcases hA with hA | hA <;>
        by_cases hO : s.g_pObject = none <;> simp [implCalls, hA, hR, hO]
    · right
      refine ⟨language, ?_⟩
      rcases hA with hA | hA <;>
        by_cases hO : s.g_pObject = none <;> simp [implCalls, hA, hR, hO]
  · intro k
    rcases hA with hA | hA <;> rcases hR with hR | ⟨language, hR⟩ <;>
      by_cases hO : s.g_pObject = none <;> simp [hA, hR, hO]
  · rw [hl8, hb7, hg7]
  · rw [hl6, hb5, hg5]
  · rw [hl7, hb6, hg6]
  · intro hk
    refine ⟨_, ?_, (hl10 _ hk).trans (hb8 hk)⟩
    simp

/-- The first step of `SetImpl` (lines 1107-1110) in a state where an active backend
comes with a Global Object: it returns; it calls nothing on a backend that is not the
active one; when it tears the active backend down, that backend gets `DestructObject`,
`ShutDown` and `Release` and both globals are null afterwards; otherwise nothing
happens. -/
theorem SetImpl.release_ok (env : Env) (pIImpl : Option ImplPtr) (s : State)
    (hwf : s.backendHasGlobalObject) :
    ∃ s0 ext0,
      (if s.g_pIImpl ≠ none ∧ pIImpl ≠ s.g_pIImpl then ReleaseImpl env s else .ok s) = .ok s0
      ∧ s0.trace = s.trace ++ ext0
      ∧ (∀ other, some other ≠ s.g_pIImpl → implCalls other ext0 = [])
      ∧ (∀ k, Call.NullImpl_new k ∉ ext0)
      ∧ s0.m_objectPoolSize = s.m_objectPoolSize ∧ s0.m_eventPoolSize = s.m_eventPoolSize
      ∧ s0.nullImplsAllocated = s.nullImplsAllocated
      ∧ (∀ old, s.g_pIImpl = some old → pIImpl ≠ some old →
          (∃ h, implCalls old ext0 = [.DestructObject h, .ShutDown, .Release])
          ∧ s0.g_pIImpl = none ∧ s0.g_pObject = none)
      ∧ ((s.g_pIImpl = none ∨ pIImpl = s.g_pIImpl) → s0 = s ∧ ext0 = []) := by
  by_cases hRelease : s.g_pIImpl ≠ none ∧ pIImpl ≠ s.g_pIImpl
  · obtain ⟨hActive, hOther⟩ := hRelease
    obtain ⟨old, hOld⟩ := Option.ne_none_iff_exists'.mp hActive
    obtain ⟨g, hg⟩ := Option.ne_none_iff_exists'.mp (hwf hActive)
    obtain ⟨s0, h, h0, h1, h2, h3, -, h5, h6, h7, -⟩ := ReleaseImpl_ok env s old g hOld hg
    refine ⟨s0, _, ?_, h1, ?_, ?_, h5, h6, h7, ?_, ?_⟩
    · rw [if_pos ⟨hActive, hOther⟩, h0]
    · intro other hother
      have hne : ¬ old = other := fun e => hother (by rw [hOld, e])
      simp [implCalls, hne]
    · intro k
      simp
    · intro old' hOld' _
      have hEq : old' = old := by rw [hOld] at hOld'; exact (Option.some.inj hOld').symm
      subst hEq
      exact ⟨⟨h, by simp [implCalls]⟩, h2, h3⟩
    · rintro (hNone | hSame)
      · exact absurd hNone hActive
      · exact absurd hSame hOther
  · refine ⟨s, [], ?_, by simp, ?_, by simp, rfl, rfl, rfl, ?_, ?_⟩
    · rw [if_neg hRelease]
    · intro other _
      rfl
    · intro old hOld hne
      exact absurd ⟨by rw [hOld]; simp, by rw [hOld]; exact hne⟩ hRelease
    · intro _
      exact ⟨rfl, rfl⟩

/-- C8: `SetImpl` called with a backend whose `Init` returns `st`, in a state where an
active backend comes with a Global Object, returns `st`.  When `st` is not `Success`,
the calls made on that backend are exactly `Init`, `GetInfo` and one `Release` (no
`ShutDown`), and the active backend on return is a null implementation constructed
during the call, which is not the failed backend.  When `st` is `Success` the active
backend on return is the one passed in. -/
theorem SetImpl_returns_init_status (env : Env) (s : State) (impl : ImplPtr)
    (st : ERequestStatus)
    (hwf : s.backendHasGlobalObject)
    (hInit : ∀ t objectPoolSize eventPoolSize,
      implStatus env impl (t ++ [.Impl impl (.Init objectPoolSize eventPoolSize)]) = st) :
    ∃ s' ext, SetImpl env (some impl) s = .ok (st, s')
      ∧ s'.trace = s.trace ++ ext
      ∧ (st ≠ .Success →
          implCalls impl ext = [.Init s.m_objectPoolSize s.m_eventPoolSize, .GetInfo, .Release]
          ∧ (implCalls impl ext).count .Release = 1
          ∧ ImplCall.ShutDown ∉ implCalls impl ext
          ∧ Call.NullImpl_new s.nullImplsAllocated ∈ ext
          ∧ s'.g_pIImpl = some (.null s.nullImplsAllocated)
          ∧ s'.g_pIImpl ≠ some impl)
      ∧ (st = .Success → s'.g_pIImpl = some impl) := by
  obtain ⟨s0, ext0, h0, ht0, hc0, -, hp0, hq0, hk0, -, hkeep⟩ :=
    SetImpl.release_ok env (some impl) s hwf
  have hX0 : implCalls impl ext0 = [] := by
    by_cases h : s.g_pIImpl = some impl
    · rw [(hkeep (Or.inr h.symm)).2]
      rfl
    · exact hc0 impl (fun e => h e.symm)
  by_cases hst : st = .Success
  · subst hst
    obtain ⟨s1, h1, ht1, hi1, -⟩ := SetImpl.adopt_success env s0 impl (hInit _ _ _)
    obtain ⟨s2, ext2, h2, ht2, hi2, -⟩ := SetImpl.finish_ok env .Success s1 impl hi1
    refine ⟨s2, ext0 ++ [.Impl impl (.Init s0.m_objectPoolSize s0.m_eventPoolSize),
      .Impl impl .GetInfo] ++ ext2, ?_, ?_, ?_, ?_⟩
    · simp only [SetImpl, h0, h1, h2]
    · rw [ht2, ht1, ht0]
      simp
    · intro h
      exact absurd rfl h
    · intro _
      exact hi2
  · obtain ⟨s1, h1, ht1, hi1, -, hn1, -⟩ := SetImpl.adopt_failure env s0 impl st (hInit _ _ _) hst
    obtain ⟨s2, ext2, h2, ht2, hi2, -, hc2, -⟩ :=
      SetImpl.finish_ok env st s1 (.null s0.nullImplsAllocated) hi1
    have hne : impl ≠ .null s0.nullImplsAllocated := by
      intro e
      apply hst
      rw [← hInit [] 0 0, e]
      rfl
    have hX2 : implCalls impl ext2 = [] := hc2 impl hne
    have hcalls : implCalls impl (ext0 ++ [.Impl impl (.Init s0.m_objectPoolSize
        s0.m_eventPoolSize), .Impl impl .GetInfo, .Log .Error, .Impl impl .Release,
        .NullImpl_new s0.nullImplsAllocated] ++ ext2)
        = [.Init s.m_objectPoolSize s.m_eventPoolSize, .GetInfo, .Release] := by
      rw [implCalls_append, implCalls_append, hX0, hX2, hp0, hq0]
      simp [implCalls]
    refine ⟨s2, ext0 ++ [.Impl impl (.Init s0.m_objectPoolSize s0.m_eventPoolSize),
      .Impl impl .GetInfo, .Log .Error, .Impl impl .Release,
      .NullImpl_new s0.nullImplsAllocated] ++ ext2, ?_, ?_, ?_, ?_⟩
    · simp only [SetImpl, h0, h1, h2]
    · rw [ht2, ht1, ht0]
      simp
    · intro _
      refine ⟨hcalls, ?_, ?_, ?_, ?_, ?_⟩
      · rw [hcalls]
        simp
      · rw [hcalls]
        simp
      · rw [← hk0]
        simp
      · rw [hi2, hk0]
      · rw [hi2]
        intro e
        exact hne (Option.some.inj e).symm
    · intro h
      exact absurd h hst

/-- C8 at concrete inputs: backend 7 is active, backend 1 (whose `Init` returns
`Failure`) is passed in. -/
theorem SetImpl_returns_init_status_witness :
    ∃ s' ext, SetImpl Example.env (some (.user 1)) Example.running = .ok (.Failure, s')
      ∧ s'.trace = Example.running.trace ++ ext
      ∧ implCalls (.user 1) ext = [.Init 256 256, .GetInfo, .Release]
      ∧ s'.g_pIImpl = some (.null 0) := by
  obtain ⟨s', ext, h1, h2, h3, -⟩ := SetImpl_returns_init_status Example.env Example.running
    (.user 1) .Failure (fun _ => by simp [Example.running])
    (fun t a b => by simp [implStatus, Example.env])
  exact ⟨s', ext, h1, h2, (h3 (by decide)).1, (h3 (by decide)).2.2.2.2.1⟩

/-- C9: in a state where an active backend comes with a Global Object, `SetImpl` returns
for every argument and every `Init` outcome, and the active backend is non-null on
return.  When the argument is null, the active backend is a null implementation
constructed during the call, and `Init` was called on it with `m_objectPoolSize` and
`m_eventPoolSize`. -/
theorem SetImpl_leaves_a_backend (env : Env) (pIImpl : Option ImplPtr) (s : State)
    (hwf : s.backendHasGlobalObject) :
    ∃ result s' ext, SetImpl env pIImpl s = .ok (result, s')
      ∧ s'.trace = s.trace ++ ext
      ∧ s'.g_pIImpl ≠ none
      ∧ (pIImpl = none →
          s'.g_pIImpl = some (.null s.nullImplsAllocated)
          ∧ Call.NullImpl_new s.nullImplsAllocated ∈ ext
          ∧ Call.Impl (.null s.nullImplsAllocated) (.Init s.m_objectPoolSize s.m_eventPoolSize)
              ∈ ext) := by
  obtain ⟨s0, ext0, h0, ht0, -, -, hp0, hq0, hk0, -, -⟩ := SetImpl.release_ok env pIImpl s hwf
  cases pIImpl with
  | none =>
    obtain ⟨s1, h1, ht1, hi1, -⟩ := SetImpl.adopt_null env s0
    obtain ⟨s2, ext2, h2, ht2, hi2, -⟩ :=
      SetImpl.finish_ok env .Success s1 (.null s0.nullImplsAllocated) hi1
    refine ⟨.Success, s2, ext0 ++ [.Log .Warning, .NullImpl_new s0.nullImplsAllocated,
      .Impl (.null s0.nullImplsAllocated) (.Init s0.m_objectPoolSize s0.m_eventPoolSize),
      .Impl (.null s0.nullImplsAllocated) .GetInfo] ++ ext2, ?_, ?_, ?_, ?_⟩
    · simp only [SetImpl, h0, h1, h2]
    · rw [ht2, ht1, ht0]
      simp
    · rw [hi2]
      simp
    · intro _
      refine ⟨by rw [hi2, hk0], ?_, ?_⟩
      · rw [← hk0]
        simp
      · rw [← hk0, ← hp0, ← hq0]
        simp
  | some impl =>
    by_cases hst : implStatus env impl
        (s0.trace ++ [.Impl impl (.Init s0.m_objectPoolSize s0.m_eventPoolSize)]) = .Success
    · obtain ⟨s1, h1, ht1, hi1, -⟩ := SetImpl.adopt_success env s0 impl hst
      obtain ⟨s2, ext2, h2, ht2, hi2, -⟩ := SetImpl.finish_ok env .Success s1 impl hi1
      refine ⟨.Success, s2, ext0 ++ [.Impl impl (.Init s0.m_objectPoolSize s0.m_eventPoolSize),
        .Impl impl .GetInfo] ++ ext2, ?_, ?_, ?_, ?_⟩
      · simp only [SetImpl, h0, h1, h2]
      · rw [ht2, ht1, ht0]
        simp
      · rw [hi2]
        simp
      · intro h
        cases h
    · obtain ⟨s1, h1, ht1, hi1, -⟩ := SetImpl.adopt_failure env s0 impl _ rfl hst
      obtain ⟨s2, ext2, h2, ht2, hi2, -⟩ :=
        SetImpl.finish_ok env (implStatus env impl (s0.trace ++
          [.Impl impl (.Init s0.m_objectPoolSize s0.m_eventPoolSize)])) s1
          (.null s0.nullImplsAllocated) hi1
      refine ⟨implStatus env impl (s0.trace ++
          [.Impl impl (.Init s0.m_objectPoolSize s0.m_eventPoolSize)]), s2, ext0 ++ [.Impl impl (.Init s0.m_objectPoolSize s0.m_eventPoolSize),
        .Impl impl .GetInfo, .Log .Error, .Impl impl .Release,
        .NullImpl_new s0.nullImplsAllocated] ++ ext2, ?_, ?_, ?_, ?_⟩
      · simp only [SetImpl, h0, h1, h2]
      · rw [ht2, ht1, ht0]
        simp
      · rw [hi2]
        simp
      · intro h
        cases h

/-- C9 at concrete inputs: a null argument while backend 7 is active. -/
theorem SetImpl_leaves_a_backend_witness :
    ∃ result s' ext, SetImpl Example.env none Example.running = .ok (result, s')
      ∧ s'.trace = Example.running.trace ++ ext
      ∧ s'.g_pIImpl = some (.null 0)
      ∧ Call.Impl (.null 0) (.Init 256 256) ∈ ext := by
  obtain ⟨result, s', ext, h1, h2, -, h4⟩ := SetImpl_leaves_a_backend Example.env none
    Example.running (fun _ => by simp [Example.running])
  exact ⟨result, s', ext, h1, h2, (h4 rfl).1, (h4 rfl).2.2⟩

/-- C10: let `Init` of backend `x` return `st`, not `Success`, and `Init` of backend `y`
return `Success`.  After `SetImpl(x)` the active backend is a null implementation
constructed during the call, `ConstructGlobalObject` was called on it and never on `x`,
`x` got exactly `Init`, `GetInfo`, `Release`, and a Global Object exists; when the
collaborators called afterwards leave its handle alone, the handle is non-null and was
made by the null backend.  A following `SetImpl(y)` returns `Success`, leaves `y`
active, gives the null backend `DestructObject`, `ShutDown`, `Release`, and makes no
call on `x`. -/
theorem SetImpl_recovers_after_failed_init (env : Env) (s : State) (x y : Nat)
    (st : ERequestStatus)
    (hwf : s.backendHasGlobalObject)
    (hX : ∀ t objectPoolSize eventPoolSize,
      env.status (t ++ [.Impl (.user x) (.Init objectPoolSize eventPoolSize)]) = st)
    (hst : st ≠ .Success)
    (hY : ∀ t objectPoolSize eventPoolSize,
      env.status (t ++ [.Impl (.user y) (.Init objectPoolSize eventPoolSize)]) = .Success) :
    ∃ s1 ext1 g, SetImpl env (some (.user x)) s = .ok (st, s1)
      ∧ s1.trace = s.trace ++ ext1
      ∧ s1.g_pIImpl = some (.null s.nullImplsAllocated)
      ∧ Call.NullImpl_new s.nullImplsAllocated ∈ ext1
      ∧ s1.g_pObject = some g
      ∧ (env.keepsImplData g →
          ∃ h, (s1.w.objects g).m_pImplData = some h ∧ h.owner = .null s.nullImplsAllocated)
      ∧ ImplCall.ConstructGlobalObject ∈ implCalls (.null s.nullImplsAllocated) ext1
      ∧ implCalls (.user x) ext1
          = [.Init s.m_objectPoolSize s.m_eventPoolSize, .GetInfo, .Release]
      ∧ ∃ s2 ext2, SetImpl env (some (.user y)) s1 = .ok (.Success, s2)
          ∧ s2.trace = s1.trace ++ ext2
          ∧ s2.g_pIImpl = some (.user y)
          ∧ (∃ h, implCalls (.null s.nullImplsAllocated) ext2
              = [.DestructObject h, .ShutDown, .Release])
          ∧ implCalls (.user x) ext2 = [] := by
  have hxy : x ≠ y := by
    intro e
    apply hst
    rw [← hX [] 0 0, e]
    exact hY [] 0 0
  -- the first call
  obtain ⟨s0, ext0, h0, ht0, hc0, -, hp0, hq0, hk0, -, hkeep⟩ :=
    SetImpl.release_ok env (some (.user x)) s hwf
  have hX0 : implCalls (.user x) ext0 = [] := by
    by_cases h : s.g_pIImpl = some (.user x)
    · rw [(hkeep (Or.inr h.symm)).2]
      rfl
    · exact hc0 _ (fun e => h e.symm)
  obtain ⟨sa, ha, hta, hia, -⟩ := SetImpl.adopt_failure env s0 (.user x) st (hX _ _ _) hst
  obtain ⟨s1, ext1, h1, ht1, hi1, ho1, hc1, hg1, -, -, -, -, hh1⟩ :=
    SetImpl.finish_ok env st sa (.null s0.nullImplsAllocated) hia
  have hX1 : implCalls (.user x) ext1 = [] := hc1 _ (by simp)
  -- the second call
  obtain ⟨s0', ext0', h0', ht0', hc0', -, -, -, -, hrel', -⟩ :=
    SetImpl.release_ok env (some (.user y)) s1 (fun _ => by rw [ho1]; simp)
  obtain ⟨⟨h, hN0'⟩, -, -⟩ := hrel' _ hi1 (by simp)
  have hX0' : implCalls (.user x) ext0' = [] := hc0' _ (by rw [hi1]; simp)
  obtain ⟨sa', ha', hta', hia', -⟩ := SetImpl.adopt_success env s0' (.user y) (hY _ _ _)
  obtain ⟨s2, ext2, h2, ht2, hi2, -, hc2, -⟩ := SetImpl.finish_ok env .Success sa' (.user y) hia'
  have hX2 : implCalls (.user x) ext2 = [] := hc2 _ (by simp [hxy])
  have hN2 : implCalls (.null s0.nullImplsAllocated) ext2 = [] := hc2 _ (by simp)
  refine ⟨s1, ext0 ++ [.Impl (.user x) (.Init s0.m_objectPoolSize s0.m_eventPoolSize),
      .Impl (.user x) .GetInfo, .Log .Error, .Impl (.user x) .Release,
      .NullImpl_new s0.nullImplsAllocated] ++ ext1, _, ?_, ?_, ?_, ?_, ho1, ?_, ?_, ?_, ?_⟩
  · simp only [SetImpl, h0, ha, h1]
  · rw [ht1, hta, ht0]
    simp
  · rw [hi1, hk0]
  · rw [← hk0]
    simp
  · intro hk
    obtain ⟨t, -, ht⟩ := hh1 hk
    rw [← hk0]
    exact ⟨_, ht, rfl⟩
  · rw [← hk0, implCalls_append]
    apply List.mem_append_right
    rcases hg1 with hg1 | ⟨language, hg1⟩ <;> simp [hg1]
  · rw [implCalls_append, implCalls_append, hX0, hX1, hp0, hq0]
    simp [implCalls]
  · refine ⟨s2, ext0' ++ [.Impl (.user y) (.Init s0'.m_objectPoolSize s0'.m_eventPoolSize),
      .Impl (.user y) .GetInfo] ++ ext2, ?_, ?_, hi2, ⟨h, ?_⟩, ?_⟩
    · simp only [SetImpl, h0', ha', h2]
    · rw [ht2, hta', ht0']
      simp
    · rw [← hk0, implCalls_append, implCalls_append, hN0', hN2]
      simp [implCalls]
    · rw [implCalls_append, implCalls_append, hX0', hX2]
      simp [implCalls, hxy.symm]

/-- C10 at concrete inputs: backend 7 is active, backend 1 fails to initialise and
backend 2 is set afterwards. -/
theorem SetImpl_recovers_after_failed_init_witness :
    ∃ s1 g, SetImpl Example.env (some (.user 1)) Example.running = .ok (.Failure, s1)
      ∧ s1.g_pIImpl = some (.null 0)
      ∧ s1.g_pObject = some g
      ∧ (∃ h, (s1.w.objects g).m_pImplData = some h ∧ h.owner = .null 0)
      ∧ ∃ s2 ext2, SetImpl Example.env (some (.user 2)) s1 = .ok (.Success, s2)
          ∧ s2.trace = s1.trace ++ ext2
          ∧ s2.g_pIImpl = some (.user 2)
          ∧ implCalls (.user 1) ext2 = [] := by
  obtain ⟨s1, ext1, g, h1, -, h3, -, h5, h6, -, -, s2, ext2, k1, k2, k3, -, k5⟩ :=
    SetImpl_recovers_after_failed_init Example.env Example.running 1 2 .Failure
      (fun _ => by simp [Example.running])
      (fun t a b => by simp [Example.env])
      (by decide)
      (fun t a b => by simp [Example.env])
  exact ⟨s1, g, h1, h3, h5, h6 (fun _ _ _ _ => rfl), s2, ext2, k1, k2, k3, k5⟩

/-! ## Notifications -/

theorem notifications_append (a b : List Call) :
    notifications (a ++ b) = notifications a ++ notifications b := by
  simp [notifications]

@[simp]
theorem notifications_call (s : State) (env : Env) (c : Call) :
    notifications (s.call env c).trace = notifications s.trace ++ notifications [c] := by
  simp [notifications]

@[simp]
theorem notifications_record (s : State) (c : Call) :
    notifications (s.record c).trace = notifications s.trace ++ notifications [c] := by
  simp [notifications]

@[simp]
theorem notifications_cryAssert (s : State) (cond : Bool) (which : Assertion) :
    notifications (s.cryAssert cond which).trace = notifications s.trace := by
  cases cond <;> simp [notifications]

theorem ReleaseImpl_quiet (env : Env) (s s' : State) (h : ReleaseImpl env s = .ok s') :
    notifications s'.trace = notifications s.trace := by
  unfold ReleaseImpl at h
  simp only at h
  split at h
  · cases h
    simp [notifications]
  · cases h

@[simp]
theorem State.setEvent_trace (s : State) (p : EvPtr) (f : CATLEvent → CATLEvent) :
    (s.setEvent p f).trace = s.trace :=
  rfl

@[simp]
theorem State.setFile_trace (s : State) (p : FilePtr)
    (f : CATLStandaloneFile → CATLStandaloneFile) : (s.setFile p f).trace = s.trace :=
  rfl

@[simp]
theorem State.SetFlag_trace (s : State) (p : ObjPtr) (flag : EObjectFlags) :
    (s.SetFlag p flag).trace = s.trace :=
  rfl

@[simp]
theorem State.RemoveFlag_trace (s : State) (p : ObjPtr) (flag : EObjectFlags) :
    (s.RemoveFlag p flag).trace = s.trace :=
  rfl

@[simp]
theorem State.newNullImpl_trace (s : State) :
    s.newNullImpl.trace = s.trace ++ [.NullImpl_new s.nullImplsAllocated] :=
  rfl

theorem SetImplLanguage_quiet (env : Env) (s s' : State) (h : SetImplLanguage env s = .ok s') :
    notifications s'.trace = notifications s.trace := by
  unfold SetImplLanguage at h
  simp only at h
  split at h
  · split at h
    · cases h
      simp [notifications]
    · cases h
  · cases h
    simp [notifications]

theorem SetImpl.adopt_quiet (env : Env) (pIImpl : Option ImplPtr) (s s' : State)
    (result : ERequestStatus) (h : SetImpl.adopt env pIImpl s = .ok (result, s')) :
    notifications s'.trace = notifications s.trace := by
  cases pIImpl with
  | none =>
    obtain ⟨s1, h1, ht1, -⟩ := SetImpl.adopt_null env s
    rw [h1] at h
    cases h
    rw [ht1, notifications_append]
    simp [notifications]
  | some impl =>
    by_cases hst : implStatus env impl
        (s.trace ++ [.Impl impl (.Init s.m_objectPoolSize s.m_eventPoolSize)]) = .Success
    · obtain ⟨s1, h1, ht1, -⟩ := SetImpl.adopt_success env s impl hst
      rw [h1] at h
      cases h
      rw [ht1, notifications_append]
      simp [notifications]
    · obtain ⟨s1, h1, ht1, -⟩ := SetImpl.adopt_failure env s impl _ rfl hst
      rw [h1] at h
      cases h
      rw [ht1, notifications_append]
      simp [notifications]

theorem SetImpl.globalObject_quiet (env : Env) (s : State) :
    notifications (SetImpl.globalObject env s).trace = notifications s.trace := by
  rw [(SetImpl.globalObject_fields env s).1, notifications_append]
  split <;> simp [notifications]

theorem SetImpl.bindGlobalObject_quiet (env : Env) (pObject : ObjPtr) (impl : ImplPtr)
    (s : State) :
    notifications (SetImpl.bindGlobalObject env pObject impl s).trace
      = notifications s.trace := by
  simp [SetImpl.bindGlobalObject, notifications]

theorem SetImpl.finish_quiet (env : Env) (result r : ERequestStatus) (s s' : State)
    (h : SetImpl.finish env result s = .ok (r, s')) :
    notifications s'.trace = notifications s.trace := by
  unfold SetImpl.finish at h
  simp only at h
  split at h
  · split at h
    · rename_i s2 hLanguage
      cases h
      rw [SetImplLanguage_quiet env _ _ hLanguage, SetImpl.bindGlobalObject_quiet,
        SetImpl.globalObject_quiet]
    · cases h
  · cases h

theorem SetImpl_quiet (env : Env) (pIImpl : Option ImplPtr) (r : ERequestStatus) (s s' : State)
    (h : SetImpl env pIImpl s = .ok (r, s')) :
    notifications s'.trace = notifications s.trace := by
  unfold SetImpl at h
  simp only at h
  split at h
  · cases h
  · rename_i s0 hRelease
    have h0 : notifications s0.trace = notifications s.trace := by
      split at hRelease
      · exact ReleaseImpl_quiet env _ _ hRelease
      · cases hRelease
        rfl
    split at h
    · cases h
    · rename_i result s1 hAdopt
      rw [SetImpl.finish_quiet env _ _ _ _ h, SetImpl.adopt_quiet env _ _ _ _ hAdopt, h0]

theorem RefreshAudioSystem_quiet (env : Env) (szLevelName : Option String) (r : ERequestStatus)
    (s s' : State) (h : RefreshAudioSystem env szLevelName s = .ok (r, s')) :
    notifications s'.trace = notifications s.trace := by
  unfold RefreshAudioSystem at h
  simp only [State.record_fields] at h
  split at h
  · cases h
  · cases h
    simp only [notifications_record, notifications_call, notifications_cryAssert]
    cases szLevelName with
    | none => simp [notifications]
    | some name =>
      simp only
      split
      · split <;> simp [notifications]
      · simp [notifications]

@[simp]
theorem SetOcclusionType_quiet (env : Env) (object : Option ObjPtr)
    (occlusionType : EOcclusionType) (s : State) :
    notifications (SetOcclusionType env object occlusionType s).trace
      = notifications s.trace := by
  cases occlusionType <;> simp [SetOcclusionType, notifications]

theorem SetCurrentEnvironmentsOnObject.loop_quiet (env : Env) (pObject : ObjPtr)
    (entityToIgnore : EntityId) (s_areaInfos : Nat → SAudioAreaInfo) (indices : List Nat) :
    ∀ s s' : State, SetCurrentEnvironmentsOnObject.loop env pObject entityToIgnore s_areaInfos
        indices s = .ok s' → notifications s'.trace = notifications s.trace := by
  induction indices with
  | nil =>
    intro s s' h
    simp only [SetCurrentEnvironmentsOnObject.loop] at h
    cases h
    rfl
  | cons i rest ih =>
    intro s s' h
    simp only [SetCurrentEnvironmentsOnObject.loop] at h
    split at h
    · rw [ih _ _ h]
      split
      · split <;> simp [notifications]
      · rfl
    · cases h

theorem SetCurrentEnvironmentsOnObject_quiet (env : Env) (pObject : Option ObjPtr)
    (entityToIgnore : EntityId) (s s' : State)
    (h : SetCurrentEnvironmentsOnObject env pObject entityToIgnore s = .ok s') :
    notifications s'.trace = notifications s.trace := by
  unfold SetCurrentEnvironmentsOnObject at h
  split at h
  · cases h
  · simp only at h
    split at h
    · rw [SetCurrentEnvironmentsOnObject.loop_quiet env _ _ _ _ _ _ h]
      simp [notifications]
    · cases h
      simp [notifications]

theorem forceRefresh_quiet (env : Env) (objects : List ObjPtr) :
    ∀ s : State, notifications (objects.foldl (fun s pObject =>
        s.call env (.Object (some pObject) (.ForceImplementationRefresh true))) s).trace
      = notifications s.trace := by
  induction objects with
  | nil =>
    intro s
    rfl
  | cons p rest ih =>
    intro s
    rw [List.foldl_cons, ih]
    simp [notifications]

@[simp]
theorem RetriggerAudioControls_quiet (env : Env) (s : State) :
    notifications (RetriggerAudioControls env s).trace = notifications s.trace := by
  simp only [RetriggerAudioControls, notifications_call, forceRefresh_quiet]
  simp [notifications]

theorem releaseEvents_quiet (env : Env) (events : List (Option EvPtr)) :
    ∀ s : State, notifications (events.foldl (fun s pEvent => match pEvent with
        | some e => s.call env (.Event_Release e)
        | none => s) s).trace = notifications s.trace := by
  induction events with
  | nil =>
    intro s
    rfl
  | cons e rest ih =>
    intro s
    rw [List.foldl_cons, ih]
    cases e <;> simp [notifications]

theorem releaseObjects_quiet (env : Env) (objects : List ObjPtr) :
    ∀ s : State, notifications (objects.foldl (fun s pObject =>
        (s.w.objects pObject).m_activeEvents.foldl (fun s pEvent => match pEvent with
          | some e => s.call env (.Event_Release e)
          | none => s) s) s).trace = notifications s.trace := by
  induction objects with
  | nil =>
    intro s
    rfl
  | cons p rest ih =>
    intro s
    rw [List.foldl_cons, ih, releaseEvents_quiet]

@[simp]
theorem releaseActiveEvents_quiet (env : Env) (s : State) :
    notifications (releaseActiveEvents env s).trace = notifications s.trace :=
  releaseObjects_quiet env _ s

theorem initObject_quiet (env : Env) (pObject : Option ObjPtr) (name : String)
    (entityId : EntityId) (transformation : Payload) (setCurrentEnvironments : Bool)
    (occlusionType : EOcclusionType) (s s' : State)
    (h : initObject env pObject name entityId transformation setCurrentEnvironments
      occlusionType s = .ok s') :
    notifications s'.trace = notifications s.trace := by
  unfold initObject at h
  split at h
  · cases h
  · simp only at h
    split at h
    · cases h
    · rename_i s1 hEnvironments
      cases h
      rw [SetOcclusionType_quiet]
      split at hEnvironments
      · rw [SetCurrentEnvironmentsOnObject_quiet env _ _ _ _ hEnvironments]
        simp [notifications]
      · cases hEnvironments
        simp [notifications]

theorem ProcessAudioManagerRequest_quiet (env : Env) (request : CAudioRequest)
    (d : SAudioManagerRequestData) (r : ERequestStatus) (s s' : State)
    (h : ProcessAudioManagerRequest env request d s = .ok (r, s')) :
    notifications s'.trace = notifications s.trace := by
  cases d <;> simp only [ProcessAudioManagerRequest] at h
  case SetAudioImpl pIImpl => exact SetImpl_quiet env _ _ _ _ h
  case RefreshAudioSystem levelName => exact RefreshAudioSystem_quiet env _ _ _ _ h
  case ReleaseAudioImpl =>
    split at h
    · rename_i s1 hRelease
      cases h
      exact ReleaseImpl_quiet env _ _ hRelease
    · cases h
  case ChangeLanguage =>
    split at h
    · rename_i s1 hLanguage
      cases h
      rw [notifications_call, SetImplLanguage_quiet env _ _ hLanguage]
      simp [notifications]
    · cases h
  all_goals
    repeat' split at h
    all_goals
      cases h <;> first
        | rfl
        | (simp only [notifications_call, notifications_record, notifications_cryAssert,
            RetriggerAudioControls_quiet, releaseActiveEvents_quiet, State.setEvent_trace,
            State.setFile_trace, State.SetFlag_trace, State.RemoveFlag_trace,
            SetOcclusionType_quiet] <;> simp [notifications])

theorem ProcessAudioCallbackManagerRequest_quiet (env : Env) (request request' : CAudioRequest)
    (d : SAudioCallbackManagerRequestData) (r : ERequestStatus) (s s' : State)
    (h : ProcessAudioCallbackManagerRequest env request d s = .ok (r, request', s')) :
    notifications s'.trace = notifications s.trace := by
  cases d <;> simp only [ProcessAudioCallbackManagerRequest] at h
  all_goals
    repeat' split at h
    all_goals
      cases h <;> first
        | rfl
        | (simp only [notifications_call, notifications_record, State.setEvent_trace,
            State.setFile_trace, State.SetFlag_trace, State.RemoveFlag_trace]
           simp [notifications])

theorem ProcessAudioListenerRequest_quiet (env : Env) (d : SAudioListenerRequestData)
    (r : ERequestStatus) (s s' : State)
    (h : ProcessAudioListenerRequest env d s = .ok (r, s')) :
    notifications s'.trace = notifications s.trace := by
  cases d <;> simp only [ProcessAudioListenerRequest] at h
  all_goals
    repeat' split at h
    all_goals
      cases h <;> first
        | rfl
        | (simp only [notifications_call, notifications_record, notifications_cryAssert,
            RetriggerAudioControls_quiet, releaseActiveEvents_quiet, State.setEvent_trace,
            State.setFile_trace, State.SetFlag_trace, State.RemoveFlag_trace,
            SetOcclusionType_quiet] <;> simp [notifications])

theorem ProcessAudioObjectRequest_quiet (env : Env) (request : CAudioRequest)
    (d : SAudioObjectRequestData) (r : ERequestStatus) (s s' : State)
    (h : ProcessAudioObjectRequest env request d s = .ok (r, s')) :
    notifications s'.trace = notifications s.trace := by
  cases d <;> simp only [ProcessAudioObjectRequest] at h
  case ExecuteTriggerEx name entityId transformation setCurrentEnvironments occlusionType
      triggerId =>
    split at h
    · split at h
      · cases h
      · rename_i s1 hInit
        cases h
        rw [State.RemoveFlag_trace, notifications_call, initObject_quiet env _ _ _ _ _ _ _ _ hInit]
        simp [notifications]
    · cases h
      rfl
  case SetCurrentEnvironments entityToIgnore =>
    split at h
    · rename_i s1 hEnvironments
      cases h
      exact SetCurrentEnvironmentsOnObject_quiet env _ _ _ _ hEnvironments
    · cases h
  case RegisterObject name entityId transformation setCurrentEnvironments occlusionType =>
    split at h
    · cases h
    · rename_i s1 hInit
      cases h
      rw [notifications_call, initObject_quiet env _ _ _ _ _ _ _ _ hInit]
      simp [notifications]
  all_goals
    repeat' split at h
    all_goals
      cases h <;> first
        | rfl
        | (simp only [notifications_call, notifications_record, notifications_cryAssert,
            State.SetFlag_trace, State.RemoveFlag_trace, SetOcclusionType_quiet]
            <;> simp [notifications])

/-- `ProcessRequest` hands nothing to `g_eventListenerManager.NotifyListener`. -/
theorem ProcessRequest_quiet (env : Env) (request r : CAudioRequest) (s s' : State)
    (h : ProcessRequest env request s = .ok (r, s')) :
    notifications s'.trace = notifications s.trace := by
  unfold ProcessRequest at h
  split at h
  · cases h
    rfl
  · split at h
    · rename_i result s1 hHandler
      cases h
      exact ProcessAudioObjectRequest_quiet env _ _ _ _ _ hHandler
    · cases h
  · split at h
    · rename_i result s1 hHandler
      cases h
      exact ProcessAudioListenerRequest_quiet env _ _ _ _ hHandler
    · cases h
  · split at h
    · rename_i result request1 s1 hHandler
      cases h
      exact ProcessAudioCallbackManagerRequest_quiet env _ _ _ _ _ _ hHandler
    · cases h
  · split at h
    · rename_i result s1 hHandler
      cases h
      exact ProcessAudioManagerRequest_quiet env _ _ _ _ _ hHandler
    · cases h
  · cases h
    simp [notifications]

theorem NotifyListener.select_known (env : Env) (data : SAudioRequestData)
    (hKnown : data.known = true) : ∃ x, NotifyListener.select env data = .ok x := by
  cases data with
  | AudioObjectRequest d => cases d <;> exact ⟨_, rfl⟩
  | AudioListenerRequest d => exact ⟨_, rfl⟩
  | AudioCallbackManagerRequest d => cases d <;> exact ⟨_, rfl⟩
  | AudioManagerRequest d => cases d <;> exact ⟨_, rfl⟩
  | unknown type => simp [SAudioRequestData.known] at hKnown

/-- `NotifyListener` on a request of a known category hands exactly one notification to
`g_eventListenerManager.NotifyListener`, with the coarse result of `request.status`. -/
theorem NotifyListener_once (env : Env) (request : CAudioRequest) (s : State)
    (data : SAudioRequestData) (hData : request.data = some data)
    (hKnown : data.known = true) :
    ∃ s' info, NotifyListener env request s = .ok s'
      ∧ notifications s'.trace = notifications s.trace ++ [info]
      ∧ info.requestResult = (ConvertToRequestResult request.status s).1 := by
  obtain ⟨⟨audioSystemEvent, pStandaloneFile, audioControlID, pAudioEvent⟩, hSelect⟩ :=
    NotifyListener.select_known env data hKnown
  have hConvert : notifications (ConvertToRequestResult request.status s).2.trace
      = notifications s.trace := by
    cases request.status <;> simp [ConvertToRequestResult, notifications]
  simp only [NotifyListener, hData, hSelect]
  refine ⟨_, { requestResult := (ConvertToRequestResult request.status s).1
               pOwner := request.pOwner
               pUserData := request.pUserData
               pUserDataOwner := request.pUserDataOwner
               systemEvent := audioSystemEvent
               audioControlId := audioControlID
               pAudioObject := request.pObject
               pStandaloneFile := pStandaloneFile
               pAudioEvent := pAudioEvent }, rfl, ?_, rfl⟩
  rw [notifications_call, hConvert]
  simp [notifications]

theorem ProcessRequest_unrecognizedSubtype (env : Env) (request : CAudioRequest) (s : State)
    (data : SAudioRequestData) (hData : request.data = some data)
    (hSubtype : data.unrecognizedSubtype env = true) :
    ProcessRequest env request s
      = .ok ({ request with status := .FailureInvalidRequest }, s.record (.Log .Warning)) := by
  cases data with
  | AudioObjectRequest d =>
    cases d <;>
      simp [SAudioRequestData.unrecognizedSubtype, SAudioObjectRequestData.hasCase] at hSubtype
    · simp [ProcessRequest, hData, ProcessAudioObjectRequest, hSubtype]
    · simp [ProcessRequest, hData, ProcessAudioObjectRequest]
  | AudioListenerRequest d =>
    cases d <;>
      simp [SAudioRequestData.unrecognizedSubtype, SAudioListenerRequestData.hasCase] at hSubtype
    · simp [ProcessRequest, hData, ProcessAudioListenerRequest, hSubtype]
    · simp [ProcessRequest, hData, ProcessAudioListenerRequest]
  | AudioCallbackManagerRequest d =>
    cases d <;>
      simp [SAudioRequestData.unrecognizedSubtype,
        SAudioCallbackManagerRequestData.hasCase] at hSubtype
    simp [ProcessRequest, hData, ProcessAudioCallbackManagerRequest]
  | AudioManagerRequest d =>
    cases d <;>
      simp [SAudioRequestData.unrecognizedSubtype, SAudioManagerRequestData.hasCase] at hSubtype
    simp [ProcessRequest, hData, ProcessAudioManagerRequest]
  | unknown type => simp [SAudioRequestData.unrecognizedSubtype] at hSubtype

/-- C2, as stated, fails: `ProcessRequest` on an object request of unknown subtype 99
writes `FailureInvalidRequest` and returns with no notification handed to
`g_eventListenerManager.NotifyListener`, not one. -/
theorem ProcessRequest_notifies_counterexample :
    ∃ r s', ProcessRequest Example.env
        { Example.request with data := some (.AudioObjectRequest (.unknown 99)) }
        Example.running = .ok (r, s')
      ∧ r.status = .FailureInvalidRequest
      ∧ notifications s'.trace = []
      ∧ (notifications s'.trace).length ≠ 1 :=
  ⟨_, _, rfl, rfl, rfl, by decide⟩

/-- C2 (amended): `ProcessRequest` writes the handler's status onto the request and
hands nothing to the Notification Relay.  `NotifyListener`, a separate entry point,
given a request of one of the four categories calls
`g_eventListenerManager.NotifyListener` exactly once, with the coarse result of
`request.status`.  So a request with an unrecognized subtype, processed and then passed
to `NotifyListener`, gets status `FailureInvalidRequest` and produces exactly one
notification, whose coarse result is `Failure`. -/
theorem ProcessRequest_writes_status_NotifyListener_notifies_once (env : Env)
    (request : CAudioRequest) (s : State) :
    (∀ d result s', request.data = some (.AudioObjectRequest d) →
        ProcessAudioObjectRequest env request d s = .ok (result, s') →
        ProcessRequest env request s = .ok ({ request with status := result }, s'))
    ∧ (∀ d result s', request.data = some (.AudioListenerRequest d) →
        ProcessAudioListenerRequest env d s = .ok (result, s') →
        ProcessRequest env request s = .ok ({ request with status := result }, s'))
    ∧ (∀ d result request' s', request.data = some (.AudioCallbackManagerRequest d) →
        ProcessAudioCallbackManagerRequest env request d s = .ok (result, request', s') →
        ProcessRequest env request s = .ok ({ request' with status := result }, s'))
    ∧ (∀ d result s', request.data = some (.AudioManagerRequest d) →
        ProcessAudioManagerRequest env request d s = .ok (result, s') →
        ProcessRequest env request s = .ok ({ request with status := result }, s'))
    ∧ (∀ r s', ProcessRequest env request s = .ok (r, s') →
        notifications s'.trace = notifications s.trace)
    ∧ (∀ data, request.data = some data → data.known = true →
        ∃ s' info, NotifyListener env request s = .ok s'
          ∧ notifications s'.trace = notifications s.trace ++ [info]
          ∧ info.requestResult = (ConvertToRequestResult request.status s).1)
    ∧ (∀ data, request.data = some data → data.unrecognizedSubtype env = true →
        ∃ r s1 s2 info, ProcessRequest env request s = .ok (r, s1)
          ∧ r.status = .FailureInvalidRequest
          ∧ NotifyListener env r s1 = .ok s2
          ∧ notifications s2.trace = notifications s.trace ++ [info]
          ∧ info.requestResult = .Failure) := by
  refine ⟨?_, ?_, ?_, ?_, ?_, ?_, ?_⟩
  · intro d result s' hData h
    simp [ProcessRequest, hData, h]
  · intro d result s' hData h
    simp [ProcessRequest, hData, h]
  · intro d result request' s' hData h
    simp [ProcessRequest, hData, h]
  · intro d result s' hData h
    simp [ProcessRequest, hData, h]
  · intro r s' h
    exact ProcessRequest_quiet env request r s s' h
  · intro data hData hKnown
    exact NotifyListener_once env request s data hData hKnown
  · intro data hData hSubtype
    have hKnown : data.known = true := by
      cases data <;> simp [SAudioRequestData.unrecognizedSubtype] at hSubtype <;> rfl
    obtain ⟨s2, info, h2, hn, hr⟩ := NotifyListener_once env
      { request with status := .FailureInvalidRequest } (s.record (.Log .Warning)) data
      hData hKnown
    refine ⟨_, _, s2, info, ProcessRequest_unrecognizedSubtype env request s data hData hSubtype,
      rfl, h2, ?_, ?_⟩
    · rw [hn, notifications_record]
      simp [notifications]
    · rw [hr]
      rfl

/-- C2 (amended) at concrete inputs: an object request with unknown subtype 99. -/
theorem ProcessRequest_writes_status_NotifyListener_notifies_once_witness :
    ∃ r s1 s2 info, ProcessRequest Example.env
        { Example.request with data := some (.AudioObjectRequest (.unknown 99)) }
        Example.running = .ok (r, s1)
      ∧ r.status = .FailureInvalidRequest
      ∧ NotifyListener Example.env r s1 = .ok s2
      ∧ notifications s2.trace = notifications Example.running.trace ++ [info]
      ∧ info.requestResult = .Failure :=
  (ProcessRequest_writes_status_NotifyListener_notifies_once Example.env
    { Example.request with data := some (.AudioObjectRequest (.unknown 99)) }
    Example.running).2.2.2.2.2.2 _ rfl rfl

/-! ## The invariant assumed of `SetImpl`'s initial state

`g_pObject` is non-null whenever `g_pIImpl` is: it holds before any backend is set and
every request that `ProcessRequest` completes keeps it. -/

@[simp]
theorem State.sameGlobals_refl (s : State) : s.sameGlobals s :=
  ⟨rfl, rfl⟩

theorem State.sameGlobals_trans {s s1 s2 : State} (h1 : s.sameGlobals s1)
    (h2 : s1.sameGlobals s2) : s.sameGlobals s2 :=
  ⟨h2.1.trans h1.1, h2.2.trans h1.2⟩

@[simp]
theorem State.sameGlobals_call (s : State) (env : Env) (c : Call) :
    s.sameGlobals (s.call env c) :=
  ⟨rfl, rfl⟩

@[simp]
theorem State.sameGlobals_record (s : State) (c : Call) : s.sameGlobals (s.record c) :=
  ⟨rfl, rfl⟩

@[simp]
theorem State.sameGlobals_cryAssert (s : State) (cond : Bool) (which : Assertion) :
    s.sameGlobals (s.cryAssert cond which) := by
  cases cond <;> exact ⟨rfl, rfl⟩

@[simp]
theorem State.sameGlobals_setObject (s : State) (p : ObjPtr)
    (f : CATLAudioObject → CATLAudioObject) : s.sameGlobals (s.setObject p f) :=
  ⟨rfl, rfl⟩

@[simp]
theorem State.sameGlobals_setEvent (s : State) (p : EvPtr) (f : CATLEvent → CATLEvent) :
    s.sameGlobals (s.setEvent p f) :=
  ⟨rfl, rfl⟩

@[simp]
theorem State.sameGlobals_setFile (s : State) (p : FilePtr)
    (f : CATLStandaloneFile → CATLStandaloneFile) : s.sameGlobals (s.setFile p f) :=
  ⟨rfl, rfl⟩

@[simp]
theorem State.sameGlobals_SetFlag (s : State) (p : ObjPtr) (flag : EObjectFlags) :
    s.sameGlobals (s.SetFlag p flag) :=
  ⟨rfl, rfl⟩

@[simp]
theorem State.sameGlobals_RemoveFlag (s : State) (p : ObjPtr) (flag : EObjectFlags) :
    s.sameGlobals (s.RemoveFlag p flag) :=
  ⟨rfl, rfl⟩

@[simp]
theorem State.sameGlobals_newObject (s : State) (env : Env) :
    s.sameGlobals (s.newObject env) :=
  ⟨rfl, rfl⟩

/-- A chain of two steps that each keep the globals. -/
theorem State.sameGlobals_step {s s1 s2 : State} (h2 : s1.sameGlobals s2)
    (h1 : s.sameGlobals s1) : s.sameGlobals s2 :=
  State.sameGlobals_trans h1 h2

theorem SetOcclusionType_sameGlobals (env : Env) (object : Option ObjPtr)
    (occlusionType : EOcclusionType) (s : State) :
    s.sameGlobals (SetOcclusionType env object occlusionType s) := by
  cases occlusionType <;> exact ⟨rfl, rfl⟩

@[simp]
theorem SetOcclusionType_globals (env : Env) (object : Option ObjPtr)
    (occlusionType : EOcclusionType) (s : State) :
    (SetOcclusionType env object occlusionType s).g_pIImpl = s.g_pIImpl
    ∧ (SetOcclusionType env object occlusionType s).g_pObject = s.g_pObject :=
  SetOcclusionType_sameGlobals env object occlusionType s

theorem SetCurrentEnvironmentsOnObject.loop_sameGlobals (env : Env) (pObject : ObjPtr)
    (entityToIgnore : EntityId) (s_areaInfos : Nat → SAudioAreaInfo) (indices : List Nat) :
    ∀ s s' : State, SetCurrentEnvironmentsOnObject.loop env pObject entityToIgnore s_areaInfos
        indices s = .ok s' → s.sameGlobals s' := by
  induction indices with
  | nil =>
    intro s s' h
    simp only [SetCurrentEnvironmentsOnObject.loop] at h
    cases h
    exact ⟨rfl, rfl⟩
  | cons i rest ih =>
    intro s s' h
    simp only [SetCurrentEnvironmentsOnObject.loop] at h
    split at h
    · refine State.sameGlobals_step (ih _ _ h) ?_
      split
      · split
        · exact ⟨rfl, rfl⟩
        · exact ⟨rfl, rfl⟩
      · exact ⟨rfl, rfl⟩
    · cases h

theorem SetCurrentEnvironmentsOnObject_sameGlobals (env : Env) (pObject : Option ObjPtr)
    (entityToIgnore : EntityId) (s s' : State)
    (h : SetCurrentEnvironmentsOnObject env pObject entityToIgnore s = .ok s') :
    s.sameGlobals s' := by
  unfold SetCurrentEnvironmentsOnObject at h
  split at h
  · cases h
  · simp only at h
    split at h
    · exact State.sameGlobals_step
        (SetCurrentEnvironmentsOnObject.loop_sameGlobals env _ _ _ _ _ _ h) ⟨rfl, rfl⟩
    · cases h
      exact ⟨rfl, rfl⟩

theorem forceRefresh_sameGlobals (env : Env) (objects : List ObjPtr) :
    ∀ s : State, s.sameGlobals (objects.foldl (fun s pObject =>
        s.call env (.Object (some pObject) (.ForceImplementationRefresh true))) s) := by
  induction objects with
  | nil =>
    intro s
    exact ⟨rfl, rfl⟩
  | cons p rest ih =>
    intro s
    rw [List.foldl_cons]
    exact State.sameGlobals_step (ih _) ⟨rfl, rfl⟩

@[simp]
theorem RetriggerAudioControls_globals (env : Env) (s : State) :
    (RetriggerAudioControls env s).g_pIImpl = s.g_pIImpl
    ∧ (RetriggerAudioControls env s).g_pObject = s.g_pObject :=
  State.sameGlobals_step ⟨rfl, rfl⟩ (forceRefresh_sameGlobals env _ s)

theorem releaseEvents_sameGlobals (env : Env) (events : List (Option EvPtr)) :
    ∀ s : State, s.sameGlobals (events.foldl (fun s pEvent => match pEvent with
        | some e => s.call env (.Event_Release e)
        | none => s) s) := by
  induction events with
  | nil =>
    intro s
    exact ⟨rfl, rfl⟩
  | cons e rest ih =>
    intro s
    rw [List.foldl_cons]
    refine State.sameGlobals_step (ih _) ?_
    cases e <;> exact ⟨rfl, rfl⟩

theorem releaseObjects_sameGlobals (env : Env) (objects : List ObjPtr) :
    ∀ s : State, s.sameGlobals (objects.foldl (fun s pObject =>
        (s.w.objects pObject).m_activeEvents.foldl (fun s pEvent => match pEvent with
          | some e => s.call env (.Event_Release e)
          | none => s) s) s) := by
  induction objects with
  | nil =>
    intro s
    exact ⟨rfl, rfl⟩
  | cons p rest ih =>
    intro s
    rw [List.foldl_cons]
    exact State.sameGlobals_step (ih _) (releaseEvents_sameGlobals env _ s)

@[simp]
theorem releaseActiveEvents_globals (env : Env) (s : State) :
    (releaseActiveEvents env s).g_pIImpl = s.g_pIImpl
    ∧ (releaseActiveEvents env s).g_pObject = s.g_pObject :=
  releaseObjects_sameGlobals env _ s

theorem initObject_sameGlobals (env : Env) (pObject : Option ObjPtr) (name : String)
    (entityId : EntityId) (transformation : Payload) (setCurrentEnvironments : Bool)
    (occlusionType : EOcclusionType) (s s' : State)
    (h : initObject env pObject name entityId transformation setCurrentEnvironments
      occlusionType s = .ok s') :
    s.sameGlobals s' := by
  unfold initObject at h
  split at h
  · cases h
  · simp only at h
    split at h
    · cases h
    · rename_i s1 hEnvironments
      cases h
      refine State.sameGlobals_step (SetOcclusionType_sameGlobals env _ _ _) ?_
      split at hEnvironments
      · exact State.sameGlobals_step
          (SetCurrentEnvironmentsOnObject_sameGlobals env _ _ _ _ hEnvironments) ⟨rfl, rfl⟩
      · cases hEnvironments
        exact ⟨rfl, rfl⟩

theorem SetImplLanguage_sameGlobals (env : Env) (s s' : State)
    (h : SetImplLanguage env s = .ok s') : s.sameGlobals s' := by
  unfold SetImplLanguage at h
  simp only at h
  split at h
  · split at h
    · cases h
      exact ⟨rfl, rfl⟩
    · cases h
  · cases h
    exact ⟨rfl, rfl⟩

theorem RefreshAudioSystem_sameGlobals (env : Env) (szLevelName : Option String)
    (r : ERequestStatus) (s s' : State)
    (h : RefreshAudioSystem env szLevelName s = .ok (r, s')) : s.sameGlobals s' := by
  unfold RefreshAudioSystem at h
  simp only [State.record_fields] at h
  split at h
  · cases h
  · cases h
    cases szLevelName with
    | none => simp [State.sameGlobals]
    | some name =>
      simp only [State.sameGlobals, State.record_fields]
      constructor
      · split
        · split <;> simp
        · simp
      · split
        · split <;> simp
        · simp

theorem ProcessAudioObjectRequest_sameGlobals (env : Env) (request : CAudioRequest)
    (d : SAudioObjectRequestData) (r : ERequestStatus) (s s' : State)
    (h : ProcessAudioObjectRequest env request d s = .ok (r, s')) : s.sameGlobals s' := by
  cases d <;> simp only [ProcessAudioObjectRequest] at h
  case ExecuteTriggerEx name entityId transformation setCurrentEnvironments occlusionType
      triggerId =>
    split at h
    · split at h
      · cases h
      · rename_i s1 hInit
        cases h
        obtain ⟨h1, h2⟩ := initObject_sameGlobals env _ _ _ _ _ _ _ _ hInit
        simp only [State.call_fields, State.newObject_fields] at h1 h2
        simp [State.sameGlobals, State.RemoveFlag, h1, h2]
    · cases h
      exact ⟨rfl, rfl⟩
  case SetCurrentEnvironments entityToIgnore =>
    split at h
    · rename_i s1 hEnvironments
      cases h
      exact SetCurrentEnvironmentsOnObject_sameGlobals env _ _ _ _ hEnvironments
    · cases h
  case RegisterObject name entityId transformation setCurrentEnvironments occlusionType =>
    split at h
    · cases h
    · rename_i s1 hInit
      cases h
      obtain ⟨h1, h2⟩ := initObject_sameGlobals env _ _ _ _ _ _ _ _ hInit
      simp [State.sameGlobals, h1, h2]
  all_goals
    repeat' split at h
    all_goals
      cases h <;> simp [State.sameGlobals, State.SetFlag, State.RemoveFlag]

theorem ProcessAudioListenerRequest_sameGlobals (env : Env) (d : SAudioListenerRequestData)
    (r : ERequestStatus) (s s' : State)
    (h : ProcessAudioListenerRequest env d s = .ok (r, s')) : s.sameGlobals s' := by
  cases d <;> simp only [ProcessAudioListenerRequest] at h
  all_goals
    repeat' split at h
    all_goals
      cases h <;> simp [State.sameGlobals]

theorem ProcessAudioCallbackManagerRequest_sameGlobals (env : Env)
    (request request' : CAudioRequest) (d : SAudioCallbackManagerRequestData)
    (r : ERequestStatus) (s s' : State)
    (h : ProcessAudioCallbackManagerRequest env request d s = .ok (r, request', s')) :
    s.sameGlobals s' := by
  cases d <;> simp only [ProcessAudioCallbackManagerRequest] at h
  all_goals
    repeat' split at h
    all_goals
      cases h <;> simp [State.sameGlobals, State.SetFlag, State.RemoveFlag, State.setEvent,
        State.setFile]

theorem ReleaseImpl_clears_backend (env : Env) (s s' : State)
    (h : ReleaseImpl env s = .ok s') : s'.g_pIImpl = none := by
  unfold ReleaseImpl at h
  simp only at h
  split at h
  · cases h
    rfl
  · cases h

theorem SetImpl.finish_has_globalObject (env : Env) (result r : ERequestStatus) (s s' : State)
    (h : SetImpl.finish env result s = .ok (r, s')) : s'.g_pObject ≠ none := by
  unfold SetImpl.finish at h
  simp only at h
  split at h
  · rename_i pObject impl hObject hImpl
    split at h
    · rename_i s2 hLanguage
      cases h
      rw [(SetImplLanguage_sameGlobals env _ _ hLanguage).2]
      obtain ⟨-, -, -, hb, -⟩ := SetImpl.bindGlobalObject_fields env pObject impl
        (SetImpl.globalObject env s)
      rw [hb, hObject]
      simp
    · cases h
  · cases h

theorem SetImpl_has_globalObject (env : Env) (pIImpl : Option ImplPtr) (r : ERequestStatus)
    (s s' : State) (h : SetImpl env pIImpl s = .ok (r, s')) : s'.g_pObject ≠ none := by
  unfold SetImpl at h
  simp only at h
  split at h
  · cases h
  · split at h
    · cases h
    · exact SetImpl.finish_has_globalObject env _ _ _ _ h

theorem ProcessAudioManagerRequest_keeps_invariant (env : Env) (request : CAudioRequest)
    (d : SAudioManagerRequestData) (r : ERequestStatus) (s s' : State)
    (h : ProcessAudioManagerRequest env request d s = .ok (r, s'))
    (hwf : s.backendHasGlobalObject) : s'.backendHasGlobalObject := by
  have keep : s.sameGlobals s' → s'.backendHasGlobalObject := by
    intro hSame hActive
    rw [hSame.2]
    exact hwf (by rw [← hSame.1]; exact hActive)
  cases d <;> simp only [ProcessAudioManagerRequest] at h
  case SetAudioImpl pIImpl => exact fun _ => SetImpl_has_globalObject env _ _ _ _ h
  case RefreshAudioSystem levelName => exact keep (RefreshAudioSystem_sameGlobals env _ _ _ _ h)
  case ReleaseAudioImpl =>
    split at h
    · rename_i s1 hRelease
      cases h
      exact fun hActive => absurd (ReleaseImpl_clears_backend env _ _ hRelease) hActive
    · cases h
  case ChangeLanguage =>
    split at h
    · rename_i s1 hLanguage
      cases h
      obtain ⟨h1, h2⟩ := SetImplLanguage_sameGlobals env _ _ hLanguage
      exact keep ⟨h1, h2⟩
    · cases h
  all_goals
    apply keep
    repeat' split at h
    all_goals
      cases h <;> simp [State.sameGlobals]

/-- Before any backend is set the invariant holds. -/
theorem backendHasGlobalObject_initially : Example.state.backendHasGlobalObject :=
  fun h => absurd rfl h

/-- Every request that `ProcessRequest` completes keeps the invariant. -/
theorem ProcessRequest_keeps_backendHasGlobalObject (env : Env) (request r : CAudioRequest)
    (s s' : State) (h : ProcessRequest env request s = .ok (r, s'))
    (hwf : s.backendHasGlobalObject) : s'.backendHasGlobalObject := by
  have keep : ∀ s1 : State, s.sameGlobals s1 → s1.backendHasGlobalObject := by
    intro s1 hSame hActive
    rw [hSame.2]
    exact hwf (by rw [← hSame.1]; exact hActive)
  unfold ProcessRequest at h
  split at h
  · cases h
    exact hwf
  · split at h
    · rename_i result s1 hHandler
      cases h
      exact keep _ (ProcessAudioObjectRequest_sameGlobals env _ _ _ _ _ hHandler)
    · cases h
  · split at h
    · rename_i result s1 hHandler
      cases h
      exact keep _ (ProcessAudioListenerRequest_sameGlobals env _ _ _ _ hHandler)
    · cases h
  · split at h
    · rename_i result request1 s1 hHandler
      cases h
      exact keep _ (ProcessAudioCallbackManagerRequest_sameGlobals env _ _ _ _ _ _ hHandler)
    · cases h
  · split at h
    · rename_i result s1 hHandler
      cases h
      exact ProcessAudioManagerRequest_keeps_invariant env _ _ _ _ _ hHandler hwf
    · cases h
  · cases h
    exact keep _ (by simp [State.sameGlobals])

/-! ## Teardown -/

/-- The teardown of backend `impl` with Global Object `g`: it returns, and its calls are
those of `ReleaseImpl.calls` with the handle the Global Object holds at line 1177. -/
theorem ReleaseImpl_trace (env : Env) (s : State) (impl : ImplPtr) (g : ObjPtr)
    (hImpl : s.g_pIImpl = some impl) (hObject : s.g_pObject = some g) :
    ∃ s', ReleaseImpl env s = .ok s'
      ∧ s'.trace = s.trace ++ ReleaseImpl.calls impl g (ReleaseImpl.destructed env s g)
      ∧ s'.m_objectPoolSize = s.m_objectPoolSize ∧ s'.m_eventPoolSize = s.m_eventPoolSize := by
  simp [ReleaseImpl, ReleaseImpl.calls, ReleaseImpl.destructed, ReleaseImpl.managers,
    State.call, State.setObject, hImpl, hObject]

/-- The last part of `SetImpl` makes no call of a teardown kind. -/
theorem SetImpl.finish_no_teardown (env : Env) (result : ERequestStatus) (s : State)
    (impl : ImplPtr) (hImpl : s.g_pIImpl = some impl) :
    ∃ s' ext, SetImpl.finish env result s = .ok (result, s')
      ∧ s'.trace = s.trace ++ ext
      ∧ ∀ c ∈ ext, c.isTeardown = false := by
  obtain ⟨hg1, hg2, hg3, -⟩ := SetImpl.globalObject_fields env s
  obtain ⟨asserted, hA, hb1, -, hb3, -⟩ :=
    SetImpl.bindGlobalObject_fields env (s.g_pObject.getD s.objectsAllocated) impl
      (SetImpl.globalObject env s)
  obtain ⟨s3, rest, hL, hl1, hR, -⟩ :=
    SetImplLanguage_ok env (SetImpl.bindGlobalObject env (s.g_pObject.getD s.objectsAllocated)
      impl (SetImpl.globalObject env s)) impl (by rw [hb3, hg3, hImpl])
  refine ⟨s3, (if s.g_pObject = none then [.Object_new s.objectsAllocated] else []) ++ asserted
    ++ [.Impl impl .ConstructGlobalObject, .ObjectManager .OnAfterImplChanged,
        .EventManager .OnAfterImplChanged, .ListenerManager .OnAfterImplChanged]
    ++ Call.Console_GetCVar_languageAudio :: rest, ?_, ?_, ?_⟩
  · simp only [SetImpl.finish, hg2, hg3, hImpl, hL]
  · rw [hl1, hb1, hg1]
    simp
  · rcases hA with hA | hA <;> rcases hR with hR | ⟨language, hR⟩ <;>
      by_cases hO : s.g_pObject = none <;>
      simp [hA, hR, hO, Call.isTeardown]

/-- The first step of `SetImpl` (lines 1107-1110): the calls it makes are those of
`ReleaseImpl` when another backend is active, and none otherwise. -/
theorem SetImpl.release_calls (env : Env) (pIImpl : Option ImplPtr) (s : State)
    (hwf : s.backendHasGlobalObject) :
    ∃ s0 ext0,
      (if s.g_pIImpl ≠ none ∧ pIImpl ≠ s.g_pIImpl then ReleaseImpl env s else .ok s) = .ok s0
      ∧ s0.trace = s.trace ++ ext0
      ∧ s0.m_objectPoolSize = s.m_objectPoolSize ∧ s0.m_eventPoolSize = s.m_eventPoolSize
      ∧ (∀ old, s.g_pIImpl = some old → pIImpl ≠ some old →
          ∃ g, s.g_pObject = some g
            ∧ ext0 = ReleaseImpl.calls old g (ReleaseImpl.destructed env s g))
      ∧ ((s.g_pIImpl = none ∨ pIImpl = s.g_pIImpl) → ext0 = []) := by
  by_cases hRelease : s.g_pIImpl ≠ none ∧ pIImpl ≠ s.g_pIImpl
  · obtain ⟨hActive, hOther⟩ := hRelease
    obtain ⟨old, hOld⟩ := Option.ne_none_iff_exists'.mp hActive
    obtain ⟨g, hg⟩ := Option.ne_none_iff_exists'.mp (hwf hActive)
    obtain ⟨s0, h0, h1, h5, h6⟩ := ReleaseImpl_trace env s old g hOld hg
    refine ⟨s0, ReleaseImpl.calls old g (ReleaseImpl.destructed env s g), ?_, h1, h5, h6, ?_,
      ?_⟩
    · rw [if_pos ⟨hActive, hOther⟩, h0]
    · intro old' hOld' _
      have hEq : old' = old := by rw [hOld] at hOld'; exact (Option.some.inj hOld').symm
      subst hEq
      exact ⟨g, hg, rfl⟩
    · rintro (hNone | hSame)
      · exact absurd hNone hActive
      · exact absurd hSame hOther
  · refine ⟨s, [], ?_, by simp, rfl, rfl, ?_, fun _ => rfl⟩
    · rw [if_neg hRelease]
    · intro old hOld hne
      exact absurd ⟨by rw [hOld]; simp, by rw [hOld]; exact hne⟩ hRelease

/-- C11, as stated, fails: `SetImpl` with backend 1, whose `Init` returns `Failure`,
calls `Release` on backend 1, both when no backend is active and when backend 1 is the
active backend and is passed again. -/
theorem SetImpl_release_without_teardown_counterexample :
    (Example.state.g_pIImpl = none
      ∧ ∃ s', SetImpl Example.env (some (.user 1)) Example.state = .ok (.Failure, s')
        ∧ Call.Impl (.user 1) .Release ∈ s'.trace)
    ∧ ({ Example.running with g_pIImpl := some (.user 1) }.g_pIImpl = some (.user 1)
      ∧ ∃ s', SetImpl Example.env (some (.user 1))
          { Example.running with g_pIImpl := some (.user 1) } = .ok (.Failure, s')
        ∧ Call.Impl (.user 1) .Release ∈ s'.trace) :=
  ⟨⟨rfl, _, rfl, by decide⟩, ⟨rfl, _, rfl, by decide⟩⟩

/-- C11 (amended): in a state where an active backend comes with a Global Object, the
calls of `SetImpl` are a teardown part followed by the rest, which holds the `Init` call.
The teardown part is the call sequence of `ReleaseImpl` on the old backend, destructing
the Global Object's handle, when a backend is active and differs from the argument, and
is empty otherwise, so it is non-empty exactly in the first case.  The rest holds no
call of a teardown kind (`ShutDown`, `ReleaseImplData`, `DestructObject`, ...) except
the `Release` of line 1137 on the backend passed in, which is made exactly when its
`Init` did not return `Success`. -/
theorem SetImpl_tears_down_iff_other_backend_active (env : Env) (pIImpl : Option ImplPtr)
    (s : State) (hwf : s.backendHasGlobalObject) :
    ∃ result s' teardown rest, SetImpl env pIImpl s = .ok (result, s')
      ∧ s'.trace = s.trace ++ teardown ++ rest
      ∧ (∀ old, s.g_pIImpl = some old → pIImpl ≠ some old →
          ∃ g, s.g_pObject = some g
            ∧ teardown = ReleaseImpl.calls old g (ReleaseImpl.destructed env s g))
      ∧ ((s.g_pIImpl = none ∨ pIImpl = s.g_pIImpl) → teardown = [])
      ∧ (teardown ≠ [] ↔ (s.g_pIImpl ≠ none ∧ pIImpl ≠ s.g_pIImpl))
      ∧ (∃ impl, Call.Impl impl (.Init s.m_objectPoolSize s.m_eventPoolSize) ∈ rest)
      ∧ (∀ c ∈ rest, c.isTeardown = true →
          result ≠ .Success ∧ ∃ impl, pIImpl = some impl ∧ c = .Impl impl .Release)
      ∧ (∀ impl, pIImpl = some impl →
          (Call.Impl impl .Release ∈ rest ↔ result ≠ .Success)) := by
  obtain ⟨s0, ext0, h0, ht0, hp0, hq0, hTear, hNone⟩ := SetImpl.release_calls env pIImpl s hwf
  have hIff : ext0 ≠ [] ↔ (s.g_pIImpl ≠ none ∧ pIImpl ≠ s.g_pIImpl) := by
    constructor
    · intro hne
      by_contra hcon
      apply hne
      apply hNone
      by_cases hA : s.g_pIImpl = none
      · exact Or.inl hA
      · exact Or.inr (by_contra fun hB => hcon ⟨hA, hB⟩)
    · rintro ⟨hActive, hOther⟩
      obtain ⟨old, hOld⟩ := Option.ne_none_iff_exists'.mp hActive
      obtain ⟨g, -, hExt⟩ := hTear old hOld (by rw [← hOld]; exact hOther)
      rw [hExt]
      simp [ReleaseImpl.calls]
  cases pIImpl with
  | none =>
    obtain ⟨s1, h1, ht1, hi1, -⟩ := SetImpl.adopt_null env s0
    obtain ⟨s2, ext2, h2, ht2, hc2⟩ :=
      SetImpl.finish_no_teardown env .Success s1 (.null s0.nullImplsAllocated) hi1
    refine ⟨.Success, s2, ext0, [.Log .Warning, .NullImpl_new s0.nullImplsAllocated,
      .Impl (.null s0.nullImplsAllocated) (.Init s0.m_objectPoolSize s0.m_eventPoolSize),
      .Impl (.null s0.nullImplsAllocated) .GetInfo] ++ ext2, ?_, ?_, hTear, hNone, hIff, ?_, ?_,
      fun impl h => (by cases h)⟩
    · simp only [SetImpl, h0, h1, h2]
    · rw [ht2, ht1, ht0]
      simp
    · exact ⟨.null s0.nullImplsAllocated, by rw [← hp0, ← hq0]; simp⟩
    · intro c hc hT
      rcases List.mem_append.mp hc with hc | hc
      · simp at hc
        rcases hc with hc | hc | hc | hc <;> subst hc <;> simp [Call.isTeardown] at hT
      · rw [hc2 c hc] at hT
        cases hT
  | some impl =>
    by_cases hst : implStatus env impl
        (s0.trace ++ [.Impl impl (.Init s0.m_objectPoolSize s0.m_eventPoolSize)]) = .Success
    · obtain ⟨s1, h1, ht1, hi1, -⟩ := SetImpl.adopt_success env s0 impl hst
      obtain ⟨s2, ext2, h2, ht2, hc2⟩ := SetImpl.finish_no_teardown env .Success s1 impl hi1
      refine ⟨.Success, s2, ext0, [.Impl impl (.Init s0.m_objectPoolSize s0.m_eventPoolSize),
        .Impl impl .GetInfo] ++ ext2, ?_, ?_, hTear, hNone, hIff, ?_, ?_, ?_⟩
      · simp only [SetImpl, h0, h1, h2]
      · rw [ht2, ht1, ht0]
        simp
      · exact ⟨impl, by rw [← hp0, ← hq0]; simp⟩
      · intro c hc hT
        rcases List.mem_append.mp hc with hc | hc
        · simp at hc
          rcases hc with hc | hc <;> subst hc <;> simp [Call.isTeardown] at hT
        · rw [hc2 c hc] at hT
          cases hT
      · intro impl' _
        refine ⟨fun hMem => ?_, fun hNe => absurd rfl hNe⟩
        rcases List.mem_append.mp hMem with hMem | hMem
        · simp at hMem
        · have := hc2 _ hMem
          simp [Call.isTeardown] at this
    · obtain ⟨s1, h1, ht1, hi1, -⟩ := SetImpl.adopt_failure env s0 impl _ rfl hst
      obtain ⟨s2, ext2, h2, ht2, hc2⟩ := SetImpl.finish_no_teardown env
        (implStatus env impl (s0.trace ++
          [.Impl impl (.Init s0.m_objectPoolSize s0.m_eventPoolSize)])) s1
        (.null s0.nullImplsAllocated) hi1
      refine ⟨implStatus env impl (s0.trace ++
          [.Impl impl (.Init s0.m_objectPoolSize s0.m_eventPoolSize)]), s2, ext0,
        [.Impl impl (.Init s0.m_objectPoolSize s0.m_eventPoolSize), .Impl impl .GetInfo,
         .Log .Error, .Impl impl .Release, .NullImpl_new s0.nullImplsAllocated] ++ ext2,
        ?_, ?_, hTear, hNone, hIff, ?_, ?_, ?_⟩
      · simp only [SetImpl, h0, h1, h2]
      · rw [ht2, ht1, ht0]
        simp
      · exact ⟨impl, by rw [← hp0, ← hq0]; simp⟩
      · intro c hc hT
        rcases List.mem_append.mp hc with hc | hc
        · simp at hc
          rcases hc with hc | hc | hc | hc | hc <;> subst hc <;>
            simp [Call.isTeardown] at hT
          exact ⟨hst, impl, rfl, rfl⟩
        · rw [hc2 c hc] at hT
          cases hT
      · intro impl' hEq
        cases hEq
        exact ⟨fun _ => hst, fun _ => by simp⟩

/-- C11 (amended) at concrete inputs: backend 7 is active, with the Global Object holding
the handle with id 4.  When backend 2 is passed in, backend 7 is torn down and that handle
destructed; when backend 7 is passed in again there is no teardown. -/
theorem SetImpl_tears_down_iff_other_backend_active_witness :
    (∃ result s' rest,
      SetImpl Example.env (some (.user 2)) Example.afterSetImpl = .ok (result, s')
      ∧ s'.trace = Example.afterSetImpl.trace
          ++ ReleaseImpl.calls (.user 7) 0 (some { owner := .user 7, id := 4 }) ++ rest)
    ∧ (∃ result s' rest,
      SetImpl Example.env (some (.user 7)) Example.afterSetImpl = .ok (result, s')
      ∧ s'.trace = Example.afterSetImpl.trace ++ rest
      ∧ ∀ c ∈ rest, c.isTeardown = true → result ≠ .Success) := by
  have hImpl : Example.afterSetImpl.g_pIImpl = some (.user 7) := rfl
  have hObject : Example.afterSetImpl.g_pObject = some 0 := rfl
  constructor
  · obtain ⟨result, s', teardown, rest, h1, h2, h3, -⟩ :=
      SetImpl_tears_down_iff_other_backend_active Example.env (some (.user 2))
        Example.afterSetImpl (fun _ => by rw [hObject]; simp)
    obtain ⟨g, hg, hT⟩ := h3 (.user 7) hImpl (by decide)
    have hg0 : g = 0 := (Option.some.inj (hObject.symm.trans hg)).symm
    subst hg0
    have hHandle : ReleaseImpl.destructed Example.env Example.afterSetImpl 0
        = some { owner := .user 7, id := 4 } := by decide
    exact ⟨result, s', rest, h1, by rw [h2, hT, hHandle]⟩
  · obtain ⟨result, s', teardown, rest, h1, h2, -, h4, -, -, h7, -⟩ :=
      SetImpl_tears_down_iff_other_backend_active Example.env (some (.user 7))
        Example.afterSetImpl (fun _ => by rw [hObject]; simp)
    have hT : teardown = [] := h4 (Or.inr hImpl.symm)
    exact ⟨result, s', rest, h1, by rw [h2, hT]; simp, fun c hc hk => (h7 c hc hk).1⟩

/-! ## Callback reports -/

@[simp]
theorem State.setEvent_world (s : State) (p : EvPtr) (f : CATLEvent → CATLEvent) :
    (s.setEvent p f).w.events = Function.update s.w.events p (f (s.w.events p))
    ∧ (s.setEvent p f).w.objects = s.w.objects
    ∧ (s.setEvent p f).w.files = s.w.files
    ∧ (s.setEvent p f).g_pObject = s.g_pObject
    ∧ (s.setEvent p f).g_pIImpl = s.g_pIImpl :=
  ⟨rfl, rfl, rfl, rfl, rfl⟩

@[simp]
theorem State.setFile_world (s : State) (p : FilePtr)
    (f : CATLStandaloneFile → CATLStandaloneFile) :
    (s.setFile p f).w.files = Function.update s.w.files p (f (s.w.files p))
    ∧ (s.setFile p f).w.objects = s.w.objects
    ∧ (s.setFile p f).w.events = s.w.events :=
  ⟨rfl, rfl, rfl⟩

@[simp]
theorem State.SetFlag_world (s : State) (p : ObjPtr) (flag : EObjectFlags) :
    (s.SetFlag p flag).w.objects = Function.update s.w.objects p
        { s.w.objects p with m_flags := (s.w.objects p).m_flags.SetFlag flag }
    ∧ (s.SetFlag p flag).w.events = s.w.events
    ∧ (s.SetFlag p flag).g_pObject = s.g_pObject :=
  ⟨rfl, rfl, rfl⟩

@[simp]
theorem State.RemoveFlag_world (s : State) (p : ObjPtr) (flag : EObjectFlags) :
    (s.RemoveFlag p flag).w.objects = Function.update s.w.objects p
        { s.w.objects p with m_flags := (s.w.objects p).m_flags.RemoveFlag flag }
    ∧ (s.RemoveFlag p flag).w.events = s.w.events
    ∧ (s.RemoveFlag p flag).g_pObject = s.g_pObject :=
  ⟨rfl, rfl, rfl⟩

/-- The loop of the `ReportVirtualizedEvent` case on a set without null entries: it
answers whether every event of the set is `Virtual`. -/
theorem allEventsVirtual_ok (w : World) (events : List (Option EvPtr))
    (hNoNull : none ∉ events) :
    ∃ isVirtual, allEventsVirtual w events = .ok isVirtual
      ∧ (isVirtual = true ↔ ∀ e, some e ∈ events → (w.events e).m_state = .Virtual) := by
  induction events with
  | nil => exact ⟨true, rfl, by simp⟩
  | cons x rest ih =>
    cases x with
    | none => simp at hNoNull
    | some e =>
      have hRest : none ∉ rest := fun h => hNoNull (List.mem_cons_of_mem _ h)
      obtain ⟨b, hb, hiff⟩ := ih hRest
      by_cases hState : (w.events e).m_state = .Virtual
      · refine ⟨b, by simp [allEventsVirtual, hState, hb], ?_⟩
        rw [hiff]
        constructor
        · intro h e' he'
          rcases List.mem_cons.mp he' with he' | he'
          · cases he'
            exact hState
          · exact h e' he'
        · intro h e' he'
          exact h e' (List.mem_cons_of_mem _ he')
      · refine ⟨false, by simp [allEventsVirtual, hState], ?_⟩
        constructor
        · intro h
          cases h
        · intro h
          exact absurd (h e (List.mem_cons_self _ _)) hState

/-- The state a `ReportVirtualizedEvent` report for event `e` of object `o` leaves, by
cases on the object's `Virtual` flag and on whether all its active events are `Virtual`
once `e` is. -/
theorem ReportVirtualizedEvent_ok (env : Env) (request : CAudioRequest) (s : State)
    (e : EvPtr) (o : ObjPtr)
    (hOwner : (s.w.events e).m_pAudioObject = some o)
    (hNoNull : none ∉ (s.w.objects o).m_activeEvents) :
    ∃ s', ProcessAudioCallbackManagerRequest env request (.ReportVirtualizedEvent e) s
        = .ok (.Success, request, s')
      ∧ ((s.w.objects o).m_flags.Virtual = true →
          s' = s.setEvent e (fun ev => { ev with m_state := .Virtual }))
      ∧ ((s.w.objects o).m_flags.Virtual = false →
          ¬ (∀ e', some e' ∈ (s.w.objects o).m_activeEvents →
              e' = e ∨ (s.w.events e').m_state = .Virtual) →
          s' = s.setEvent e (fun ev => { ev with m_state := .Virtual }))
      ∧ ((s.w.objects o).m_flags.Virtual = false →
          (∀ e', some e' ∈ (s.w.objects o).m_activeEvents →
              e' = e ∨ (s.w.events e').m_state = .Virtual) →
          s' = if env.production then
              ((s.setEvent e (fun ev => { ev with m_state := .Virtual })).SetFlag o .Virtual).call
                env (.Object (some o) .ResetObstructionRays)
            else (s.setEvent e (fun ev => { ev with m_state := .Virtual })).SetFlag o .Virtual) := by
  obtain ⟨b, hb, hiff⟩ := allEventsVirtual_ok
    (s.setEvent e (fun ev => { ev with m_state := .Virtual })).w
    (s.w.objects o).m_activeEvents hNoNull
  have hiff' : b = true ↔ ∀ e', some e' ∈ (s.w.objects o).m_activeEvents →
      e' = e ∨ (s.w.events e').m_state = .Virtual := by
    rw [hiff]
    constructor
    · intro h e' he'
      by_cases hEq : e' = e
      · exact Or.inl hEq
      · have := h e' he'
        simp [hEq] at this
        exact Or.inr this
    · intro h e' he'
      by_cases hEq : e' = e
      · subst hEq
        simp
      · rcases h e' he' with h1 | h1
        · exact absurd h1 hEq
        · simp [hEq, h1]
  cases hFlag : (s.w.objects o).m_flags.Virtual with
  | true =>
    refine ⟨_, ?_, fun _ => rfl, fun h => (by cases h), fun h => (by cases h)⟩
    simp [ProcessAudioCallbackManagerRequest, hOwner, ObjectFlags.has, hFlag]
  | false =>
    cases b with
    | false =>
      refine ⟨_, ?_, fun h => (by cases h), fun _ _ => rfl, fun _ h => ?_⟩
      · simp [ProcessAudioCallbackManagerRequest, hOwner, ObjectFlags.has, hFlag, hb]
      · have := hiff'.mpr h
        cases this
    | true =>
      cases hProd : env.production with
      | false =>
        refine ⟨(s.setEvent e (fun ev => { ev with m_state := .Virtual })).SetFlag o .Virtual,
          ?_, fun h => (by cases h), fun _ h => absurd (hiff'.mp rfl) h, fun _ _ => ?_⟩
        · simp [ProcessAudioCallbackManagerRequest, hOwner, ObjectFlags.has, hFlag, hb, hProd]
        · simp
      | true =>
        refine ⟨((s.setEvent e (fun ev => { ev with m_state := .Virtual })).SetFlag
            o .Virtual).call env (.Object (some o) .ResetObstructionRays),
          ?_, fun h => (by cases h), fun _ h => absurd (hiff'.mp rfl) h, fun _ _ => ?_⟩
        · simp [ProcessAudioCallbackManagerRequest, hOwner, ObjectFlags.has, hFlag, hb, hProd]
        · simp

/-- C13: a `ReportVirtualizedEvent` report for event `e`, owned by object `o` whose
active-event set has no null entry, returns `Success`; `e`'s state becomes `Virtual`
and no other event changes.  If `o`'s `Virtual` flag was clear, it is set afterwards
exactly when every event of `o`'s active-event set is `Virtual` after the update; if it
was set, `o`'s flags are unchanged.  All other flags of `o`, and all flags of every
other object, are unchanged.  (With production code the handler also calls
`ResetObstructionRays`, assumed to leave events and flags alone.) -/
theorem ReportVirtualizedEvent_virtualizes_owner (env : Env) (request : CAudioRequest)
    (s : State) (e : EvPtr) (o : ObjPtr)
    (hOwner : (s.w.events e).m_pAudioObject = some o)
    (hNoNull : none ∉ (s.w.objects o).m_activeEvents)
    (hReset : env.production = true → env.resetRaysKeeps o) :
    ∃ s', ProcessAudioCallbackManagerRequest env request (.ReportVirtualizedEvent e) s
        = .ok (.Success, request, s')
      ∧ s'.w.events = Function.update s.w.events e { s.w.events e with m_state := .Virtual }
      ∧ (s'.w.events e).m_state = .Virtual
      ∧ ((s.w.objects o).m_flags.Virtual = false →
          ((s'.w.objects o).m_flags.Virtual = true ↔
            ∀ e', some e' ∈ (s.w.objects o).m_activeEvents →
              (s'.w.events e').m_state = .Virtual))
      ∧ ((s.w.objects o).m_flags.Virtual = true →
          (s'.w.objects o).m_flags = (s.w.objects o).m_flags)
      ∧ (s'.w.objects o).m_flags
          = { (s.w.objects o).m_flags with Virtual := (s'.w.objects o).m_flags.Virtual }
      ∧ ∀ q, q ≠ o → (s'.w.objects q).m_flags = (s.w.objects q).m_flags := by
  obtain ⟨s', hOk, hSet, hNot, hAll⟩ := ReportVirtualizedEvent_ok env request s e o hOwner hNoNull
  have hStates : ∀ e', (Function.update s.w.events e
      { s.w.events e with m_state := .Virtual } e').m_state = .Virtual ↔
      (e' = e ∨ (s.w.events e').m_state = .Virtual) := by
    intro e'
    by_cases hEq : e' = e
    · subst hEq
      simp
    · simp [hEq]
  cases hFlag : (s.w.objects o).m_flags.Virtual with
  | true =>
    have hs' := hSet hFlag
    subst hs'
    refine ⟨_, hOk, by simp, by simp, fun h => (by cases h), fun _ => by simp, ?_, ?_⟩
    · simp [← hFlag]
    · intro q _
      simp
  | false =>
    by_cases hV : ∀ e', some e' ∈ (s.w.objects o).m_activeEvents →
        e' = e ∨ (s.w.events e').m_state = .Virtual
    · have hs' := hAll hFlag hV
      cases hProd : env.production with
      | false =>
        rw [hProd] at hs'
        simp only [Bool.false_eq_true, if_false] at hs'
        subst hs'
        refine ⟨_, hOk, by simp, by simp, fun _ => ?_, fun h => (by cases h), ?_, ?_⟩
        · simp only [State.SetFlag_world, State.setEvent_world, Function.update_same,
            ObjectFlags.SetFlag, true_iff]
          intro e' he'
          exact (hStates e').mpr (hV e' he')
        · simp [ObjectFlags.SetFlag]
        · intro q hq
          simp [hq]
      | true =>
        rw [hProd] at hs'
        simp only [if_true] at hs'
        subst hs'
        obtain ⟨hEv, hFl⟩ := hReset hProd
          ((s.setEvent e (fun ev => { ev with m_state := .Virtual })).SetFlag o .Virtual).trace
          ((s.setEvent e (fun ev => { ev with m_state := .Virtual })).SetFlag o .Virtual).w
        refine ⟨_, hOk, ?_, ?_, fun _ => ?_, fun h => (by cases h), ?_, ?_⟩
        · simp only [State.call_fields]
          rw [hEv]
          simp
        · simp only [State.call_fields]
          rw [hEv]
          simp
        · simp only [State.call_fields]
          rw [hEv, hFl]
          simp only [State.SetFlag_world, State.setEvent_world, Function.update_same,
            ObjectFlags.SetFlag, true_iff]
          intro e' he'
          exact (hStates e').mpr (hV e' he')
        · simp only [State.call_fields]
          rw [hFl]
          simp [ObjectFlags.SetFlag]
        · intro q hq
          simp only [State.call_fields]
          rw [hFl]
          simp [hq]
    · have hs' := hNot hFlag hV
      subst hs'
      refine ⟨_, hOk, by simp, by simp, fun _ => ?_, fun h => (by cases h), ?_, ?_⟩
      · simp only [State.setEvent_world, hFlag]
        constructor
        · intro h
          cases h
        · intro h
          exact absurd (fun e' he' => (hStates e').mp (h e' he')) hV
      · simp [← hFlag]
      · intro q _
        simp

/-- C13 at concrete inputs: event 5 is the only active event of object 3, whose
`Virtual` flag is clear. -/
theorem ReportVirtualizedEvent_virtualizes_owner_witness :
    ∃ s', ProcessAudioCallbackManagerRequest Example.env Example.request
        (.ReportVirtualizedEvent 5) Example.playing = .ok (.Success, Example.request, s')
      ∧ (s'.w.events 5).m_state = .Virtual
      ∧ (s'.w.objects 3).m_flags.Virtual = true := by
  obtain ⟨s', h1, -, h3, h4, -⟩ := ReportVirtualizedEvent_virtualizes_owner Example.env
    Example.request Example.playing 5 3 rfl (by simp [Example.playing])
    (fun h => absurd h (by decide))
  refine ⟨s', h1, h3, (h4 rfl).mpr ?_⟩
  intro e' he'
  have : e' = 5 := by simpa [Example.playing] using he'
  subst this
  exact h3

/-- C15: a `ReportPhysicalizedEvent` report for event `e` owned by object `o` returns
`Success` and makes no call; `e`'s state becomes `Playing` and no other event changes;
`o`'s `Virtual` flag is clear afterwards whatever it and the states of `o`'s events were
before; the other flags of `o` and every other object are unchanged. -/
theorem ReportPhysicalizedEvent_clears_virtual (env : Env) (request : CAudioRequest)
    (s : State) (e : EvPtr) (o : ObjPtr)
    (hOwner : (s.w.events e).m_pAudioObject = some o) :
    ∃ s', ProcessAudioCallbackManagerRequest env request (.ReportPhysicalizedEvent e) s
        = .ok (.Success, request, s')
      ∧ s'.trace = s.trace
      ∧ s'.w.events = Function.update s.w.events e { s.w.events e with m_state := .Playing }
      ∧ (s'.w.events e).m_state = .Playing
      ∧ (s'.w.objects o).m_flags = { (s.w.objects o).m_flags with Virtual := false }
      ∧ (s'.w.objects o).m_flags.Virtual = false
      ∧ ∀ q, q ≠ o → s'.w.objects q = s.w.objects q := by
  refine ⟨(s.setEvent e (fun ev => { ev with m_state := .Playing })).RemoveFlag o .Virtual,
    ?_, rfl, by simp, by simp, by simp [ObjectFlags.RemoveFlag],
    by simp [ObjectFlags.RemoveFlag], ?_⟩
  · simp [ProcessAudioCallbackManagerRequest, hOwner]
  · intro q hq
    simp [hq]

/-- C15 at concrete inputs: event 5 of object 3. -/
theorem ReportPhysicalizedEvent_clears_virtual_witness :
    ∃ s', ProcessAudioCallbackManagerRequest Example.env Example.request
        (.ReportPhysicalizedEvent 5) Example.playing = .ok (.Success, Example.request, s')
      ∧ (s'.w.events 5).m_state = .Playing
      ∧ (s'.w.objects 3).m_flags.Virtual = false := by
  obtain ⟨s', h1, -, -, h4, -, h6, -⟩ := ReportPhysicalizedEvent_clears_virtual Example.env
    Example.request Example.playing 5 3 rfl
  exact ⟨s', h1, h4, h6⟩

/-- C17: a `ReportFinishedEvent` report for event `e` returns `Success` whatever its
success flag, and makes exactly two calls: first the completion report with the success
flag, to the object manager when `e`'s owner is not the Global Object and to the Global
Object itself when it is, then `DestructEvent` on `e`. -/
theorem ReportFinishedEvent_reports_then_destructs (env : Env) (request : CAudioRequest)
    (s : State) (e : EvPtr) (bSuccess : Bool) :
    ∃ s', ProcessAudioCallbackManagerRequest env request (.ReportFinishedEvent e bSuccess) s
        = .ok (.Success, request, s')
      ∧ ((s.w.events e).m_pAudioObject ≠ s.g_pObject →
          s'.trace = s.trace ++ [.ObjectManager (.ReportFinishedEvent e bSuccess),
            .EventManager (.DestructEvent e)])
      ∧ ((s.w.events e).m_pAudioObject = s.g_pObject →
          s'.trace = s.trace ++ [.Object s.g_pObject (.ReportFinishedEvent e bSuccess),
            .EventManager (.DestructEvent e)])
      ∧ (s'.trace.filter (fun c => c == .EventManager (.DestructEvent e))).length
          = (s.trace.filter (fun c => c == .EventManager (.DestructEvent e))).length + 1 := by
  by_cases hOwner : (s.w.events e).m_pAudioObject = s.g_pObject
  · refine ⟨_, by simp [ProcessAudioCallbackManagerRequest, hOwner]; rfl,
      fun h => absurd hOwner h, fun _ => by simp, ?_⟩
    simp [List.filter_append, List.filter_cons]
  · refine ⟨_, by simp [ProcessAudioCallbackManagerRequest, hOwner]; rfl,
      fun _ => by simp, fun h => absurd h hOwner, ?_⟩
    simp [List.filter_append, List.filter_cons]

/-- C18: a `ReportStartedFile` report with success flag `true` leaves the file in state
`Playing` and returns `Success`; with `false` it leaves the file in state `None` and
returns `Failure`.  So the status is `Success` exactly when the file ends `Playing`. -/
theorem ReportStartedFile_status_follows_flag (env : Env) (request : CAudioRequest)
    (s : State) (file : FilePtr) (bSuccess : Bool) :
    ∃ result request' s',
      ProcessAudioCallbackManagerRequest env request (.ReportStartedFile file bSuccess) s
        = .ok (result, request', s')
      ∧ (bSuccess = true → result = .Success ∧ (s'.w.files file).m_state = .Playing)
      ∧ (bSuccess = false → result = .Failure ∧ (s'.w.files file).m_state = .None)
      ∧ (result = .Success ↔ (s'.w.files file).m_state = .Playing) := by
  cases bSuccess
  · refine ⟨.Failure, env.getStartedStandaloneFileRequestData (s.trace ++
        [.ObjectManager (.GetStartedStandaloneFileRequestData file)]) request,
      (s.call env (.ObjectManager (.GetStartedStandaloneFileRequestData file))).setFile file
        (fun f => { f with m_state := .None }), ?_, ?_, ?_, ?_⟩
    · simp [ProcessAudioCallbackManagerRequest]
    · intro h
      cases h
    · intro _
      simp
    · simp
  · refine ⟨.Success, env.getStartedStandaloneFileRequestData (s.trace ++
        [.ObjectManager (.GetStartedStandaloneFileRequestData file)]) request,
      (s.call env (.ObjectManager (.GetStartedStandaloneFileRequestData file))).setFile file
        (fun f => { f with m_state := .Playing }), ?_, ?_, ?_, ?_⟩
    · simp [ProcessAudioCallbackManagerRequest]
    · intro _
      simp
    · intro h
      cases h
    · simp

/-! ## Releasing objects -/

/-- C19: a `ReleaseObject` request whose target is the Global Object, named by the
request or taken by default because `request.pObject` is null, returns `Failure`, which
is not `Success`; the only thing that happens is a warning to the logger, so the Global
Object keeps its `InUse` flag and all its other flags. -/
theorem ReleaseObject_keeps_global_object (env : Env) (request : CAudioRequest) (s : State)
    (hTarget : request.pObject = none ∨ request.pObject = s.g_pObject) :
    ∃ result s', ProcessAudioObjectRequest env request .ReleaseObject s = .ok (result, s')
      ∧ result = .Failure ∧ result ≠ .Success
      ∧ s' = s.record (.Log .Warning)
      ∧ s'.w.objects = s.w.objects
      ∧ ∀ g, s.g_pObject = some g → (s'.w.objects g).m_flags = (s.w.objects g).m_flags := by
  have hGlobal : targetObject request s = s.g_pObject := by
    rcases hTarget with h | h
    · simp [targetObject, h]
    · by_cases hNull : request.pObject = none
      · simp [targetObject, hNull]
      · simp [targetObject, hNull, h]
  refine ⟨.Failure, s.record (.Log .Warning), ?_, rfl, by decide, rfl, rfl, fun _ _ => rfl⟩
  simp [ProcessAudioObjectRequest, hGlobal]

/-- C19 at concrete inputs: no target object, and the Global Object (object 0) named
as the target. -/
theorem ReleaseObject_keeps_global_object_witness :
    ProcessAudioObjectRequest Example.env Example.request .ReleaseObject Example.running
        = .ok (.Failure, Example.running.record (.Log .Warning))
    ∧ ProcessAudioObjectRequest Example.env { Example.request with pObject := some 0 }
        .ReleaseObject Example.running
        = .ok (.Failure, Example.running.record (.Log .Warning)) := by
  obtain ⟨r1, s1, h1, hr1, -, hs1, -⟩ := ReleaseObject_keeps_global_object Example.env
    Example.request Example.running (Or.inl rfl)
  obtain ⟨r2, s2, h2, hr2, -, hs2, -⟩ := ReleaseObject_keeps_global_object Example.env
    { Example.request with pObject := some 0 } Example.running (Or.inr rfl)
  subst hr1 hs1 hr2 hs2
  exact ⟨h1, h2⟩

theorem State.RemoveFlag_idem (s : State) (p : ObjPtr) (flag : EObjectFlags) :
    (s.RemoveFlag p flag).RemoveFlag p flag = s.RemoveFlag p flag := by
  cases flag <;>
    simp [State.RemoveFlag, State.setObject, ObjectFlags.RemoveFlag]

/-- C20: a `ReleaseObject` request on an object `p` that is not the Global Object
returns `Success`, clears `p`'s `InUse` flag, leaves its other flags and every other
object unchanged, and makes no call.  A second `ReleaseObject` request on `p` returns
`Success` again and leaves the state exactly as it was after the first. -/
theorem ReleaseObject_idempotent (env : Env) (request : CAudioRequest) (s : State)
    (p : ObjPtr) (hTarget : targetObject request s = some p)
    (hNotGlobal : some p ≠ s.g_pObject) :
    ∃ s', ProcessAudioObjectRequest env request .ReleaseObject s = .ok (.Success, s')
      ∧ (s'.w.objects p).m_flags = { (s.w.objects p).m_flags with InUse := false }
      ∧ (∀ q, q ≠ p → s'.w.objects q = s.w.objects q)
      ∧ s'.trace = s.trace
      ∧ ProcessAudioObjectRequest env request .ReleaseObject s' = .ok (.Success, s') := by
  have hTarget' : targetObject request (s.RemoveFlag p .InUse) = some p := by
    rw [← hTarget]
    rfl
  refine ⟨s.RemoveFlag p .InUse, ?_, by simp [ObjectFlags.RemoveFlag], ?_, rfl, ?_⟩
  · simp [ProcessAudioObjectRequest, hTarget, hNotGlobal]
  · intro q hq
    simp [hq]
  · simp [ProcessAudioObjectRequest, hTarget', hNotGlobal, State.RemoveFlag_idem]

/-- C20 at concrete inputs: object 3, while the Global Object is object 0. -/
theorem ReleaseObject_idempotent_witness :
    ∃ s', ProcessAudioObjectRequest Example.env { Example.request with pObject := some 3 }
        .ReleaseObject Example.running = .ok (.Success, s')
      ∧ (s'.w.objects 3).m_flags.InUse = false
      ∧ ProcessAudioObjectRequest Example.env { Example.request with pObject := some 3 }
        .ReleaseObject s' = .ok (.Success, s') := by
  obtain ⟨s', h1, h2, -, -, h5⟩ := ReleaseObject_idempotent Example.env
    { Example.request with pObject := some 3 } Example.running 3 rfl (by decide)
  exact ⟨s', h1, by rw [h2], h5⟩

/-! ## The `Virtual` flag over sequences of reports -/

/-- C14, as stated, fails: from a state in which no object has an active event or the
`Virtual` flag, one `ReportVirtualizedEvent` report for event 5 of object 3, processed
without any collaborator being called, leaves object 3 with the `Virtual` flag set and
still without an active event. -/
theorem virtual_flag_invariant_counterexample :
    Example.idle.noActiveEvents
    ∧ ∃ r s', ProcessRequest Example.env (Example.report (.ReportVirtualizedEvent 5))
          Example.idle = .ok (r, s')
        ∧ r.status = .Success
        ∧ s'.trace = Example.idle.trace
        ∧ (s'.w.objects 3).m_flags.Virtual = true
        ∧ (s'.w.objects 3).m_activeEvents = [] :=
  ⟨fun _ => ⟨rfl, rfl⟩, _, _, rfl, rfl, rfl, rfl, rfl⟩

/-- The state a `ReportStartedEvent` report leaves: the event is `PlayingDelayed`, and one
call, to the object manager or to the Global Object, has been made. -/
theorem ReportStartedEvent_ok (env : Env) (request : CAudioRequest) (s : State) (e : EvPtr) :
    ∃ c, ProcessAudioCallbackManagerRequest env request (.ReportStartedEvent e) s
        = .ok (.Success, request,
            (s.setEvent e (fun ev => { ev with m_state := .PlayingDelayed })).call env c)
      ∧ (c = .ObjectManager (.ReportStartedEvent e)
          ∨ c = .Object s.g_pObject (.ReportStartedEvent e)) := by
  by_cases hOwner : (s.w.events e).m_pAudioObject = s.g_pObject
  · exact ⟨.Object s.g_pObject (.ReportStartedEvent e),
      by simp [ProcessAudioCallbackManagerRequest, hOwner], Or.inr rfl⟩
  · exact ⟨.ObjectManager (.ReportStartedEvent e),
      by simp [ProcessAudioCallbackManagerRequest, hOwner], Or.inl rfl⟩

/-- The state a `ReportFinishedEvent` report leaves: two calls have been made, the second
being `DestructEvent`, and nothing else has been written. -/
theorem ReportFinishedEvent_ok (env : Env) (request : CAudioRequest) (s : State) (e : EvPtr)
    (bSuccess : Bool) :
    ∃ c, ProcessAudioCallbackManagerRequest env request (.ReportFinishedEvent e bSuccess) s
        = .ok (.Success, request,
            (s.call env c).call env (.EventManager (.DestructEvent e)))
      ∧ (c = .ObjectManager (.ReportFinishedEvent e bSuccess)
          ∨ c = .Object s.g_pObject (.ReportFinishedEvent e bSuccess)) := by
  by_cases hOwner : (s.w.events e).m_pAudioObject = s.g_pObject
  · exact ⟨.Object s.g_pObject (.ReportFinishedEvent e bSuccess),
      by simp [ProcessAudioCallbackManagerRequest, hOwner], Or.inr rfl⟩
  · exact ⟨.ObjectManager (.ReportFinishedEvent e bSuccess),
      by simp [ProcessAudioCallbackManagerRequest, hOwner], Or.inl rfl⟩

/-- C14 (amended): how each event report changes `Virtual` flags, for an event `e` owned
by object `o` whose active-event set has no null entry, with collaborators that leave
events and flags alone.  A `ReportStartedEvent` and a `ReportFinishedEvent` report change
no flag of any object.  After a `ReportVirtualizedEvent` report `o`'s flag is set exactly
when it was set before or every active event of `o` other than `e` was `Virtual`, which
holds also when `o` has no active event.  After a `ReportPhysicalizedEvent` report `o`'s
flag is clear.  The last two change no flag of another object. -/
theorem virtual_flag_changes_by_report (env : Env) (request : CAudioRequest) (s : State)
    (e : EvPtr) (o : ObjPtr)
    (hOwner : (s.w.events e).m_pAudioObject = some o)
    (hNoNull : none ∉ (s.w.objects o).m_activeEvents)
    (hKeep : env.keepsFlagsAndEvents) :
    (∃ s', ProcessAudioCallbackManagerRequest env request (.ReportStartedEvent e) s
        = .ok (.Success, request, s')
      ∧ ∀ q, (s'.w.objects q).m_flags = (s.w.objects q).m_flags)
    ∧ (∀ bSuccess, ∃ s',
        ProcessAudioCallbackManagerRequest env request (.ReportFinishedEvent e bSuccess) s
          = .ok (.Success, request, s')
        ∧ ∀ q, (s'.w.objects q).m_flags = (s.w.objects q).m_flags)
    ∧ (∃ s', ProcessAudioCallbackManagerRequest env request (.ReportVirtualizedEvent e) s
        = .ok (.Success, request, s')
      ∧ ((s'.w.objects o).m_flags.Virtual = true ↔
          ((s.w.objects o).m_flags.Virtual = true
            ∨ ∀ e', some e' ∈ (s.w.objects o).m_activeEvents →
                e' = e ∨ (s.w.events e').m_state = .Virtual))
      ∧ ((s.w.objects o).m_activeEvents = [] → (s'.w.objects o).m_flags.Virtual = true)
      ∧ ∀ q, q ≠ o → (s'.w.objects q).m_flags = (s.w.objects q).m_flags)
    ∧ (∃ s', ProcessAudioCallbackManagerRequest env request (.ReportPhysicalizedEvent e) s
        = .ok (.Success, request, s')
      ∧ (s'.w.objects o).m_flags.Virtual = false
      ∧ ∀ q, q ≠ o → (s'.w.objects q).m_flags = (s.w.objects q).m_flags) := by
  refine ⟨?_, ?_, ?_, ?_⟩
  · obtain ⟨c, hOk, -⟩ := ReportStartedEvent_ok env request s e
    refine ⟨_, hOk, fun q => ?_⟩
    simp only [State.call_fields]
    rw [(hKeep _ _).2 q]
    simp
  · intro bSuccess
    obtain ⟨c, hOk, -⟩ := ReportFinishedEvent_ok env request s e bSuccess
    refine ⟨_, hOk, fun q => ?_⟩
    simp only [State.call_fields]
    rw [(hKeep _ _).2 q, (hKeep _ _).2 q]
  · obtain ⟨s', hOk, hSet, hNot, hAll⟩ :=
      ReportVirtualizedEvent_ok env request s e o hOwner hNoNull
    have hMain : ((s'.w.objects o).m_flags.Virtual = true ↔
          ((s.w.objects o).m_flags.Virtual = true
            ∨ ∀ e', some e' ∈ (s.w.objects o).m_activeEvents →
                e' = e ∨ (s.w.events e').m_state = .Virtual))
        ∧ ∀ q, q ≠ o → (s'.w.objects q).m_flags = (s.w.objects q).m_flags := by
      cases hFlag : (s.w.objects o).m_flags.Virtual with
      | true =>
        have hs' := hSet hFlag
        subst hs'
        exact ⟨by simp [hFlag], fun q _ => by simp⟩
      | false =>
        by_cases hV : ∀ e', some e' ∈ (s.w.objects o).m_activeEvents →
            e' = e ∨ (s.w.events e').m_state = .Virtual
        · have hs' := hAll hFlag hV
          cases hProd : env.production with
          | false =>
            rw [hProd] at hs'
            simp only [Bool.false_eq_true, if_false] at hs'
            subst hs'
            refine ⟨?_, fun q hq => by simp [hq]⟩
            simp only [State.SetFlag_world, State.setEvent_world, Function.update_same,
              ObjectFlags.SetFlag, true_iff]
            exact Or.inr hV
          | true =>
            rw [hProd] at hs'
            simp only [if_true] at hs'
            subst hs'
            refine ⟨?_, fun q hq => ?_⟩
            · simp only [State.call_fields]
              rw [(hKeep _ _).2 o]
              simp only [State.SetFlag_world, State.setEvent_world, Function.update_same,
                ObjectFlags.SetFlag, true_iff]
              exact Or.inr hV
            · simp only [State.call_fields]
              rw [(hKeep _ _).2 q]
              simp [hq]
        · have hs' := hNot hFlag hV
          subst hs'
          refine ⟨?_, fun q _ => by simp⟩
          simp only [State.setEvent_world, hFlag]
          constructor
          · intro h
            cases h
          · intro h
            rcases h with h | h
            · cases h
            · exact absurd h hV
    refine ⟨s', hOk, hMain.1, fun hEmpty => hMain.1.mpr (Or.inr ?_), hMain.2⟩
    intro e' he'
    rw [hEmpty] at he'
    cases he'
  · refine ⟨(s.setEvent e (fun ev => { ev with m_state := .Playing })).RemoveFlag o .Virtual,
      by simp [ProcessAudioCallbackManagerRequest, hOwner], by simp [ObjectFlags.RemoveFlag],
      fun q hq => by simp [hq]⟩

/-- C14 (amended) at concrete inputs: event 5 of object 3, which has no active event. -/
theorem virtual_flag_changes_by_report_witness :
    ∃ s', ProcessAudioCallbackManagerRequest Example.env Example.request
        (.ReportVirtualizedEvent 5) Example.idle = .ok (.Success, Example.request, s')
      ∧ (s'.w.objects 3).m_flags.Virtual = true := by
  obtain ⟨-, -, ⟨s', hOk, -, hEmpty, -⟩, -⟩ := virtual_flag_changes_by_report Example.env
    Example.request Example.idle 5 3 rfl (by simp [Example.idle, Example.running, Example.world])
    (fun _ _ => ⟨rfl, fun _ => rfl⟩)
  exact ⟨s', hOk, hEmpty rfl⟩

/-- C21: in each of the four categories a request whose subtype is `None` returns
`Success` and leaves the whole state, the list of calls included, as it was: no
collaborator is called and no object, event, standalone file, listener or backend
changes.  `ProcessRequest` writes `Success` onto such a request. -/
theorem none_subtype_is_a_successful_no_op (env : Env) (request : CAudioRequest) (s : State) :
    ProcessAudioManagerRequest env request .None s = .ok (.Success, s)
    ∧ ProcessAudioCallbackManagerRequest env request .None s = .ok (.Success, request, s)
    ∧ ProcessAudioObjectRequest env request .None s = .ok (.Success, s)
    ∧ ProcessAudioListenerRequest env .None s = .ok (.Success, s)
    ∧ ProcessRequest env { request with data := some (.AudioManagerRequest .None) } s
        = .ok ({ request with data := some (.AudioManagerRequest .None),
                              status := .Success }, s)
    ∧ ProcessRequest env { request with data := some (.AudioCallbackManagerRequest .None) } s
        = .ok ({ request with data := some (.AudioCallbackManagerRequest .None),
                              status := .Success }, s)
    ∧ ProcessRequest env { request with data := some (.AudioObjectRequest .None) } s
        = .ok ({ request with data := some (.AudioObjectRequest .None),
                              status := .Success }, s)
    ∧ ProcessRequest env { request with data := some (.AudioListenerRequest .None) } s
        = .ok ({ request with data := some (.AudioListenerRequest .None),
                              status := .Success }, s) :=
  ⟨rfl, rfl, rfl, rfl, rfl, rfl, rfl, rfl⟩

/-- C24: `ConvertToRequestResult` returns `ERequestResult::Success` exactly when the status
is `ERequestStatus::Success`, and `ERequestResult::Failure` for every other status.  For
`Failure`, `FailureInvalidControlId`, `FailureInvalidRequest` and `PartialSuccess` nothing
else happens; every remaining value (`None`, `SuccessNeedsRefresh`, a value outside the
enumeration) takes the default branch, which logs an error and trips `CRY_ASSERT(false)`
before it returns `Failure`. -/
theorem ConvertToRequestResult_success_iff (status : ERequestStatus) (s : State) :
    ((ConvertToRequestResult status s).1 = .Success ↔ status = .Success)
    ∧ ((ConvertToRequestResult status s).1 = .Failure ↔ status ≠ .Success)
    ∧ ((status = .Success ∨ status = .Failure ∨ status = .FailureInvalidControlId
          ∨ status = .FailureInvalidRequest ∨ status = .PartialSuccess) →
        (ConvertToRequestResult status s).2 = s)
    ∧ ((status = .None ∨ status = .SuccessNeedsRefresh ∨ ∃ raw, status = .other raw) →
        (ConvertToRequestResult status s).2.trace
          = s.trace ++ [.Log .Error, .CryAssert .ConvertToRequestResult_default]
        ∧ (ConvertToRequestResult status s).1 = .Failure) := by
  refine ⟨?_, ?_, ?_, ?_⟩
  · cases status <;> simp [ConvertToRequestResult]
  · cases status <;> simp [ConvertToRequestResult]
  · intro h
    rcases h with h | h | h | h | h <;> subst h <;> rfl
  · intro h
    rcases h with h | h | ⟨raw, h⟩ <;> subst h <;>
      simp [ConvertToRequestResult, State.cryAssert, State.record]

/-- C25: for a request of one of the four categories `NotifyListener` hands one
notification to the event-listener manager.  Its system event, control id, standalone
file and event are those of the table (`tableSystemEvent`, `tableControlId`,
`tableStandaloneFile`, `tableAudioEvent`); its owner, user data, user-data owner and
object are the request's; its result is the coarse result of the request's status. -/
theorem NotifyListener_follows_table (env : Env) (request : CAudioRequest) (s : State)
    (data : SAudioRequestData) (hData : request.data = some data)
    (hKnown : data.known = true) :
    ∃ info, NotifyListener env request s
        = .ok ((ConvertToRequestResult request.status s).2.call env
            (.EventListenerManager (.NotifyListener info)))
      ∧ info.systemEvent = tableSystemEvent data
      ∧ info.audioControlId = tableControlId env data
      ∧ info.pStandaloneFile = tableStandaloneFile data
      ∧ info.pAudioEvent = tableAudioEvent data
      ∧ info.pOwner = request.pOwner
      ∧ info.pUserData = request.pUserData
      ∧ info.pUserDataOwner = request.pUserDataOwner
      ∧ info.pAudioObject = request.pObject
      ∧ info.requestResult = (ConvertToRequestResult request.status s).1 := by
  refine ⟨{ requestResult := (ConvertToRequestResult request.status s).1
            pOwner := request.pOwner
            pUserData := request.pUserData
            pUserDataOwner := request.pUserDataOwner
            systemEvent := tableSystemEvent data
            audioControlId := tableControlId env data
            pAudioObject := request.pObject
            pStandaloneFile := tableStandaloneFile data
            pAudioEvent := tableAudioEvent data }, ?_, rfl, rfl, rfl, rfl, rfl, rfl, rfl, rfl, rfl⟩
  cases data with
  | AudioObjectRequest d =>
    cases d <;> simp only [NotifyListener, hData, NotifyListener.select] <;> rfl
  | AudioListenerRequest d =>
    simp only [NotifyListener, hData, NotifyListener.select]
    rfl
  | AudioCallbackManagerRequest d =>
    cases d <;> simp only [NotifyListener, hData, NotifyListener.select] <;> rfl
  | AudioManagerRequest d =>
    cases d <;> simp only [NotifyListener, hData, NotifyListener.select] <;> rfl
  | unknown type => simp [SAudioRequestData.known] at hKnown

/-- C25 at concrete inputs: an `ExecuteTrigger` request for trigger 4 with status
`Success`. -/
theorem NotifyListener_follows_table_witness :
    ∃ info, NotifyListener Example.env
        { Example.request with data := some (.AudioObjectRequest (.ExecuteTrigger 4)),
                               status := .Success } Example.running
        = .ok (Example.running.call Example.env (.EventListenerManager (.NotifyListener info)))
      ∧ info.systemEvent = .TriggerExecuted
      ∧ info.audioControlId = 4
      ∧ info.pStandaloneFile = none
      ∧ info.pAudioEvent = none
      ∧ info.requestResult = .Success := by
  obtain ⟨info, h, h1, h2, h3, h4, -, -, -, -, h9⟩ := NotifyListener_follows_table Example.env
    { Example.request with data := some (.AudioObjectRequest (.ExecuteTrigger 4)),
                           status := .Success } Example.running
    (.AudioObjectRequest (.ExecuteTrigger 4)) rfl rfl
  exact ⟨info, h, h1, h2, h3, h4, h9⟩

/-! ## Pool sizes -/

/-- The cast `static_cast<uint32>` of a positive 32-bit `int` keeps its value. -/
theorem cast_uint32_of_pos (v : Int) (h1 : 1 ≤ v) (h2 : v < 2 ^ 31) :
    (((v % 2 ^ 32).toNat : Nat) : Int) = v ∧ 1 ≤ (v % 2 ^ 32).toNat := by
  omega

/-- C26: `Initialize`, with the physical world present (it is dereferenced) and the object
and event sizes in the range of a 32-bit `int`, returns, and afterwards each of the three
configured pool sizes is `max 1` of its value before: a value below 1 becomes 1 and a
value of at least 1 is unchanged.  `m_objectPoolSize` and `m_eventPoolSize` equal the
clamped object and event sizes and are at least 1. -/
theorem Initialize_clamps_pool_sizes (env : Env) (s : State)
    (hWorld : env.pPhysicalWorld = true)
    (hObject : s.m_audioObjectPoolSize < 2 ^ 31)
    (hEvent : s.m_audioEventPoolSize < 2 ^ 31) :
    ∃ s', Initialize env s = .ok s'
      ∧ s'.m_audioObjectPoolSize = max 1 s.m_audioObjectPoolSize
      ∧ s'.m_audioEventPoolSize = max 1 s.m_audioEventPoolSize
      ∧ s'.m_audioStandaloneFilePoolSize = max 1 s.m_audioStandaloneFilePoolSize
      ∧ (s'.m_objectPoolSize : Int) = max 1 s.m_audioObjectPoolSize
      ∧ (s'.m_eventPoolSize : Int) = max 1 s.m_audioEventPoolSize
      ∧ 1 ≤ s'.m_objectPoolSize
      ∧ 1 ≤ s'.m_eventPoolSize := by
  have hO := cast_uint32_of_pos (max 1 s.m_audioObjectPoolSize) (le_max_left _ _)
    (max_lt (by norm_num) hObject)
  have hE := cast_uint32_of_pos (max 1 s.m_audioEventPoolSize) (le_max_left _ _)
    (max_lt (by norm_num) hEvent)
  by_cases h1 : s.m_audioObjectPoolSize < 1 <;>
    by_cases h2 : s.m_audioEventPoolSize < 1 <;>
    by_cases h3 : s.m_audioStandaloneFilePoolSize < 1 <;>
    simp [Initialize, hWorld, h1, h2, h3, State.call, State.record] <;>
    omega

/-- C26 at concrete inputs: pool sizes 0, -5 and 7 become 1, 1 and 7. -/
theorem Initialize_clamps_pool_sizes_witness :
    ∃ s', Initialize Example.env Example.unconfigured = .ok s'
      ∧ s'.m_audioObjectPoolSize = 1
      ∧ s'.m_audioEventPoolSize = 1
      ∧ s'.m_audioStandaloneFilePoolSize = 7
      ∧ s'.m_objectPoolSize = 1
      ∧ s'.m_eventPoolSize = 1 := by
  obtain ⟨s', h, h1, h2, h3, h4, h5, -, -⟩ := Initialize_clamps_pool_sizes Example.env
    Example.unconfigured rfl (by decide) (by decide)
  refine ⟨s', h, h1, h2, h3, ?_, ?_⟩
  · have : (s'.m_objectPoolSize : Int) = 1 := h4
    exact_mod_cast this
  · have : (s'.m_eventPoolSize : Int) = 1 := h5
    exact_mod_cast this

/-! ## Environments of an object -/

/-- The loop of `SetCurrentEnvironmentsOnObject` over indices inside the buffer returns;
it makes the expected call of each index, in order, and changes nothing but the world and
the list of calls. -/
theorem SetCurrentEnvironmentsOnObject.loop_ok (env : Env) (pObject : ObjPtr)
    (entityToIgnore : EntityId) (s_areaInfos : Nat → SAudioAreaInfo)
    (hKeep : env.keepsEnvironments) :
    ∀ (indices : List Nat) (s : State), (∀ i ∈ indices, i < s_maxAreas) →
      ∃ s', SetCurrentEnvironmentsOnObject.loop env pObject entityToIgnore s_areaInfos indices s
          = .ok s'
        ∧ s'.trace = s.trace ++ indices.filterMap
            (expectedEnvironmentCall env pObject entityToIgnore s.w.g_environments s_areaInfos)
        ∧ s'.w.g_environments = s.w.g_environments
        ∧ s'.g_pIImpl = s.g_pIImpl
        ∧ s'.g_pObject = s.g_pObject
        ∧ s'.objectsAllocated = s.objectsAllocated := by
  intro indices
  induction indices with
  | nil =>
    intro s _
    exact ⟨s, rfl, by simp, rfl, rfl, rfl, rfl⟩
  | cons i rest ih =>
    intro s hBound
    have hi : i < s_maxAreas := hBound i (List.mem_cons_self _ _)
    have hRest : ∀ j ∈ rest, j < s_maxAreas := fun j hj => hBound j (List.mem_cons_of_mem _ hj)
    by_cases hIgnore : entityToIgnore = env.INVALID_ENTITYID
        ∨ entityToIgnore ≠ (s_areaInfos i).envProvidingEntityId
    · cases hFind : find_in_map s.w.g_environments (s_areaInfos i).audioEnvironmentId with
      | none =>
        obtain ⟨s', hOk, hTrace, hTable, h1, h2, h3⟩ := ih s hRest
        refine ⟨s', ?_, ?_, hTable, h1, h2, h3⟩
        · simp only [SetCurrentEnvironmentsOnObject.loop, hi, if_true, hIgnore, hFind]
          exact hOk
        · rw [hTrace]
          simp [List.filterMap_cons, expectedEnvironmentCall, hIgnore, hFind]
      | some pEnvironment =>
        have hTable0 : (s.call env (.Object (some pObject)
            (.HandleSetEnvironment pEnvironment (s_areaInfos i).amount))).w.g_environments
            = s.w.g_environments := hKeep _ _ _ rfl
        obtain ⟨s', hOk, hTrace, hTable, h1, h2, h3⟩ := ih (s.call env (.Object (some pObject)
          (.HandleSetEnvironment pEnvironment (s_areaInfos i).amount))) hRest
        refine ⟨s', ?_, ?_, hTable.trans hTable0, h1, h2, h3⟩
        · simp only [SetCurrentEnvironmentsOnObject.loop, hi, if_true, hIgnore, hFind]
          exact hOk
        · rw [hTrace, hTable0]
          simp [List.filterMap_cons, expectedEnvironmentCall, hIgnore, hFind]
    · obtain ⟨s', hOk, hTrace, hTable, h1, h2, h3⟩ := ih s hRest
      refine ⟨s', ?_, ?_, hTable, h1, h2, h3⟩
      · simp only [SetCurrentEnvironmentsOnObject.loop, hi, if_true, hIgnore, if_false]
        exact hOk
      · rw [hTrace]
        simp [List.filterMap_cons, expectedEnvironmentCall, hIgnore]

/-- `SetCurrentEnvironmentsOnObject` on a non-null object returns when the area query fails
or reports at most `s_maxAreas` entries; the calls it makes are the query and then the
expected calls. -/
theorem SetCurrentEnvironmentsOnObject_ok (env : Env) (pObject : ObjPtr)
    (entityToIgnore : EntityId) (s : State) (hKeep : env.keepsEnvironments)
    (hAreas : ∀ s_areaInfos numAreas, env.queryAudioAreas (s.trace ++
        [.AreaManager_QueryAudioAreas (s.w.objects pObject).m_transformation])
          = some (s_areaInfos, numAreas) → numAreas ≤ s_maxAreas) :
    ∃ s' calls, SetCurrentEnvironmentsOnObject env (some pObject) entityToIgnore s = .ok s'
      ∧ s'.trace = s.trace
          ++ [.AreaManager_QueryAudioAreas (s.w.objects pObject).m_transformation] ++ calls
      ∧ (env.queryAudioAreas (s.trace ++
          [.AreaManager_QueryAudioAreas (s.w.objects pObject).m_transformation]) = none →
            calls = []
            ∧ s' = s.call env
                (.AreaManager_QueryAudioAreas (s.w.objects pObject).m_transformation))
      ∧ (∀ s_areaInfos numAreas, env.queryAudioAreas (s.trace ++
          [.AreaManager_QueryAudioAreas (s.w.objects pObject).m_transformation])
            = some (s_areaInfos, numAreas) →
          calls = expectedEnvironmentCalls env pObject entityToIgnore s.w.g_environments
            s_areaInfos numAreas)
      ∧ s'.g_pIImpl = s.g_pIImpl
      ∧ s'.g_pObject = s.g_pObject
      ∧ s'.objectsAllocated = s.objectsAllocated := by
  cases hQuery : env.queryAudioAreas (s.trace ++
      [.AreaManager_QueryAudioAreas (s.w.objects pObject).m_transformation]) with
  | none =>
    refine ⟨s.call env (.AreaManager_QueryAudioAreas (s.w.objects pObject).m_transformation),
      [], ?_, by simp, fun _ => ⟨rfl, rfl⟩, fun _ _ h => (by cases h), rfl, rfl, rfl⟩
    simp [SetCurrentEnvironmentsOnObject, hQuery]
  | some x =>
    obtain ⟨s_areaInfos, numAreas⟩ := x
    have hBound : ∀ i ∈ List.range numAreas, i < s_maxAreas := fun i hi =>
      lt_of_lt_of_le (List.mem_range.mp hi) (hAreas s_areaInfos numAreas hQuery)
    obtain ⟨s', hOk, hTrace, -, h1, h2, h3⟩ := SetCurrentEnvironmentsOnObject.loop_ok env pObject
      entityToIgnore s_areaInfos hKeep (List.range numAreas)
      (s.call env (.AreaManager_QueryAudioAreas (s.w.objects pObject).m_transformation)) hBound
    have hTable : (s.call env (.AreaManager_QueryAudioAreas
        (s.w.objects pObject).m_transformation)).w.g_environments = s.w.g_environments :=
      hKeep _ _ _ rfl
    refine ⟨s', expectedEnvironmentCalls env pObject entityToIgnore s.w.g_environments
      s_areaInfos numAreas, ?_, ?_, fun h => (by cases h), ?_, h1, h2, h3⟩
    · simp only [SetCurrentEnvironmentsOnObject, State.call_fields, hQuery]
      exact hOk
    · rw [hTrace, hTable]
      simp [expectedEnvironmentCalls]
    · intro a n h
      cases h
      rfl

/-- C29: `SetCurrentEnvironmentsOnObject` on object `pObject`, with an area query and a
`HandleSetEnvironment` that leave the environment table alone.  When the query succeeds
with `numAreas` entries, `numAreas` at most `s_maxAreas` (10), the function returns and
the calls it makes after the query are exactly, in index order, `HandleSetEnvironment` on
`pObject` for the entries `i < numAreas` whose providing entity is not `entityToIgnore`
(or `entityToIgnore` is `INVALID_ENTITYID`) and whose environment id is in the table,
each with the entry's environment and amount.  When the query fails the query is the
only call. -/
theorem SetCurrentEnvironmentsOnObject_applies_matching_entries (env : Env) (pObject : ObjPtr)
    (entityToIgnore : EntityId) (s : State) (hKeep : env.keepsEnvironments) :
    (∀ s_areaInfos numAreas,
      env.queryAudioAreas (s.trace ++
        [.AreaManager_QueryAudioAreas (s.w.objects pObject).m_transformation])
          = some (s_areaInfos, numAreas) →
      numAreas ≤ s_maxAreas →
      ∃ s', SetCurrentEnvironmentsOnObject env (some pObject) entityToIgnore s = .ok s'
        ∧ s'.trace = s.trace
            ++ [.AreaManager_QueryAudioAreas (s.w.objects pObject).m_transformation]
            ++ expectedEnvironmentCalls env pObject entityToIgnore s.w.g_environments
                s_areaInfos numAreas)
    ∧ (env.queryAudioAreas (s.trace ++
        [.AreaManager_QueryAudioAreas (s.w.objects pObject).m_transformation]) = none →
      SetCurrentEnvironmentsOnObject env (some pObject) entityToIgnore s
        = .ok (s.call env
            (.AreaManager_QueryAudioAreas (s.w.objects pObject).m_transformation))) := by
  constructor
  · intro s_areaInfos numAreas hQuery hBound
    obtain ⟨s', calls, hOk, hTrace, -, hCalls, -⟩ := SetCurrentEnvironmentsOnObject_ok env
      pObject entityToIgnore s hKeep (fun a n h => by
        rw [hQuery] at h
        cases h
        exact hBound)
    exact ⟨s', hOk, by rw [hTrace, hCalls s_areaInfos numAreas hQuery]⟩
  · intro hQuery
    simp [SetCurrentEnvironmentsOnObject, hQuery]

/-- C29 at concrete inputs: three areas are reported for object 3 and entity 9 is to be
ignored.  Entry 0 is applied; entry 1 is provided by entity 9 and entry 2 names an
environment that is not in the table, so both are skipped. -/
theorem SetCurrentEnvironmentsOnObject_applies_matching_entries_witness :
    ∃ s', SetCurrentEnvironmentsOnObject Example.areas (some 3) 9 Example.withEnvironments
        = .ok s'
      ∧ s'.trace = [.AreaManager_QueryAudioAreas 0,
          .Object (some 3) (.HandleSetEnvironment 50 0)] := by
  obtain ⟨s', hOk, hTrace⟩ := (SetCurrentEnvironmentsOnObject_applies_matching_entries
    Example.areas 3 9 Example.withEnvironments (fun _ _ _ _ => rfl)).1 _ 3 rfl (by decide)
  exact ⟨s', hOk, hTrace.trans (by decide)⟩

/-! ## Cases that leave `result` at its initial value -/

/-- C22, what the code does: four cases carry out their action and return `Failure`,
the value `result` is initialised with, because they never assign `result`.
`RegisterListener` calls `CreateListener` and stores the listener in the caller's slot;
`GetAudioFileData` and `GetImplInfo` call the backend; `SetCurrentEnvironments` runs
`SetCurrentEnvironmentsOnObject` on the target object.  None of them consults a status
of a collaborator. -/
theorem cases_without_result_assignment_return_failure (env : Env) (request : CAudioRequest)
    (s : State) (impl : ImplPtr) (p : ObjPtr)
    (hImpl : s.g_pIImpl = some impl)
    (hTarget : targetObject request s = some p)
    (hKeep : env.keepsEnvironments)
    (hAreas : ∀ s_areaInfos numAreas, env.queryAudioAreas (s.trace ++
        [.AreaManager_QueryAudioAreas (s.w.objects p).m_transformation])
          = some (s_areaInfos, numAreas) → numAreas ≤ s_maxAreas) :
    (∀ slot name, ∃ s',
        ProcessAudioListenerRequest env (.RegisterListener (some slot) name) s
          = .ok (.Failure, s')
        ∧ s'.trace = s.trace ++ [.ListenerManager (.CreateListener name)]
        ∧ s'.w.listenerSlots slot
            = env.createListener (s.trace ++ [.ListenerManager (.CreateListener name)]))
    ∧ (∀ entityToIgnore, ∃ s',
        SetCurrentEnvironmentsOnObject env (some p) entityToIgnore s = .ok s'
        ∧ ProcessAudioObjectRequest env request (.SetCurrentEnvironments entityToIgnore) s
          = .ok (.Failure, s'))
    ∧ (∀ name fileData,
        ProcessAudioManagerRequest env request (.GetAudioFileData name fileData) s
          = .ok (.Failure, s.call env (.Impl impl (.GetFileData name fileData))))
    ∧ (∀ implInfo,
        ProcessAudioManagerRequest env request (.GetImplInfo implInfo) s
          = .ok (.Failure, s.call env (.Impl impl .GetInfo))) := by
  refine ⟨fun slot name => ⟨_, rfl, by simp, by simp⟩, fun entityToIgnore => ?_,
    fun name fileData => by simp [ProcessAudioManagerRequest, hImpl],
    fun implInfo => by simp [ProcessAudioManagerRequest, hImpl]⟩
  obtain ⟨s', -, hOk, -⟩ := SetCurrentEnvironmentsOnObject_ok env p entityToIgnore s hKeep hAreas
  exact ⟨s', hOk, by simp [ProcessAudioObjectRequest, hTarget, hOk]⟩

/-- C22 at concrete inputs: a `RegisterListener` request for slot 2 creates a listener,
stores it in the slot and returns `Failure`. -/
theorem cases_without_result_assignment_return_failure_witness :
    ∃ s', ProcessAudioListenerRequest Example.env (.RegisterListener (some 2) "listener")
        Example.running = .ok (.Failure, s')
      ∧ s'.trace = [.ListenerManager (.CreateListener "listener")]
      ∧ s'.w.listenerSlots 2 = some 1 := by
  obtain ⟨s', h, hTrace, hSlot⟩ := (cases_without_result_assignment_return_failure Example.env
    Example.request Example.running (.user 7) 0 rfl rfl (fun _ _ _ _ => rfl)
    (fun _ _ h => by cases h)).1 2 "listener"
  exact ⟨s', h, hTrace, hSlot⟩

/-! ## Refreshing the audio system -/

/-- C23, as stated, fails: with a backend whose `StopAllSounds` returns `Failure` and a
file cache whose `UnloadDataByScope` returns `Failure`, `RefreshAudioSystem` returns
`Success`, and so does the `RefreshAudioSystem` manager request; the three failures trip
the three assertions and the refresh goes on. -/
theorem RefreshAudioSystem_swallows_failure_counterexample :
    implStatus Example.failing (.user 7) [.Log .Warning, .Impl (.user 7) .StopAllSounds]
      = .Failure
    ∧ ∃ s', RefreshAudioSystem Example.failing none Example.running = .ok (.Success, s')
      ∧ ProcessAudioManagerRequest Example.failing Example.request (.RefreshAudioSystem none)
          Example.running = .ok (.Success, s')
      ∧ s'.trace = [.Log .Warning, .Impl (.user 7) .StopAllSounds,
          .CryAssert .RefreshAudioSystem_StopAllSounds,
          .FileCacheManager (.UnloadDataByScope .LevelSpecific),
          .CryAssert .RefreshAudioSystem_UnloadLevelSpecific,
          .FileCacheManager (.UnloadDataByScope .Global),
          .CryAssert .RefreshAudioSystem_UnloadGlobal,
          .XmlProcessor (.ClearPreloadsData .All), .XmlProcessor (.ClearControlsData .All),
          .Impl (.user 7) .OnRefresh,
          .XmlProcessor (.ParseControlsData "" .Global),
          .XmlProcessor (.ParsePreloadsData "" .Global),
          .FileCacheManager (.TryLoadRequest 0 true true),
          .Log .Warning] :=
  ⟨rfl, _, rfl, rfl, rfl⟩

@[simp]
theorem State.call_configPath (s : State) (env : Env) (c : Call) :
    (s.call env c).m_configPath = s.m_configPath :=
  rfl

@[simp]
theorem State.record_configPath (s : State) (c : Call) :
    (s.record c).m_configPath = s.m_configPath :=
  rfl

@[simp]
theorem State.cryAssert_configPath (s : State) (cond : Bool) (which : Assertion) :
    (s.cryAssert cond which).m_configPath = s.m_configPath := by
  cases cond <;> rfl

/-- C23 (amended): with a backend active, `RefreshAudioSystem` returns `Success` whatever
`StopAllSounds` and the two `UnloadDataByScope` calls return, and so does the
`RefreshAudioSystem` manager request.  Each of the three statuses `r1`, `r2`, `r3` is
checked by a `CRY_ASSERT` only: a status other than `Success` adds the assertion to the
calls, and the refresh continues with the next step. -/
theorem RefreshAudioSystem_returns_success (env : Env) (request : CAudioRequest)
    (levelName : Option String) (s : State) (impl : ImplPtr)
    (hImpl : s.g_pIImpl = some impl) :
    ∃ s' r1 r2 r3,
      RefreshAudioSystem env levelName s = .ok (.Success, s')
      ∧ ProcessAudioManagerRequest env request (.RefreshAudioSystem levelName) s
          = .ok (.Success, s')
      ∧ r1 = implStatus env impl (s.trace ++ [.Log .Warning, .Impl impl .StopAllSounds])
      ∧ r2 = env.status (s.trace ++ [.Log .Warning, .Impl impl .StopAllSounds]
          ++ assertion (r1 == .Success) .RefreshAudioSystem_StopAllSounds
          ++ [.FileCacheManager (.UnloadDataByScope .LevelSpecific)])
      ∧ r3 = env.status (s.trace ++ [.Log .Warning, .Impl impl .StopAllSounds]
          ++ assertion (r1 == .Success) .RefreshAudioSystem_StopAllSounds
          ++ [.FileCacheManager (.UnloadDataByScope .LevelSpecific)]
          ++ assertion (r2 == .Success) .RefreshAudioSystem_UnloadLevelSpecific
          ++ [.FileCacheManager (.UnloadDataByScope .Global)])
      ∧ (s.trace ++ [.Log .Warning, .Impl impl .StopAllSounds]
          ++ assertion (r1 == .Success) .RefreshAudioSystem_StopAllSounds
          ++ [.FileCacheManager (.UnloadDataByScope .LevelSpecific)]
          ++ assertion (r2 == .Success) .RefreshAudioSystem_UnloadLevelSpecific
          ++ [.FileCacheManager (.UnloadDataByScope .Global)]
          ++ assertion (r3 == .Success) .RefreshAudioSystem_UnloadGlobal
          ++ [.XmlProcessor (.ClearPreloadsData .All), .XmlProcessor (.ClearControlsData .All),
              .Impl impl .OnRefresh,
              .XmlProcessor (.ParseControlsData s.m_configPath .Global),
              .XmlProcessor (.ParsePreloadsData s.m_configPath .Global),
              .FileCacheManager (.TryLoadRequest env.GlobalPreloadRequestId true true)])
          <+: s'.trace := by
  have hRequest : ProcessAudioManagerRequest env request (.RefreshAudioSystem levelName) s
      = RefreshAudioSystem env levelName s := rfl
  rw [hRequest]
  simp only [RefreshAudioSystem, State.record_fields, hImpl]
  refine ⟨_, _, _, _, rfl, rfl, rfl, rfl, rfl, ?_⟩
  cases levelName with
  | none => simp [assertion]
  | some name =>
    by_cases hName : name = ""
    · simp [assertion, hName]
    · simp only [ne_eq, hName, not_false_eq_true, if_true]
      split <;> simp [assertion]

/-- C23 (amended) at concrete inputs: every status is `Failure` and a level is named. -/
theorem RefreshAudioSystem_returns_success_witness :
    ∃ s', RefreshAudioSystem Example.failing (some "level") Example.running = .ok (.Success, s')
      ∧ ProcessAudioManagerRequest Example.failing Example.request
          (.RefreshAudioSystem (some "level")) Example.running = .ok (.Success, s') := by
  obtain ⟨s', -, -, -, h1, h2, -⟩ := RefreshAudioSystem_returns_success Example.failing
    Example.request (some "level") Example.running (.user 7) rfl
  exact ⟨s', h1, h2⟩

/-! ## One-shot objects -/

/-- The calls of `SetOcclusionType` on object `p` are calls on `p` or the warning of the
default case. -/
theorem SetOcclusionType_calls (env : Env) (p : ObjPtr) (occlusionType : EOcclusionType)
    (s : State) :
    ∃ calls, (SetOcclusionType env (some p) occlusionType s).trace = s.trace ++ calls
      ∧ (∀ c ∈ calls, c.isSetupOf p = true)
      ∧ (SetOcclusionType env (some p) occlusionType s).g_pIImpl = s.g_pIImpl
      ∧ (SetOcclusionType env (some p) occlusionType s).g_pObject = s.g_pObject
      ∧ (SetOcclusionType env (some p) occlusionType s).objectsAllocated = s.objectsAllocated := by
  cases occlusionType with
  | Ignore =>
    exact ⟨[.Object (some p) (.HandleSetOcclusionType .Ignore),
      .Object (some p) .SetObstructionOcclusion], by simp [SetOcclusionType],
      by simp [Call.isSetupOf], rfl, rfl, rfl⟩
  | Adaptive =>
    exact ⟨[.Object (some p) (.HandleSetOcclusionType .Adaptive)], by simp [SetOcclusionType],
      by simp [Call.isSetupOf], rfl, rfl, rfl⟩
  | Low =>
    exact ⟨[.Object (some p) (.HandleSetOcclusionType .Low)], by simp [SetOcclusionType],
      by simp [Call.isSetupOf], rfl, rfl, rfl⟩
  | Medium =>
    exact ⟨[.Object (some p) (.HandleSetOcclusionType .Medium)], by simp [SetOcclusionType],
      by simp [Call.isSetupOf], rfl, rfl, rfl⟩
  | High =>
    exact ⟨[.Object (some p) (.HandleSetOcclusionType .High)], by simp [SetOcclusionType],
      by simp [Call.isSetupOf], rfl, rfl, rfl⟩
  | other raw =>
    exact ⟨[.Log .Warning], by simp [SetOcclusionType], by simp [Call.isSetupOf], rfl, rfl, rfl⟩

/-- The loop of `SetCurrentEnvironmentsOnObject` over indices inside the buffer returns,
whatever the collaborators do; all its calls are calls on the object. -/
theorem SetCurrentEnvironmentsOnObject.loop_calls (env : Env) (pObject : ObjPtr)
    (entityToIgnore : EntityId) (s_areaInfos : Nat → SAudioAreaInfo) :
    ∀ (indices : List Nat) (s : State), (∀ i ∈ indices, i < s_maxAreas) →
      ∃ s' calls,
        SetCurrentEnvironmentsOnObject.loop env pObject entityToIgnore s_areaInfos indices s
          = .ok s'
        ∧ s'.trace = s.trace ++ calls
        ∧ (∀ c ∈ calls, c.isSetupOf pObject = true)
        ∧ s'.g_pIImpl = s.g_pIImpl
        ∧ s'.g_pObject = s.g_pObject
        ∧ s'.objectsAllocated = s.objectsAllocated := by
  intro indices
  induction indices with
  | nil =>
    intro s _
    exact ⟨s, [], rfl, by simp, by simp, rfl, rfl, rfl⟩
  | cons i rest ih =>
    intro s hBound
    have hi : i < s_maxAreas := hBound i (List.mem_cons_self _ _)
    have hRest : ∀ j ∈ rest, j < s_maxAreas := fun j hj => hBound j (List.mem_cons_of_mem _ hj)
    by_cases hIgnore : entityToIgnore = env.INVALID_ENTITYID
        ∨ entityToIgnore ≠ (s_areaInfos i).envProvidingEntityId
    · cases hFind : find_in_map s.w.g_environments (s_areaInfos i).audioEnvironmentId with
      | none =>
        obtain ⟨s', calls, hOk, hTrace, hCalls, h1, h2, h3⟩ := ih s hRest
        refine ⟨s', calls, ?_, hTrace, hCalls, h1, h2, h3⟩
        simp only [SetCurrentEnvironmentsOnObject.loop, hi, if_true, hIgnore, hFind]
        exact hOk
      | some pEnvironment =>
        obtain ⟨s', calls, hOk, hTrace, hCalls, h1, h2, h3⟩ := ih (s.call env
          (.Object (some pObject) (.HandleSetEnvironment pEnvironment (s_areaInfos i).amount)))
          hRest
        refine ⟨s', .Object (some pObject)
          (.HandleSetEnvironment pEnvironment (s_areaInfos i).amount) :: calls, ?_, ?_, ?_,
          h1, h2, h3⟩
        · simp only [SetCurrentEnvironmentsOnObject.loop, hi, if_true, hIgnore, hFind]
          exact hOk
        · rw [hTrace]
          simp
        · intro c hc
          rcases List.mem_cons.mp hc with hc | hc
          · subst hc
            simp [Call.isSetupOf]
          · exact hCalls c hc
    · obtain ⟨s', calls, hOk, hTrace, hCalls, h1, h2, h3⟩ := ih s hRest
      refine ⟨s', calls, ?_, hTrace, hCalls, h1, h2, h3⟩
      simp only [SetCurrentEnvironmentsOnObject.loop, hi, if_true, hIgnore, if_false]
      exact hOk

/-- `SetCurrentEnvironmentsOnObject` on a non-null object returns when the area query
respects the buffer; all its calls are the query and calls on the object. -/
theorem SetCurrentEnvironmentsOnObject_calls (env : Env) (pObject : ObjPtr)
    (entityToIgnore : EntityId) (s : State) (hAreas : env.areasFitBuffer) :
    ∃ s' calls, SetCurrentEnvironmentsOnObject env (some pObject) entityToIgnore s = .ok s'
      ∧ s'.trace = s.trace ++ calls
      ∧ (∀ c ∈ calls, c.isSetupOf pObject = true)
      ∧ s'.g_pIImpl = s.g_pIImpl
      ∧ s'.g_pObject = s.g_pObject
      ∧ s'.objectsAllocated = s.objectsAllocated := by
  cases hQuery : env.queryAudioAreas (s.trace ++
      [.AreaManager_QueryAudioAreas (s.w.objects pObject).m_transformation]) with
  | none =>
    refine ⟨s.call env (.AreaManager_QueryAudioAreas (s.w.objects pObject).m_transformation),
      [.AreaManager_QueryAudioAreas (s.w.objects pObject).m_transformation], ?_, by simp,
      by simp [Call.isSetupOf], rfl, rfl, rfl⟩
    simp [SetCurrentEnvironmentsOnObject, hQuery]
  | some x =>
    obtain ⟨s_areaInfos, numAreas⟩ := x
    have hBound : ∀ i ∈ List.range numAreas, i < s_maxAreas := fun i hi =>
      lt_of_lt_of_le (List.mem_range.mp hi) (hAreas _ s_areaInfos numAreas hQuery)
    obtain ⟨s', calls, hOk, hTrace, hCalls, h1, h2, h3⟩ :=
      SetCurrentEnvironmentsOnObject.loop_calls env pObject entityToIgnore s_areaInfos
        (List.range numAreas)
        (s.call env (.AreaManager_QueryAudioAreas (s.w.objects pObject).m_transformation))
        hBound
    refine ⟨s', .AreaManager_QueryAudioAreas (s.w.objects pObject).m_transformation :: calls,
      ?_, ?_, ?_, h1, h2, h3⟩
    · simp only [SetCurrentEnvironmentsOnObject, State.call_fields, hQuery]
      exact hOk
    · rw [hTrace]
      simp
    · intro c hc
      rcases List.mem_cons.mp hc with hc | hc
      · subst hc
        simp [Call.isSetupOf]
      · exact hCalls c hc

/-- The lines shared by `ExecuteTriggerEx` and `RegisterObject`, on a non-null object with
a backend active: they return; the calls are `ConstructObject`, `Init` with the handle
`ConstructObject` gave, `HandleSetTransformation`, and then calls that set the object
up. -/
theorem initObject_ok (env : Env) (p : ObjPtr) (name : String) (entityId : EntityId)
    (transformation : Payload) (setCurrentEnvironments : Bool) (occlusionType : EOcclusionType)
    (s : State) (impl : ImplPtr) (hImpl : s.g_pIImpl = some impl)
    (hAreas : env.areasFitBuffer) :
    ∃ s' setup, initObject env (some p) name entityId transformation setCurrentEnvironments
        occlusionType s = .ok s'
      ∧ s'.trace = s.trace
          ++ [.Impl impl (.ConstructObject (if env.production then some name else none)),
              .Object (some p) (.Init (if env.production then some name else none)
                (implConstruct env impl (s.trace ++
                  [.Impl impl (.ConstructObject (if env.production then some name else none))]))
                entityId),
              .Object (some p) (.HandleSetTransformation transformation 0)]
          ++ setup
      ∧ (∀ c ∈ setup, c.isSetupOf p = true)
      ∧ s'.g_pIImpl = s.g_pIImpl
      ∧ s'.g_pObject = s.g_pObject
      ∧ s'.objectsAllocated = s.objectsAllocated := by
  cases setCurrentEnvironments with
  | false =>
    obtain ⟨calls, hTrace, hCalls, h1, h2, h3⟩ := SetOcclusionType_calls env p occlusionType
      (((s.call env (.Impl impl (.ConstructObject (if env.production then some name else none)))).call
        env (.Object (some p) (.Init (if env.production then some name else none)
          (implConstruct env impl (s.trace ++
            [.Impl impl (.ConstructObject (if env.production then some name else none))]))
          entityId))).call env (.Object (some p) (.HandleSetTransformation transformation 0)))
    refine ⟨SetOcclusionType env (some p) occlusionType
      (((s.call env (.Impl impl (.ConstructObject (if env.production then some name else none)))).call
        env (.Object (some p) (.Init (if env.production then some name else none)
          (implConstruct env impl (s.trace ++
            [.Impl impl (.ConstructObject (if env.production then some name else none))]))
          entityId))).call env (.Object (some p) (.HandleSetTransformation transformation 0))),
      calls, ?_, ?_, hCalls, ?_, ?_, ?_⟩
    · simp only [initObject, hImpl, State.call_fields]
      rfl
    · rw [hTrace]
      simp
    · rw [h1]
      rfl
    · rw [h2]
      rfl
    · rw [h3]
      rfl
  | true =>
    obtain ⟨s1, calls1, hOk1, hTrace1, hCalls1, g1, g2, g3⟩ :=
      SetCurrentEnvironmentsOnObject_calls env p env.INVALID_ENTITYID
        (((s.call env (.Impl impl (.ConstructObject (if env.production then some name else none)))).call
          env (.Object (some p) (.Init (if env.production then some name else none)
            (implConstruct env impl (s.trace ++
              [.Impl impl (.ConstructObject (if env.production then some name else none))]))
            entityId))).call env (.Object (some p) (.HandleSetTransformation transformation 0)))
        hAreas
    obtain ⟨calls, hTrace, hCalls, h1, h2, h3⟩ := SetOcclusionType_calls env p occlusionType s1
    refine ⟨SetOcclusionType env (some p) occlusionType s1, calls1 ++ calls, ?_, ?_, ?_, ?_, ?_,
      ?_⟩
    · simp only [initObject, hImpl, State.call_fields, if_true]
      rw [hOk1]
    · rw [hTrace, hTrace1]
      simp
    · intro c hc
      rcases List.mem_append.mp hc with hc | hc
      · exact hCalls1 c hc
      · exact hCalls c hc
    · rw [h1, g1]
      rfl
    · rw [h2, g2]
      rfl
    · rw [h3, g3]
      rfl

/-- C27: an `ExecuteTriggerEx` request whose trigger id is in the trigger table, with a
backend active, an area query that respects its buffer, and an allocator that hands out
an address other than the request's object and the Global Object.  The handler returns
`Success`.  Its calls are, in order: one `new CATLAudioObject`, `RegisterObject` of the
new object, `ConstructObject` on the active backend, `Init` of the new object with the
handle `ConstructObject` gave, `HandleSetTransformation`, calls that set the new object
up, and one `Execute` of the trigger on the new object.  No trigger is executed on
another object, and the new object's `InUse` flag is clear on return. -/
theorem ExecuteTriggerEx_uses_a_new_object (env : Env) (request : CAudioRequest) (s : State)
    (impl : ImplPtr) (pTrigger : Nat) (name : String) (entityId : EntityId)
    (transformation : Payload) (setCurrentEnvironments : Bool) (occlusionType : EOcclusionType)
    (triggerId : ControlId)
    (hTrigger : find_in_map s.w.g_triggers triggerId = some pTrigger)
    (hImpl : s.g_pIImpl = some impl)
    (hAreas : env.areasFitBuffer)
    (hTarget : request.pObject ≠ some s.objectsAllocated)
    (hGlobal : s.g_pObject ≠ some s.objectsAllocated) :
    ∃ s' calls setup,
      ProcessAudioObjectRequest env request (.ExecuteTriggerEx name entityId transformation
          setCurrentEnvironments occlusionType triggerId) s = .ok (.Success, s')
      ∧ s'.trace = s.trace ++ calls
      ∧ calls = [.Object_new s.objectsAllocated,
            .ObjectManager (.RegisterObject (some s.objectsAllocated)),
            .Impl impl (.ConstructObject (if env.production then some name else none)),
            .Object (some s.objectsAllocated)
              (.Init (if env.production then some name else none)
                (implConstruct env impl (s.trace ++ [.Object_new s.objectsAllocated,
                  .ObjectManager (.RegisterObject (some s.objectsAllocated)),
                  .Impl impl (.ConstructObject (if env.production then some name else none))]))
                entityId),
            .Object (some s.objectsAllocated) (.HandleSetTransformation transformation 0)]
          ++ setup
          ++ [.Trigger pTrigger (.Execute (some s.objectsAllocated) request.pOwner
                request.pUserData request.pUserDataOwner request.flags)]
      ∧ (∀ c ∈ setup, c.isSetupOf s.objectsAllocated = true)
      ∧ (∀ t o a b c f, .Trigger t (.Execute o a b c f) ∈ calls →
          t = pTrigger ∧ o = some s.objectsAllocated
          ∧ o ≠ targetObject request s ∧ o ≠ s.g_pObject)
      ∧ (s'.w.objects s.objectsAllocated).m_flags.InUse = false
      ∧ s'.objectsAllocated = s.objectsAllocated + 1
      ∧ s'.g_pIImpl = s.g_pIImpl
      ∧ s'.g_pObject = s.g_pObject := by
  obtain ⟨s1, setup, hOk, hTrace, hSetup, h1, h2, h3⟩ := initObject_ok env s.objectsAllocated
    name entityId transformation setCurrentEnvironments occlusionType
    ((s.newObject env).call env (.ObjectManager (.RegisterObject (some s.objectsAllocated))))
    impl (by simp [hImpl]) hAreas
  have hFreshTarget : some s.objectsAllocated ≠ targetObject request s := by
    unfold targetObject
    split
    · exact fun h => hTarget h.symm
    · exact fun h => hGlobal h.symm
  refine ⟨(s1.call env (.Trigger pTrigger (.Execute (some s.objectsAllocated) request.pOwner
      request.pUserData request.pUserDataOwner request.flags))).RemoveFlag s.objectsAllocated
      .InUse, _, setup, ?_, ?_, rfl, hSetup, ?_, ?_, ?_, ?_, ?_⟩
  · simp only [ProcessAudioObjectRequest, hTrigger, hOk]
  · simp only [State.RemoveFlag_trace, State.call_fields, hTrace, State.newObject_fields]
    simp
  · intro t o a b c f hMem
    simp only [List.mem_append, List.mem_cons, List.mem_singleton, List.not_mem_nil,
      or_false, reduceCtorEq, false_or] at hMem
    rcases hMem with hMem | hMem
    · have := hSetup _ hMem
      simp [Call.isSetupOf] at this
    · cases hMem
      exact ⟨rfl, rfl, hFreshTarget, fun h => hGlobal h.symm⟩
  · simp [ObjectFlags.RemoveFlag]
  · show s1.objectsAllocated = _
    rw [h3]
    simp
  · show s1.g_pIImpl = _
    rw [h1]
    simp
  · show s1.g_pObject = _
    rw [h2]
    simp

/-- C27 at concrete inputs: trigger 4 is in the table, the request names no object, and
the next address is 1. -/
theorem ExecuteTriggerEx_uses_a_new_object_witness :
    ∃ s', ProcessAudioObjectRequest Example.env Example.request
        (.ExecuteTriggerEx "shot" 2 0 true .Ignore 4) Example.withTrigger = .ok (.Success, s')
      ∧ (s'.w.objects 1).m_flags.InUse = false
      ∧ s'.objectsAllocated = 2 := by
  obtain ⟨s', -, -, h, -, -, -, -, hFlag, hCount, -⟩ := ExecuteTriggerEx_uses_a_new_object
    Example.env Example.request Example.withTrigger (.user 7) 40 "shot" 2 0 true .Ignore 4
    rfl rfl (fun _ _ _ h => by cases h) (by decide) (by decide)
  exact ⟨s', h, hFlag, hCount⟩

/-! ## The assertion on the Global Object's handle -/

/-- `SetImpl.adopt` returns with a backend active; it leaves `g_pObject` alone, does not
trip the assertion on the Global Object's handle, and, when `Init`, `GetInfo` and
`Release` keep the handle of `g`, leaves that handle as it was. -/
theorem SetImpl.adopt_keeps_handle (env : Env) (pIImpl : Option ImplPtr) (s : State) :
    ∃ result s1 ext impl, SetImpl.adopt env pIImpl s = .ok (result, s1)
      ∧ s1.trace = s.trace ++ ext
      ∧ Call.CryAssert .SetImpl_globalObjectImplDataNull ∉ ext
      ∧ s1.g_pIImpl = some impl
      ∧ s1.g_pObject = s.g_pObject
      ∧ ∀ g, env.adoptKeepsImplData g →
          (s1.w.objects g).m_pImplData = (s.w.objects g).m_pImplData := by
  cases pIImpl with
  | none =>
    refine ⟨_, _, [.Log .Warning, .NullImpl_new s.nullImplsAllocated,
      .Impl (.null s.nullImplsAllocated) (.Init s.m_objectPoolSize s.m_eventPoolSize),
      .Impl (.null s.nullImplsAllocated) .GetInfo], .null s.nullImplsAllocated, rfl, ?_, ?_, ?_,
      ?_, ?_⟩
    · simp [State.call, State.record, State.newNullImpl, implStatus]
    · simp
    · simp [State.call, State.record, State.newNullImpl, implStatus]
    · simp [State.call, State.record, State.newNullImpl, implStatus]
    · intro g hg
      simp only [State.call, State.record, State.newNullImpl, implStatus, ne_eq,
        not_true_eq_false, if_false]
      rw [hg _ (.Impl (.null s.nullImplsAllocated) .GetInfo) _ rfl,
        hg _ (.Impl (.null s.nullImplsAllocated)
          (.Init s.m_objectPoolSize s.m_eventPoolSize)) _ rfl]
  | some impl =>
    by_cases hInit : implStatus env impl
        (s.trace ++ [.Impl impl (.Init s.m_objectPoolSize s.m_eventPoolSize)]) = .Success
    · refine ⟨_, _, [.Impl impl (.Init s.m_objectPoolSize s.m_eventPoolSize),
        .Impl impl .GetInfo], impl, rfl, ?_, ?_, ?_, ?_, ?_⟩
      · simp [State.call, hInit]
      · simp
      · simp [State.call, hInit]
      · simp [State.call, hInit]
      · intro g hg
        simp only [State.call, ne_eq, hInit, not_true_eq_false, if_false]
        rw [hg _ (.Impl impl .GetInfo) _ rfl,
          hg _ (.Impl impl (.Init s.m_objectPoolSize s.m_eventPoolSize)) _ rfl]
    · refine ⟨_, _, [.Impl impl (.Init s.m_objectPoolSize s.m_eventPoolSize),
        .Impl impl .GetInfo, .Log .Error, .Impl impl .Release,
        .NullImpl_new s.nullImplsAllocated], .null s.nullImplsAllocated, rfl, ?_, ?_, ?_,
        ?_, ?_⟩
      · simp [State.call, State.record, State.newNullImpl, hInit]
      · simp
      · simp [State.call, State.record, State.newNullImpl, hInit]
      · simp [State.call, State.record, State.newNullImpl, hInit]
      · intro g hg
        simp only [State.call, State.record, State.newNullImpl, ne_eq, hInit,
          not_false_eq_true, if_true]
        rw [hg _ (.Impl impl .Release) _ rfl, hg _ (.Impl impl .GetInfo) _ rfl,
          hg _ (.Impl impl (.Init s.m_objectPoolSize s.m_eventPoolSize)) _ rfl]

/-- The calls of lines 1153-1158: the assertion, when the Global Object has a handle, and
then `ConstructGlobalObject` and the three `OnAfterImplChanged`. -/
theorem SetImpl.bindGlobalObject_trace (env : Env) (pObject : ObjPtr) (impl : ImplPtr)
    (s : State) :
    (SetImpl.bindGlobalObject env pObject impl s).trace
      = s.trace
        ++ assertion ((s.w.objects pObject).m_pImplData == none)
            .SetImpl_globalObjectImplDataNull
        ++ [.Impl impl .ConstructGlobalObject, .ObjectManager .OnAfterImplChanged,
            .EventManager .OnAfterImplChanged, .ListenerManager .OnAfterImplChanged] := by
  simp [SetImpl.bindGlobalObject, assertion]

/-- The last part of `SetImpl` with a backend active: it returns, and it trips the
assertion on the Global Object's handle exactly when there is a Global Object already
and it has a handle. -/
theorem SetImpl.finish_assertion (env : Env) (result : ERequestStatus) (s : State)
    (impl : ImplPtr) (hImpl : s.g_pIImpl = some impl) :
    ∃ s' ext, SetImpl.finish env result s = .ok (result, s')
      ∧ s'.trace = s.trace ++ ext
      ∧ (Call.CryAssert .SetImpl_globalObjectImplDataNull ∈ ext ↔
          ∃ g, s.g_pObject = some g ∧ (s.w.objects g).m_pImplData ≠ none) := by
  obtain ⟨hg1, hg2, hg3, -⟩ := SetImpl.globalObject_fields env s
  obtain ⟨s3, rest, hL, hl1, hR, -⟩ :=
    SetImplLanguage_ok env (SetImpl.bindGlobalObject env (s.g_pObject.getD s.objectsAllocated)
      impl (SetImpl.globalObject env s)) impl (by
        obtain ⟨-, -, -, -, hb3, -⟩ := SetImpl.bindGlobalObject_fields env
          (s.g_pObject.getD s.objectsAllocated) impl (SetImpl.globalObject env s)
        rw [hb3, hg3, hImpl])
  have hHandle : ((SetImpl.globalObject env s).w.objects
      (s.g_pObject.getD s.objectsAllocated)).m_pImplData ≠ none ↔
      ∃ g, s.g_pObject = some g ∧ (s.w.objects g).m_pImplData ≠ none := by
    cases hObject : s.g_pObject with
    | none =>
      have hNew : ((SetImpl.globalObject env s).w.objects s.objectsAllocated).m_pImplData
          = none := by
        simp only [SetImpl.globalObject, hObject]
        rw [(State.newObject_fields s env).2.1]
        rfl
      simp [hNew]
    | some g =>
      simp [SetImpl.globalObject, hObject]
  refine ⟨s3, (if s.g_pObject = none then [.Object_new s.objectsAllocated] else [])
    ++ assertion (((SetImpl.globalObject env s).w.objects
        (s.g_pObject.getD s.objectsAllocated)).m_pImplData == none)
        .SetImpl_globalObjectImplDataNull
    ++ [.Impl impl .ConstructGlobalObject, .ObjectManager .OnAfterImplChanged,
        .EventManager .OnAfterImplChanged, .ListenerManager .OnAfterImplChanged]
    ++ Call.Console_GetCVar_languageAudio :: rest, ?_, ?_, ?_⟩
  · simp only [SetImpl.finish, hg2, hg3, hImpl, hL]
  · rw [hl1, SetImpl.bindGlobalObject_trace, hg1]
    simp
  · rw [← hHandle]
    rcases hR with hR | ⟨language, hR⟩ <;> by_cases hO : s.g_pObject = none <;>
      by_cases hH : ((SetImpl.globalObject env s).w.objects
        (s.g_pObject.getD s.objectsAllocated)).m_pImplData = none <;>
      simp [assertion, hR, hO, hH]

/-- C28: `SetImpl` in a state where the Global Object exists exactly when a backend is
active.  Called when no backend is active, or with a backend other than the active one,
it does not trip the assertion that the Global Object has no handle: the Global Object it
looks at is the one it has just created.  Called with the backend that is already active
it makes no teardown, and it trips the assertion exactly when the Global Object still has
a handle (`Init`, `GetInfo` and `Release` being assumed to leave that handle alone). -/
theorem SetImpl_global_object_assertion (env : Env) (pIImpl : Option ImplPtr) (s : State)
    (hwf : s.backendHasGlobalObject) (hwf2 : s.globalObjectHasBackend) :
    ∃ result s' ext, SetImpl env pIImpl s = .ok (result, s')
      ∧ s'.trace = s.trace ++ ext
      ∧ ((s.g_pIImpl = none ∨ pIImpl ≠ s.g_pIImpl) →
          Call.CryAssert .SetImpl_globalObjectImplDataNull ∉ ext)
      ∧ (∀ impl g, s.g_pIImpl = some impl → pIImpl = some impl → s.g_pObject = some g →
          env.adoptKeepsImplData g →
          (Call.CryAssert .SetImpl_globalObjectImplDataNull ∈ ext ↔
            (s.w.objects g).m_pImplData ≠ none)) := by
  by_cases hRelease : s.g_pIImpl ≠ none ∧ pIImpl ≠ s.g_pIImpl
  · obtain ⟨hActive, hOther⟩ := hRelease
    obtain ⟨old, hOld⟩ := Option.ne_none_iff_exists'.mp hActive
    obtain ⟨g, hg⟩ := Option.ne_none_iff_exists'.mp (hwf hActive)
    obtain ⟨s0, h, h0, hTrace0, -, hObject0, -⟩ := ReleaseImpl_ok env s old g hOld hg
    obtain ⟨r, s1, ext1, impl1, hAdopt, hTrace1, hNot1, hImpl1, hObject1, -⟩ :=
      SetImpl.adopt_keeps_handle env pIImpl s0
    obtain ⟨s2, ext2, hFinish, hTrace2, hIff⟩ := SetImpl.finish_assertion env r s1 impl1 hImpl1
    have hNot2 : Call.CryAssert .SetImpl_globalObjectImplDataNull ∉ ext2 := by
      rw [hIff, hObject1, hObject0]
      simp
    refine ⟨r, s2, ReleaseImpl.calls old g h ++ ext1 ++ ext2, ?_, ?_, ?_, ?_⟩
    · simp only [SetImpl, ne_eq, hActive, not_false_eq_true, hOther, and_self, if_true, h0,
        hAdopt, hFinish]
    · rw [hTrace2, hTrace1, hTrace0]
      simp [ReleaseImpl.calls]
    · intro _
      simp only [List.mem_append, not_or]
      exact ⟨⟨by simp [ReleaseImpl.calls], hNot1⟩, hNot2⟩
    · intro impl g' hImpl hSame _ _
      exact absurd (hSame.trans hImpl.symm) hOther
  · obtain ⟨r, s1, ext1, impl1, hAdopt, hTrace1, hNot1, hImpl1, hObject1, hHandle1⟩ :=
      SetImpl.adopt_keeps_handle env pIImpl s
    obtain ⟨s2, ext2, hFinish, hTrace2, hIff⟩ := SetImpl.finish_assertion env r s1 impl1 hImpl1
    refine ⟨r, s2, ext1 ++ ext2, ?_, ?_, ?_, ?_⟩
    · simp only [SetImpl, if_neg hRelease, hAdopt, hFinish]
    · rw [hTrace2, hTrace1]
      simp
    · intro hCase
      have hNone : s.g_pIImpl = none := by
        rcases hCase with hNone | hOther
        · exact hNone
        · by_contra hActive
          exact hRelease ⟨hActive, hOther⟩
      have hNoObject : s.g_pObject = none := by
        by_contra hObject
        exact hwf2 hObject hNone
      simp only [List.mem_append, not_or]
      refine ⟨hNot1, ?_⟩
      rw [hIff, hObject1, hNoObject]
      simp
    · intro impl g hImpl _ hObject hKeep
      simp only [List.mem_append, hNot1, false_or]
      rw [hIff, hObject1, hObject]
      simp [hHandle1 g hKeep]

/-- C28 at concrete inputs: `SetImpl` with backend 7 on the initial state does not trip
the assertion; called again with backend 7 on the state the first call left, it does. -/
theorem SetImpl_global_object_assertion_witness :
    (∃ r, SetImpl Example.env (some (.user 7)) Example.state = .ok (r, Example.afterSetImpl)
      ∧ Call.CryAssert .SetImpl_globalObjectImplDataNull ∉ Example.afterSetImpl.trace)
    ∧ ∃ r s2 ext, SetImpl Example.env (some (.user 7)) Example.afterSetImpl = .ok (r, s2)
      ∧ s2.trace = Example.afterSetImpl.trace ++ ext
      ∧ Call.CryAssert .SetImpl_globalObjectImplDataNull ∈ ext := by
  constructor
  · obtain ⟨r, s1, ext, h, hTrace, hNot, -⟩ := SetImpl_global_object_assertion Example.env
      (some (.user 7)) Example.state (fun h => absurd rfl h) (fun h => absurd rfl h)
    have hEq : Example.afterSetImpl = s1 := by
      simp only [Example.afterSetImpl, h]
    rw [hEq]
    refine ⟨r, h, ?_⟩
    rw [hTrace]
    simpa [Example.state] using hNot (Or.inl rfl)
  · have hImpl : Example.afterSetImpl.g_pIImpl = some (.user 7) := rfl
    have hObject : Example.afterSetImpl.g_pObject = some 0 := rfl
    obtain ⟨r, s2, ext, h, hTrace, -, hIff⟩ := SetImpl_global_object_assertion Example.env
      (some (.user 7)) Example.afterSetImpl
      (fun _ => by rw [hObject]; simp) (fun _ => by rw [hImpl]; simp)
    refine ⟨r, s2, ext, h, hTrace, (hIff (.user 7) 0 hImpl rfl hObject
      (fun _ _ _ _ => rfl)).mpr ?_⟩
    decide

/-! ## The second invariant assumed of `SetImpl`'s initial state

`State.globalObjectHasBackend` holds before any backend is set and every request keeps
it, so it holds whenever `SetImpl` is reached through `ProcessRequest`. -/

theorem ReleaseImpl_clears_globalObject (env : Env) (s s' : State)
    (h : ReleaseImpl env s = .ok s') : s'.g_pObject = none := by
  unfold ReleaseImpl at h
  simp only at h
  split at h
  · cases h
    rfl
  · cases h

theorem SetImpl.finish_has_backend (env : Env) (result r : ERequestStatus) (s s' : State)
    (h : SetImpl.finish env result s = .ok (r, s')) : s'.g_pIImpl ≠ none := by
  unfold SetImpl.finish at h
  simp only at h
  split at h
  · rename_i pObject impl hObject hImpl
    split at h
    · rename_i s2 hLanguage
      cases h
      rw [(SetImplLanguage_sameGlobals env _ _ hLanguage).1]
      obtain ⟨-, -, -, -, hb, -⟩ := SetImpl.bindGlobalObject_fields env pObject impl
        (SetImpl.globalObject env s)
      rw [hb, hImpl]
      simp
    · cases h
  · cases h

theorem SetImpl_has_backend (env : Env) (pIImpl : Option ImplPtr) (r : ERequestStatus)
    (s s' : State) (h : SetImpl env pIImpl s = .ok (r, s')) : s'.g_pIImpl ≠ none := by
  unfold SetImpl at h
  simp only at h
  split at h
  · cases h
  · split at h
    · cases h
    · exact SetImpl.finish_has_backend env _ _ _ _ h

theorem ProcessAudioManagerRequest_keeps_globalObjectHasBackend (env : Env)
    (request : CAudioRequest) (d : SAudioManagerRequestData) (r : ERequestStatus)
    (s s' : State) (h : ProcessAudioManagerRequest env request d s = .ok (r, s'))
    (hwf : s.globalObjectHasBackend) : s'.globalObjectHasBackend := by
  have keep : s.sameGlobals s' → s'.globalObjectHasBackend := by
    intro hSame hObject
    rw [hSame.1]
    exact hwf (by rw [← hSame.2]; exact hObject)
  cases d <;> simp only [ProcessAudioManagerRequest] at h
  case SetAudioImpl pIImpl => exact fun _ => SetImpl_has_backend env _ _ _ _ h
  case RefreshAudioSystem levelName => exact keep (RefreshAudioSystem_sameGlobals env _ _ _ _ h)
  case ReleaseAudioImpl =>
    split at h
    · rename_i s1 hRelease
      cases h
      exact fun hObject => absurd (ReleaseImpl_clears_globalObject env _ _ hRelease) hObject
    · cases h
  case ChangeLanguage =>
    split at h
    · rename_i s1 hLanguage
      cases h
      obtain ⟨h1, h2⟩ := SetImplLanguage_sameGlobals env _ _ hLanguage
      exact keep ⟨h1, h2⟩
    · cases h
  all_goals
    apply keep
    repeat' split at h
    all_goals
      cases h <;> simp [State.sameGlobals]

/-- Before any backend is set there is no Global Object. -/
theorem globalObjectHasBackend_initially : Example.state.globalObjectHasBackend :=
  fun h => absurd rfl h

/-- Every request that `ProcessRequest` completes keeps the second invariant. -/
theorem ProcessRequest_keeps_globalObjectHasBackend (env : Env) (request r : CAudioRequest)
    (s s' : State) (h : ProcessRequest env request s = .ok (r, s'))
    (hwf : s.globalObjectHasBackend) : s'.globalObjectHasBackend := by
  have keep : ∀ s1 : State, s.sameGlobals s1 → s1.globalObjectHasBackend := by
    intro s1 hSame hObject
    rw [hSame.1]
    exact hwf (by rw [← hSame.2]; exact hObject)
  unfold ProcessRequest at h
  split at h
  · cases h
    exact hwf
  · split at h
    · rename_i result s1 hHandler
      cases h
      exact keep _ (ProcessAudioObjectRequest_sameGlobals env _ _ _ _ _ hHandler)
    · cases h
  · split at h
    · rename_i result s1 hHandler
      cases h
      exact keep _ (ProcessAudioListenerRequest_sameGlobals env _ _ _ _ hHandler)
    · cases h
  · split at h
    · rename_i result request1 s1 hHandler
      cases h
      exact keep _ (ProcessAudioCallbackManagerRequest_sameGlobals env _ _ _ _ _ _ hHandler)
    · cases h
  · split at h
    · rename_i result s1 hHandler
      cases h
      exact ProcessAudioManagerRequest_keeps_globalObjectHasBackend env _ _ _ _ _ hHandler hwf
    · cases h
  · cases h
    exact keep _ (by simp [State.sameGlobals])

end CryAudio
